import Mathlib

/-!
OpenDDS built-in authentication plugin: handshake engine.

A shallow embedding of `dds/DCPS/security/AuthenticationBuiltInImpl.cpp`.

* `std::string` and C strings are lists of characters (`Str`).
* `uint64_t` handles are natural numbers; the allocator reduces modulo `2^64`.
* The two `std::map` registries are finite maps written as functions
  `Handle → Option record`; a reference-counted record pointer obtained by a
  lookup is the record stored under that key, and a write through the pointer
  is an update of the map at that key.
* Every operation takes the plugin state and the in/out reference parameters
  and returns the result code together with the new state and the new values
  of the reference parameters.

Two smaller embeddings follow the plugin: `DataLinkSet::remove_links` of
`dds/DCPS/transport/framework/DataLinkSet.cpp`, and dereference, subscript and sum
of `SequenceIteratorBase` of `dds/DCPS/sequence_iterator.h`.
-/

namespace OpenDDS.Security

/-! ## Basic types -/

/-- One octet (`unsigned char`, `CORBA::Octet`). -/
abbrev Octet := Fin 256

/-- The type `DDS::OctetSeq`. -/
abbrev OctetSeq := List Octet

/-- The contents of a `std::string` / NUL-terminated C string. -/
abbrev Str := List Char

/-- The integer handle types `IdentityHandle` and `HandshakeHandle` (`uint64_t`). -/
abbrev Handle := Nat

/-- The enumeration `DDS::Security::ValidationResult_t`. -/
inductive ValidationResult_t where
  | VALIDATION_OK
  | VALIDATION_FAILED
  | VALIDATION_PENDING_RETRY
  | VALIDATION_PENDING_HANDSHAKE_REQUEST
  | VALIDATION_PENDING_HANDSHAKE_MESSAGE
  | VALIDATION_OK_FINAL_MESSAGE
  deriving DecidableEq, Repr

open ValidationResult_t

/-- The error-detail record `DDS::Security::SecurityException`. -/
structure SecurityException where
  code : Int
  minor_code : Int
  message : Str
  deriving DecidableEq, Repr

/-- The participant identifier `OpenDDS::DCPS::GUID_t`, given by the 16 octets of
its object representation (12 octets of guid prefix, 3 of entity key, 1 of
entity kind), which is what `is_handshake_initiator` reads. -/
structure GUID_t where
  bytes : List Octet
  size_eq : bytes.length = 16
  deriving DecidableEq

/-! ## Tokens and the property-list codec -/

/-- A string property of a token (`DDS::Property_t`). -/
structure Property_t where
  name : Str
  value : Str
  propagate : Bool
  deriving DecidableEq, Repr

/-- A binary property of a token (`DDS::BinaryProperty_t`). -/
structure BinaryProperty_t where
  name : Str
  value : OctetSeq
  propagate : Bool
  deriving DecidableEq, Repr

/-- A token (`DDS::Security::Token` and its typedefs): a class identifier with a
list of string properties and a list of binary properties. -/
structure Token where
  class_id : Str
  properties : List Property_t
  binary_properties : List BinaryProperty_t
  deriving DecidableEq, Repr

/-- The constant `DDS::Security::TokenNIL`. -/
def TokenNIL : Token := ⟨[], [], []⟩

/-- Modelled from the spec: `TokenReader::is_nil` (TokenReader.cpp is not among the
sources). A token is nil when it is empty: no class identifier and no property. -/
def TokenReader.is_nil (t : Token) : Bool :=
  t.class_id.isEmpty && t.properties.isEmpty && t.binary_properties.isEmpty

/-- Modelled from the spec: `TokenReader::get_bin_property_value` (TokenReader.cpp is
not among the sources): the value of the first binary property of that name, the
empty sequence when there is none. -/
def TokenReader.get_bin_property_value (t : Token) (name : Str) : OctetSeq :=
  match t.binary_properties.find? (fun p => p.name == name) with
  | some p => p.value
  | none => []

/-- Length change of a CORBA sequence: the leading elements are kept, new
positions hold default elements. -/
def seq_length {α : Type} (dflt : α) (l : List α) (n : Nat) : List α :=
  l.take n ++ List.replicate (n - l.length) dflt

/-- Modelled from the spec: the `TokenWriter` constructor (TokenWriter.cpp is not among
the sources): "construct with (class-id, string-property count, binary-property
count)". It stamps the class identifier on the referenced token and gives its two
property lists the declared lengths. -/
def TokenWriter (token : Token) (class_id : Str) (num_properties num_bin_properties : Nat) :
    Token :=
  { class_id := class_id
    properties := seq_length ⟨[], [], false⟩ token.properties num_properties
    binary_properties := seq_length ⟨[], [], false⟩ token.binary_properties num_bin_properties }

/-- Modelled from the spec: `TokenWriter::set_property` (TokenWriter.cpp is not among the
sources): "set properties by index". An index outside the declared count stores
nothing. -/
def TokenWriter.set_property (t : Token) (i : Nat) (name value : Str) (propagate : Bool) :
    Token :=
  { t with properties := t.properties.set i ⟨name, value, propagate⟩ }

/-- Modelled from the spec: `TokenWriter::set_bin_property` (TokenWriter.cpp is not among
the sources): "set properties by index". An index outside the declared count
stores nothing. -/
def TokenWriter.set_bin_property (t : Token) (i : Nat) (name : Str) (value : OctetSeq)
    (propagate : Bool) : Token :=
  { t with binary_properties := t.binary_properties.set i ⟨name, value, propagate⟩ }

/-- Modelled from the spec: the `set_bin_property` overload of `TokenWriter` that takes a
`std::string` value (TokenWriter.cpp is not among the sources): the value stored is
the text of the string as octets, one per character in order, without a terminator. -/
def string_octets (s : Str) : OctetSeq :=
  s.map (fun c => Fin.ofNat c.toNat)

/-! ## File-level constants -/

def Auth_Plugin_Name : Str := "DDS:Auth:PKI-DH".toList
def Auth_Plugin_Major_Version : Str := "1".toList
def Auth_Plugin_Minor_Version : Str := "0".toList
def Identity_Status_Token_Class_Id : Str := "DDS:Auth:PKI-DH:1.0".toList
def Auth_Peer_Cred_Token_Class_Id : Str := "DDS:Auth:PKI-DH:1.0".toList
def Auth_Request_Class_Ext : Str := "AuthReq".toList
def Handshake_Request_Class_Ext : Str := "Req".toList
def Handshake_Reply_Class_Ext : Str := "Reply".toList
def Handshake_Final_Class_Ext : Str := "Final".toList
def Empty_Seq : OctetSeq := []
def AlgoName : Str := "RSASSA-PSS-SHA256".toList
def AgreementAlgo : Str := "DH+MODP-2048-256".toList

/-! ## Class-identifier codec -/

/-- The function `AuthenticationBuiltInImpl::build_class_id`. -/
def build_class_id (message_ext : Str) : Str :=
  Auth_Plugin_Name ++ ":".toList ++ Auth_Plugin_Major_Version
    ++ ".".toList ++ Auth_Plugin_Minor_Version
    ++ "+".toList ++ message_ext

/-- The position `std::string::find_last_of(c)`, `none` standing for `npos`. -/
def find_last_of (s : Str) (c : Char) : Option Nat :=
  match s with
  | [] => none
  | x :: xs =>
    match find_last_of xs c with
    | some i => some (i + 1)
    | none => if x = c then some 0 else none

/-- The position `std::string::find_first_of(c, pos)`, `none` standing for `npos`. -/
def find_first_of (s : Str) (c : Char) (pos : Nat) : Option Nat :=
  match (s.drop pos).indexOf? c with
  | some i => some (pos + i)
  | none => none

/-- The substring `std::string::substr(pos, n)` for `pos ≤ size`. -/
def substr (s : Str) (pos n : Nat) : Str := (s.drop pos).take n

/-- The text a `std::string` hands over as a C string (`c_str()`, and the conversion
back by `std::string(const char*)`): its characters up to the first NUL. -/
def c_str (s : Str) : Str := s.takeWhile (fun c => c != Char.ofNat 0)

/-- The function `AuthenticationBuiltInImpl::get_extension`; the argument is the text
of the C string `class_id`. -/
def get_extension (class_id : Str) : Str :=
  match find_last_of class_id '+' with
  | some extension_delim_pos =>
    let start_ext_pos := extension_delim_pos + 1
    if start_ext_pos < class_id.length then class_id.drop start_ext_pos else []
  | none => []

/-- The function `AuthenticationBuiltInImpl::check_class_versions`; `none` is the null
pointer. -/
def check_class_versions (remote_class_id : Option Str) : Bool :=
  match remote_class_id with
  | none => false
  | some class_id_str =>
    match find_last_of class_id_str ':' with
    | some colon_pos =>
      if colon_pos > 0 then
        let remote_class_name := substr class_id_str 0 colon_pos
        if Auth_Plugin_Name = remote_class_name then
          let major_start := colon_pos + 1
          match find_first_of class_id_str '.' major_start with
          | some period_pos =>
            if period_pos > major_start then
              let major_version := substr class_id_str major_start (period_pos - major_start)
              if Auth_Plugin_Major_Version = major_version then true else false
            else false
          | none => false
        else false
      else false
    | none => false

/-! ## Tie-break selector -/

/-- The algorithm `std::lexicographical_compare` on two octet ranges. -/
def lexicographical_compare : List Octet → List Octet → Bool
  | [], [] => false
  | [], _ :: _ => true
  | _ :: _, [] => false
  | a :: as, b :: bs =>
    if a < b then true
    else if b < a then false
    else lexicographical_compare as bs

/-- The function `AuthenticationBuiltInImpl::is_handshake_initiator`. -/
def is_handshake_initiator (loc remote : GUID_t) : Bool :=
  lexicographical_compare loc.bytes remote.bytes

/-! ## Records and plugin state -/

/-- The object `SharedSecret` behind a `SharedSecretHandle`. -/
structure SharedSecret where
  challenge1_ : OctetSeq
  challenge2_ : OctetSeq
  shared_secret_ : OctetSeq
  deriving DecidableEq, Repr

/-- The accessor `SharedSecret::challenge1`. -/
def SharedSecret.challenge1 (x : SharedSecret) : OctetSeq := x.challenge1_

/-- The accessor `SharedSecret::challenge2`. -/
def SharedSecret.challenge2 (x : SharedSecret) : OctetSeq := x.challenge1_

/-- The accessor `SharedSecret::sharedSecret`. -/
def SharedSecret.sharedSecret (x : SharedSecret) : OctetSeq := x.shared_secret_

/-- Modelled from the spec: the record type `IdentityData` (declared in
AuthenticationBuiltInImpl.h, not among the sources): "participant identifier, an
optional back-reference to the local identity handle this remote is paired with
(set only for remote records), an optional outgoing and incoming auth-request
challenge token, an optional permissions-credential token, an optional permissions
token". The back-reference `local_handle` is a plain handle, as
`validate_remote_identity` assigns it and `begin_handshake_request` and
`begin_handshake_reply` compare it; a token that is not set is `TokenNIL`. -/
structure IdentityData where
  participant_guid : GUID_t
  local_handle : Handle
  local_auth_request : Token
  remote_auth_request : Token
  permissions_cred_token : Token
  permissions_token : Token
  deriving DecidableEq

/-- Modelled from the spec: the record type `HandshakeData` (declared in
AuthenticationBuiltInImpl.h, not among the sources): "local identity handle, remote
identity handle, a boolean indicating whether this side is the initiator, a
validation state, and on completion, a shared-secret handle". -/
structure HandshakeData where
  local_identity_handle : Handle
  remote_identity_handle : Handle
  local_initiator : Bool
  validation_state : ValidationResult_t
  secret_handle : Option SharedSecret
  deriving DecidableEq

/-- The participant identifier with all octets zero. -/
def GUID_UNKNOWN : GUID_t := ⟨List.replicate 16 0, by decide⟩

/-- A default-constructed identity record, as made by `DCPS::make_rch<IdentityData>()`:
the record is value-initialised, so the handle field, which `validate_local_identity`
never assigns, holds the nil handle 0. -/
def IdentityData.make_rch : IdentityData :=
  { participant_guid := GUID_UNKNOWN
    local_handle := 0
    local_auth_request := TokenNIL
    remote_auth_request := TokenNIL
    permissions_cred_token := TokenNIL
    permissions_token := TokenNIL }

/-- A default-constructed handshake record, as made by `DCPS::make_rch<HandshakeData>()`. -/
def HandshakeData.make_rch : HandshakeData :=
  { local_identity_handle := 0
    remote_identity_handle := 0
    local_initiator := false
    validation_state := VALIDATION_FAILED
    secret_handle := none }

/-- What the engine reads from an `SSL::Certificate` (external collaborator). -/
structure Certificate where
  subject_name : Str
  algorithm : Str
  deriving DecidableEq, Repr

/-- The plugin-wide credential data `LocalAuthCredentialData` (external collaborator). -/
structure LocalAuthCredentialData where
  participant_cert : Certificate
  ca_cert : Certificate
  deriving DecidableEq, Repr

/-- The external collaborators of `validate_local_identity`: credential loading,
credential validation, and `SSL::make_adjusted_guid` (which gets the candidate
identifier, the current value of the destination and the participant certificate, and
gives the error code with the new value of the destination). -/
structure External where
  load : LocalAuthCredentialData → List Property_t → LocalAuthCredentialData
  validate : LocalAuthCredentialData → Bool
  make_adjusted_guid : GUID_t → GUID_t → Certificate → Int × GUID_t

/-- The state of one plugin instance: the data members of `AuthenticationBuiltInImpl`. -/
structure AuthenticationBuiltInImpl where
  listener_ptr_ : Option Nat
  next_handle_ : Nat
  local_credential_data_ : LocalAuthCredentialData
  identity_data_ : Handle → Option IdentityData
  handshake_data_ : Handle → Option HandshakeData

/-- The constructor `AuthenticationBuiltInImpl::AuthenticationBuiltInImpl`. -/
def AuthenticationBuiltInImpl.new : AuthenticationBuiltInImpl :=
  { listener_ptr_ := none
    next_handle_ := 1
    local_credential_data_ := ⟨⟨[], []⟩, ⟨[], []⟩⟩
    identity_data_ := fun _ => none
    handshake_data_ := fun _ => none }

/-- Assignment `m[k] = v` on a `std::map`. -/
def map_assign {α : Type} (m : Handle → Option α) (k : Handle) (v : α) : Handle → Option α :=
  fun h => if h = k then some v else m h

/-- Removal `m.erase(k)` on a `std::map`. -/
def map_erase {α : Type} (m : Handle → Option α) (k : Handle) : Handle → Option α :=
  fun h => if h = k then none else m h

/-! ## Private helpers -/

/-- The function `AuthenticationBuiltInImpl::set_security_error`. -/
def set_security_error (_ex : SecurityException) (code minor_code : Int) (message : Str) :
    SecurityException :=
  { code := code, minor_code := minor_code, message := message }

/-- The function `AuthenticationBuiltInImpl::get_next_handle`: the value returned and the
state with the counter advanced (`next_handle_++` on a `uint64_t`). -/
def get_next_handle (s : AuthenticationBuiltInImpl) : Handle × AuthenticationBuiltInImpl :=
  (s.next_handle_, { s with next_handle_ := (s.next_handle_ + 1) % 2 ^ 64 })

/-- The function `AuthenticationBuiltInImpl::get_handshake_data`. -/
def get_handshake_data (s : AuthenticationBuiltInImpl) (handle : Handle) :
    Option HandshakeData :=
  s.handshake_data_ handle

/-- The function `AuthenticationBuiltInImpl::get_identity_data`. -/
def get_identity_data (s : AuthenticationBuiltInImpl) (handle : Handle) :
    Option IdentityData :=
  s.identity_data_ handle


/-! ## Results of the public operations -/

/-- What `validate_local_identity` leaves behind: return value, plugin state and the
reference parameters. -/
structure ValidateLocalRet where
  result : ValidationResult_t
  state : AuthenticationBuiltInImpl
  local_identity_handle : Handle
  adjusted_participant_guid : GUID_t
  ex : SecurityException

/-- What `validate_remote_identity` leaves behind. -/
structure ValidateRemoteRet where
  result : ValidationResult_t
  state : AuthenticationBuiltInImpl
  remote_identity_handle : Handle
  local_auth_request_token : Token
  ex : SecurityException

/-- What `begin_handshake_request` and `begin_handshake_reply` leave behind. -/
structure BeginHandshakeRet where
  result : ValidationResult_t
  state : AuthenticationBuiltInImpl
  handshake_handle : Handle
  handshake_message : Token
  ex : SecurityException

/-- What `process_handshake` and its two transitions leave behind. -/
structure ProcessHandshakeRet where
  result : ValidationResult_t
  state : AuthenticationBuiltInImpl
  handshake_message_out : Token
  ex : SecurityException

/-- What `process_final_handshake` leaves behind. -/
structure ValidationRet where
  result : ValidationResult_t
  state : AuthenticationBuiltInImpl
  ex : SecurityException

/-- What a boolean operation that fills a token leaves behind. -/
structure TokenRet where
  result : Bool
  state : AuthenticationBuiltInImpl
  token : Token
  ex : SecurityException

/-- What a boolean operation without output parameter leaves behind. -/
structure BoolRet where
  result : Bool
  state : AuthenticationBuiltInImpl
  ex : SecurityException

/-- What `get_shared_secret` leaves behind; `none` is the null handle. -/
structure SharedSecretRet where
  result : Option SharedSecret
  state : AuthenticationBuiltInImpl
  ex : SecurityException

/-! ## Identity registry -/

/-- The operation `AuthenticationBuiltInImpl::validate_local_identity`. -/
def validate_local_identity (ext : External) (s : AuthenticationBuiltInImpl)
    (local_identity_handle : Handle) (adjusted_participant_guid : GUID_t)
    (_domain_id : Int) (participant_qos : List Property_t)
    (candidate_participant_guid : GUID_t) (ex : SecurityException) : ValidateLocalRet :=
  let s1 : AuthenticationBuiltInImpl :=
    { s with local_credential_data_ := ext.load s.local_credential_data_ participant_qos }
  if ext.validate s1.local_credential_data_ then
    let adj := ext.make_adjusted_guid candidate_participant_guid adjusted_participant_guid
      s1.local_credential_data_.participant_cert
    if adj.1 = 0 then
      let alloc := get_next_handle s1
      let local_identity : IdentityData :=
        { IdentityData.make_rch with participant_guid := adj.2 }
      { result := VALIDATION_OK
        state := { alloc.2 with
          identity_data_ := map_assign alloc.2.identity_data_ alloc.1 local_identity }
        local_identity_handle := alloc.1
        adjusted_participant_guid := adj.2
        ex := ex }
    else
      { result := VALIDATION_FAILED, state := s1
        local_identity_handle := local_identity_handle
        adjusted_participant_guid := adj.2, ex := ex }
  else
    { result := VALIDATION_FAILED, state := s1
      local_identity_handle := local_identity_handle
      adjusted_participant_guid := adjusted_participant_guid, ex := ex }

/-- The part of `validate_remote_identity` between the class-identifier check and the
registration: the intermediate result and the outgoing auth-request token.
`make_nonce_256` is what the external `SSL::make_nonce_256` gives on this call
(error code and nonce). -/
def auth_request_step (make_nonce_256 : Int × OctetSeq)
    (local_auth_request_token remote_auth_request_token : Token) :
    ValidationResult_t × Token :=
  if TokenReader.is_nil remote_auth_request_token then
    if make_nonce_256.1 = 0 then
      let auth_req_wrapper :=
        TokenWriter local_auth_request_token (build_class_id Auth_Request_Class_Ext) 0 1
      (VALIDATION_OK,
        TokenWriter.set_bin_property auth_req_wrapper 0 "future_challenge".toList
          make_nonce_256.2 true)
    else (VALIDATION_FAILED, local_auth_request_token)
  else (VALIDATION_OK, TokenNIL)

/-- The operation `AuthenticationBuiltInImpl::validate_remote_identity`. -/
def validate_remote_identity (make_nonce_256 : Int × OctetSeq)
    (s : AuthenticationBuiltInImpl) (remote_identity_handle : Handle)
    (local_auth_request_token remote_auth_request_token : Token)
    (local_identity_handle : Handle) (remote_identity_token : Token)
    (remote_participant_guid : GUID_t) (ex : SecurityException) : ValidateRemoteRet :=
  match get_identity_data s local_identity_handle with
  | some local_data =>
    if check_class_versions (some remote_identity_token.class_id) then
      let step := auth_request_step make_nonce_256 local_auth_request_token
        remote_auth_request_token
      if step.1 = VALIDATION_OK then
        let newIdentityData : IdentityData :=
          { IdentityData.make_rch with
            participant_guid := remote_participant_guid
            local_handle := local_identity_handle
            local_auth_request := step.2
            remote_auth_request := remote_auth_request_token }
        let alloc := get_next_handle s
        { result :=
            if is_handshake_initiator local_data.participant_guid remote_participant_guid
            then VALIDATION_PENDING_HANDSHAKE_REQUEST
            else VALIDATION_PENDING_HANDSHAKE_MESSAGE
          state := { alloc.2 with
            identity_data_ := map_assign alloc.2.identity_data_ alloc.1 newIdentityData }
          remote_identity_handle := alloc.1
          local_auth_request_token := step.2
          ex := ex }
      else
        { result := step.1, state := s
          remote_identity_handle := remote_identity_handle
          local_auth_request_token := step.2, ex := ex }
    else
      { result := VALIDATION_FAILED, state := s
        remote_identity_handle := remote_identity_handle
        local_auth_request_token := local_auth_request_token
        ex := set_security_error ex (-1) 0 "Remote class ID is not compatible".toList }
  | none =>
    { result := VALIDATION_FAILED, state := s
      remote_identity_handle := remote_identity_handle
      local_auth_request_token := local_auth_request_token
      ex := set_security_error ex (-1) 0 "Local participant ID not found".toList }

/-! ## Handshake initiation -/

/-- The request message of `begin_handshake_request`: the token writer and its eight
`set_bin_property` calls, `prop_index` running from 0. -/
def handshake_request_message (handshake_message : Token)
    (serialized_local_participant_data : OctetSeq) (remoteData : IdentityData) : Token :=
  let w := TokenWriter handshake_message (build_class_id Handshake_Request_Class_Ext) 0 8
  let w := TokenWriter.set_bin_property w 0 "c.id".toList Empty_Seq true
  let w := TokenWriter.set_bin_property w 1 "c.perm".toList Empty_Seq true
  let w := TokenWriter.set_bin_property w 2 "c.pdata".toList
    serialized_local_participant_data true
  let w := TokenWriter.set_bin_property w 3 "c.dsign_algo".toList (string_octets AlgoName) true
  let w := TokenWriter.set_bin_property w 4 "c.kagree_algo".toList
    (string_octets AgreementAlgo) true
  let w := TokenWriter.set_bin_property w 5 "c.hash_c1".toList Empty_Seq true
  let w := TokenWriter.set_bin_property w 6 "c.ocsp_status".toList Empty_Seq true
  if !TokenReader.is_nil remoteData.local_auth_request then
    TokenWriter.set_bin_property w 7 "c.challenge1".toList
      (TokenReader.get_bin_property_value remoteData.local_auth_request
        "future_challenge".toList) true
  else
    TokenWriter.set_bin_property w 7 "c.challenge1".toList Empty_Seq true

/-- The operation `AuthenticationBuiltInImpl::begin_handshake_request`. -/
def begin_handshake_request (s : AuthenticationBuiltInImpl) (handshake_handle : Handle)
    (handshake_message : Token) (initiator_identity_handle replier_identity_handle : Handle)
    (serialized_local_participant_data : OctetSeq) (ex : SecurityException) :
    BeginHandshakeRet :=
  if serialized_local_participant_data.length = 0 then
    { result := VALIDATION_FAILED, state := s, handshake_handle := handshake_handle
      handshake_message := handshake_message
      ex := set_security_error ex (-1) 0 "No participant data provided".toList }
  else
    match get_identity_data s replier_identity_handle with
    | none =>
      { result := VALIDATION_FAILED, state := s, handshake_handle := handshake_handle
        handshake_message := handshake_message
        ex := set_security_error ex (-1) 0 "Unknown remote participant".toList }
    | some remoteData =>
      if remoteData.local_handle ≠ initiator_identity_handle then
        { result := VALIDATION_FAILED, state := s, handshake_handle := handshake_handle
          handshake_message := handshake_message
          ex := set_security_error ex (-1) 0 "Participants are not matched".toList }
      else
        let newHandshakeData : HandshakeData :=
          { HandshakeData.make_rch with
            local_identity_handle := initiator_identity_handle
            remote_identity_handle := replier_identity_handle
            local_initiator := true
            validation_state := VALIDATION_PENDING_HANDSHAKE_MESSAGE }
        let alloc := get_next_handle s
        { result := VALIDATION_PENDING_HANDSHAKE_MESSAGE
          state := { alloc.2 with
            handshake_data_ := map_assign alloc.2.handshake_data_ alloc.1 newHandshakeData }
          handshake_handle := alloc.1
          handshake_message := handshake_request_message handshake_message
            serialized_local_participant_data remoteData
          ex := ex }

/-- The reply message of `begin_handshake_reply`: the token writer declared with 13
binary properties and its fourteen `set_bin_property` calls, `prop_index` running
from 0. -/
def handshake_reply_message (handshake_message_out : Token)
    (serialized_local_participant_data : OctetSeq) (remoteData : IdentityData) : Token :=
  let w := TokenWriter handshake_message_out (build_class_id Handshake_Reply_Class_Ext) 0 13
  let w := TokenWriter.set_bin_property w 0 "c.id".toList Empty_Seq true
  let w := TokenWriter.set_bin_property w 1 "c.perm".toList Empty_Seq true
  let w := TokenWriter.set_bin_property w 2 "c.pdata".toList
    serialized_local_participant_data true
  let w := TokenWriter.set_bin_property w 3 "c.dsign_algo".toList (string_octets AlgoName) true
  let w := TokenWriter.set_bin_property w 4 "c.kagree_algo".toList
    (string_octets AgreementAlgo) true
  let w := TokenWriter.set_bin_property w 5 "hash_c2".toList Empty_Seq true
  let w := TokenWriter.set_bin_property w 6 "dh2".toList Empty_Seq true
  let w := TokenWriter.set_bin_property w 7 "hash_c1".toList Empty_Seq true
  let w := TokenWriter.set_bin_property w 8 "dh1".toList Empty_Seq true
  let w := TokenWriter.set_bin_property w 9 "challenge1".toList Empty_Seq true
  let w := TokenWriter.set_bin_property w 10 "challenge2".toList Empty_Seq true
  let w := TokenWriter.set_bin_property w 11 "ocsp_status".toList Empty_Seq true
  let w := TokenWriter.set_bin_property w 12 "signature".toList Empty_Seq true
  if !TokenReader.is_nil remoteData.local_auth_request then
    TokenWriter.set_bin_property w 13 "challenge1".toList
      (TokenReader.get_bin_property_value remoteData.local_auth_request
        "future_challenge".toList) true
  else
    TokenWriter.set_bin_property w 13 "challenge1".toList Empty_Seq true

/-- The operation `AuthenticationBuiltInImpl::begin_handshake_reply`. -/
def begin_handshake_reply (s : AuthenticationBuiltInImpl) (handshake_handle : Handle)
    (handshake_message_out : Token)
    (initiator_identity_handle replier_identity_handle : Handle)
    (serialized_local_participant_data : OctetSeq) (ex : SecurityException) :
    BeginHandshakeRet :=
  if serialized_local_participant_data.length = 0 then
    { result := VALIDATION_FAILED, state := s, handshake_handle := handshake_handle
      handshake_message := handshake_message_out
      ex := set_security_error ex (-1) 0 "No participant data provided".toList }
  else
    match get_identity_data s initiator_identity_handle with
    | none =>
      { result := VALIDATION_FAILED, state := s, handshake_handle := handshake_handle
        handshake_message := handshake_message_out
        ex := set_security_error ex (-1) 0 "Unknown remote participant".toList }
    | some remoteData =>
      if remoteData.local_handle ≠ replier_identity_handle then
        { result := VALIDATION_FAILED, state := s, handshake_handle := handshake_handle
          handshake_message := handshake_message_out
          ex := set_security_error ex (-1) 0 "Participants are not matched".toList }
      else
        let newHandshakeData : HandshakeData :=
          { HandshakeData.make_rch with
            local_identity_handle := replier_identity_handle
            remote_identity_handle := initiator_identity_handle
            local_initiator := false
            validation_state := VALIDATION_PENDING_HANDSHAKE_MESSAGE }
        let alloc := get_next_handle s
        { result := VALIDATION_PENDING_HANDSHAKE_MESSAGE
          state := { alloc.2 with
            handshake_data_ := map_assign alloc.2.handshake_data_ alloc.1 newHandshakeData }
          handshake_handle := alloc.1
          handshake_message := handshake_reply_message handshake_message_out
            serialized_local_participant_data remoteData
          ex := ex }

/-! ## Handshake protocol engine -/

/-- The final message of `process_handshake_reply`: the token writer and its seven
`set_bin_property` calls. -/
def handshake_final_message (handshake_message_out : Token) : Token :=
  let w := TokenWriter handshake_message_out (build_class_id Handshake_Final_Class_Ext) 0 7
  let w := TokenWriter.set_bin_property w 0 "hash_c1".toList Empty_Seq true
  let w := TokenWriter.set_bin_property w 1 "hash_c2".toList Empty_Seq true
  let w := TokenWriter.set_bin_property w 2 "dh1".toList Empty_Seq true
  let w := TokenWriter.set_bin_property w 3 "dh2".toList Empty_Seq true
  let w := TokenWriter.set_bin_property w 4 "challenge_1".toList Empty_Seq true
  let w := TokenWriter.set_bin_property w 5 "challenge_2".toList Empty_Seq true
  TokenWriter.set_bin_property w 6 "signature".toList Empty_Seq true

/-- The function `AuthenticationBuiltInImpl::process_handshake_reply`. -/
def process_handshake_reply (s : AuthenticationBuiltInImpl) (handshake_message_out : Token)
    (_handshake_message_in : Token) (handshake_handle : Handle) (ex : SecurityException) :
    ProcessHandshakeRet :=
  match get_handshake_data s handshake_handle with
  | none =>
    { result := VALIDATION_FAILED, state := s, handshake_message_out := handshake_message_out
      ex := set_security_error ex (-1) 0 "Unknown handshake handle".toList }
  | some handshake =>
    match get_identity_data s handshake.remote_identity_handle with
    | none =>
      { result := VALIDATION_FAILED, state := s
        handshake_message_out := handshake_message_out
        ex := set_security_error ex (-1) 0
          "Unknown remote participant for handshake".toList }
    | some _remoteData =>
      if handshake.validation_state ≠ VALIDATION_PENDING_HANDSHAKE_MESSAGE then
        { result := VALIDATION_FAILED, state := s
          handshake_message_out := handshake_message_out
          ex := set_security_error ex (-1) 0 "Handshake state is not valid".toList }
      else
        { result := VALIDATION_OK_FINAL_MESSAGE
          state := { s with
            handshake_data_ := map_assign s.handshake_data_ handshake_handle
              { handshake with
                validation_state := VALIDATION_OK_FINAL_MESSAGE
                secret_handle := some (SharedSecret.mk Empty_Seq Empty_Seq Empty_Seq) } }
          handshake_message_out := handshake_final_message handshake_message_out
          ex := ex }

/-- The function `AuthenticationBuiltInImpl::process_final_handshake`. -/
def process_final_handshake (s : AuthenticationBuiltInImpl) (_handshake_message_in : Token)
    (handshake_handle : Handle) (ex : SecurityException) : ValidationRet :=
  match get_handshake_data s handshake_handle with
  | none =>
    { result := VALIDATION_FAILED, state := s
      ex := set_security_error ex (-1) 0 "Unknown handshake handle".toList }
  | some handshake =>
    match get_identity_data s handshake.remote_identity_handle with
    | none =>
      { result := VALIDATION_FAILED, state := s
        ex := set_security_error ex (-1) 0
          "Unknown remote participant for handshake".toList }
    | some _remoteData =>
      if handshake.validation_state ≠ VALIDATION_PENDING_HANDSHAKE_MESSAGE then
        { result := VALIDATION_FAILED, state := s
          ex := set_security_error ex (-1) 0 "Handshake state is not valid".toList }
      else
        { result := VALIDATION_OK
          state := { s with
            handshake_data_ := map_assign s.handshake_data_ handshake_handle
              { handshake with
                validation_state := VALIDATION_OK
                secret_handle := some (SharedSecret.mk Empty_Seq Empty_Seq Empty_Seq) } }
          ex := ex }

/-- The operation `AuthenticationBuiltInImpl::process_handshake`. -/
def process_handshake (s : AuthenticationBuiltInImpl) (handshake_message_out : Token)
    (handshake_message_in : Token) (handshake_handle : Handle) (ex : SecurityException) :
    ProcessHandshakeRet :=
  let incoming_class_ext := get_extension handshake_message_in.class_id
  if Handshake_Reply_Class_Ext = incoming_class_ext then
    process_handshake_reply s handshake_message_out handshake_message_in handshake_handle ex
  else if Handshake_Final_Class_Ext = incoming_class_ext then
    let r := process_final_handshake s handshake_message_in handshake_handle ex
    { result := r.result, state := r.state, handshake_message_out := handshake_message_out
      ex := r.ex }
  else
    { result := VALIDATION_OK, state := s, handshake_message_out := handshake_message_out
      ex := ex }

/-- The operation `AuthenticationBuiltInImpl::get_shared_secret`. -/
def get_shared_secret (s : AuthenticationBuiltInImpl) (handshake_handle : Handle)
    (ex : SecurityException) : SharedSecretRet :=
  match get_handshake_data s handshake_handle with
  | some handshakeData => { result := handshakeData.secret_handle, state := s, ex := ex }
  | none =>
    { result := none, state := s
      ex := set_security_error ex (-1) 0 "Unknown handshake handle".toList }


/-- The operation `AuthenticationBuiltInImpl::get_authenticated_peer_credential_token`. -/
def get_authenticated_peer_credential_token (s : AuthenticationBuiltInImpl)
    (peer_credential_token : Token) (handshake_handle : Handle) (ex : SecurityException) :
    TokenRet :=
  match get_handshake_data s handshake_handle with
  | some _handshakeData =>
    let w := TokenWriter peer_credential_token Auth_Peer_Cred_Token_Class_Id 2 0
    let w := TokenWriter.set_property w 0 "c.id".toList "CertificateContents".toList true
    let w := TokenWriter.set_property w 1 "c.perm".toList "PermissionsDocument".toList true
    { result := true, state := s, token := w, ex := ex }
  | none =>
    { result := false, state := s, token := peer_credential_token
      ex := set_security_error ex (-1) 0 "Unknown handshake handle".toList }

/-- The operation `AuthenticationBuiltInImpl::return_handshake_handle`. -/
def return_handshake_handle (s : AuthenticationBuiltInImpl) (handshake_handle : Handle)
    (ex : SecurityException) : BoolRet :=
  match s.handshake_data_ handshake_handle with
  | some _ =>
    { result := true
      state := { s with handshake_data_ := map_erase s.handshake_data_ handshake_handle }
      ex := ex }
  | none =>
    { result := false, state := s
      ex := set_security_error ex (-1) 0 "Handshake handle not recognized".toList }

/-! ## Remaining identity operations -/

/-- The operation `AuthenticationBuiltInImpl::get_identity_token`. -/
def get_identity_token (s : AuthenticationBuiltInImpl) (identity_token : Token)
    (handle : Handle) (ex : SecurityException) : TokenRet :=
  match get_identity_data s handle with
  | some _local_data =>
    let pcert := s.local_credential_data_.participant_cert
    let cacert := s.local_credential_data_.ca_cert
    let w := TokenWriter identity_token "DDS:Auth:PKI-DH:1.0".toList 4 0
    let w := TokenWriter.set_property w 0 "dds.cert.sn".toList pcert.subject_name true
    let w := TokenWriter.set_property w 1 "dds.cert.algo".toList pcert.algorithm true
    let w := TokenWriter.set_property w 2 "dds.ca.sn".toList cacert.subject_name true
    let w := TokenWriter.set_property w 3 "dds.ca.algo".toList cacert.algorithm true
    { result := true, state := s, token := w, ex := ex }
  | none =>
    { result := false, state := s, token := identity_token
      ex := set_security_error ex (-1) 0 "Unknown Identity handle".toList }

/-- The operation `AuthenticationBuiltInImpl::get_identity_status_token`. -/
def get_identity_status_token (s : AuthenticationBuiltInImpl) (identity_status_token : Token)
    (handle : Handle) (ex : SecurityException) : TokenRet :=
  match get_identity_data s handle with
  | some _local_data =>
    let w := TokenWriter identity_status_token Identity_Status_Token_Class_Id 1 0
    let w := TokenWriter.set_property w 0 "dds.ocps_status".toList "TBD".toList true
    { result := true, state := s, token := w, ex := ex }
  | none =>
    { result := false, state := s, token := identity_status_token
      ex := set_security_error ex (-1) 0 "Unknown Identity handle".toList }

/-- The operation `AuthenticationBuiltInImpl::set_permissions_credential_and_token`. -/
def set_permissions_credential_and_token (s : AuthenticationBuiltInImpl) (handle : Handle)
    (permissions_credential permissions_token : Token) (ex : SecurityException) : BoolRet :=
  match get_identity_data s handle with
  | some local_data =>
    { result := true
      state := { s with
        identity_data_ := map_assign s.identity_data_ handle
          { local_data with
            permissions_cred_token := permissions_credential
            permissions_token := permissions_token } }
      ex := ex }
  | none =>
    { result := false, state := s
      ex := set_security_error ex (-1) 0 "Identity handle not recognized".toList }

/-- The operation `AuthenticationBuiltInImpl::return_identity_handle`. -/
def return_identity_handle (s : AuthenticationBuiltInImpl) (identity_handle : Handle)
    (ex : SecurityException) : BoolRet :=
  match s.identity_data_ identity_handle with
  | some _ =>
    { result := true
      state := { s with identity_data_ := map_erase s.identity_data_ identity_handle }
      ex := ex }
  | none =>
    { result := false, state := s
      ex := set_security_error ex (-1) 0 "Handshake handle not recognized".toList }

/-- The operation `AuthenticationBuiltInImpl::set_listener`; `none` is the null pointer. -/
def set_listener (s : AuthenticationBuiltInImpl) (listener : Option Nat)
    (ex : SecurityException) : BoolRet :=
  match listener with
  | none =>
    { result := false, state := s
      ex := set_security_error ex (-1) 0 "Null listener provided".toList }
  | some l => { result := true, state := { s with listener_ptr_ := some l }, ex := ex }

/-- The operations `return_identity_token`, `return_identity_status_token`,
`return_authenticated_peer_credential_token` and `return_sharedsecret_handle`: nothing
is done and `true` is returned. -/
def return_nothing (s : AuthenticationBuiltInImpl) (ex : SecurityException) : BoolRet :=
  { result := true, state := s, ex := ex }

/-! ## Specification-side vocabulary -/

/-- Spec wording ("compare their raw bytes lexicographically"), for two byte
sequences of one width: `x` sorts before `y` when, at the first position where they
differ, the byte of `x` is the smaller one. -/
def lex_before (x y : List Octet) : Prop :=
  ∃ i, i < x.length ∧ i < y.length
    ∧ (∀ j, j < i → x.getD j 0 = y.getD j 0) ∧ x.getD i 0 < y.getD i 0

/-! ## Concrete inputs used by the witnesses -/

/-- A participant identifier whose first octet is `1`, the others `0`. -/
def guid_01 : GUID_t := ⟨1 :: List.replicate 15 0, by decide⟩

/-- A participant identifier whose first octet is `2`, the others `0`. -/
def guid_02 : GUID_t := ⟨2 :: List.replicate 15 0, by decide⟩

/-- An error-detail record holding no error. -/
def ex_clear : SecurityException := ⟨0, 0, []⟩

/-- A token that carries only a class identifier built for the phase `ext`. -/
def message_with_phase (ext : Str) : Token := ⟨build_class_id ext, [], []⟩

/-- A plugin state with a local identity under handle 1, a remote identity under
handle 2 paired with it, and one handshake under handle 3 in the validation state
`st` holding the secret `sec`. -/
def plugin_with_handshake (st : ValidationResult_t) (sec : Option SharedSecret) :
    AuthenticationBuiltInImpl :=
  { listener_ptr_ := none
    next_handle_ := 4
    local_credential_data_ := ⟨⟨[], []⟩, ⟨[], []⟩⟩
    identity_data_ := fun h =>
      if h = 1 then some { IdentityData.make_rch with participant_guid := guid_01 }
      else if h = 2 then
        some { IdentityData.make_rch with participant_guid := guid_02, local_handle := 1 }
      else none
    handshake_data_ := fun h =>
      if h = 3 then some ⟨1, 2, true, st, sec⟩ else none }

/-- A plugin state holding one local identity, of identifier `g`, under handle 1. -/
def plugin_with_local (g : GUID_t) : AuthenticationBuiltInImpl :=
  { listener_ptr_ := none
    next_handle_ := 2
    local_credential_data_ := ⟨⟨[], []⟩, ⟨[], []⟩⟩
    identity_data_ := fun h =>
      if h = 1 then some { IdentityData.make_rch with participant_guid := g } else none
    handshake_data_ := fun _ => none }

/-- An identity token of the plugin's own class. -/
def identity_token_pki : Token := ⟨"DDS:Auth:PKI-DH:1.0".toList, [], []⟩

/-- A plugin state with a local identity under handle 1 and a remote identity under
handle 2 paired with it, and no handshake. -/
def plugin_with_pair : AuthenticationBuiltInImpl :=
  { listener_ptr_ := none
    next_handle_ := 3
    local_credential_data_ := ⟨⟨[], []⟩, ⟨[], []⟩⟩
    identity_data_ := fun h =>
      if h = 1 then some { IdentityData.make_rch with participant_guid := guid_01 }
      else if h = 2 then
        some { IdentityData.make_rch with participant_guid := guid_02, local_handle := 1 }
      else none
    handshake_data_ := fun _ => none }

/-- External collaborators that always succeed: the credential is kept as it is and
validates, and the adjusted identifier is `g`. -/
def ext_ok (g : GUID_t) : External :=
  { load := fun c _ => c
    validate := fun _ => true
    make_adjusted_guid := fun _ _ _ => (0, g) }

/-- Scenario, participant A: local validation on a fresh plugin. -/
def scenario_a1 : ValidateLocalRet :=
  validate_local_identity (ext_ok guid_01) AuthenticationBuiltInImpl.new 0 GUID_UNKNOWN 0 []
    guid_01 ex_clear

/-- Scenario, participant B: local validation on a fresh plugin. -/
def scenario_b1 : ValidateLocalRet :=
  validate_local_identity (ext_ok guid_02) AuthenticationBuiltInImpl.new 0 GUID_UNKNOWN 0 []
    guid_02 ex_clear

/-- Scenario, participant A validates B. -/
def scenario_a2 : ValidateRemoteRet :=
  validate_remote_identity (0, [7]) scenario_a1.state 0 TokenNIL TokenNIL
    scenario_a1.local_identity_handle identity_token_pki
    scenario_b1.adjusted_participant_guid scenario_a1.ex

/-- Scenario, participant B validates A. -/
def scenario_b2 : ValidateRemoteRet :=
  validate_remote_identity (0, [9]) scenario_b1.state 0 TokenNIL TokenNIL
    scenario_b1.local_identity_handle identity_token_pki
    scenario_a1.adjusted_participant_guid scenario_b1.ex

/-- Scenario, participant A begins the handshake request. -/
def scenario_a3 : BeginHandshakeRet :=
  begin_handshake_request scenario_a2.state 0 TokenNIL scenario_a1.local_identity_handle
    scenario_a2.remote_identity_handle [1] scenario_a2.ex

/-- Scenario, participant B begins the handshake reply. -/
def scenario_b3 : BeginHandshakeRet :=
  begin_handshake_reply scenario_b2.state 0 TokenNIL scenario_b2.remote_identity_handle
    scenario_b1.local_identity_handle [2] scenario_b2.ex

/-- Scenario, participant A processes the reply of B. -/
def scenario_a4 : ProcessHandshakeRet :=
  process_handshake scenario_a3.state TokenNIL scenario_b3.handshake_message
    scenario_a3.handshake_handle scenario_a3.ex

/-- Scenario, participant B processes the final message of A. -/
def scenario_b4 : ProcessHandshakeRet :=
  process_handshake scenario_b3.state TokenNIL scenario_a4.handshake_message_out
    scenario_b3.handshake_handle scenario_b3.ex


/-! ## Sequences of public operations -/

/-- One call of a public operation, with the arguments supplied by the caller (for
`validate_remote_identity` also what nonce generation gives on that call). -/
inductive Call where
  | validate_local_identity (lh : Handle) (adj : GUID_t) (dom : Int)
      (qos : List Property_t) (cand : GUID_t)
  | get_identity_token (tok : Token) (h : Handle)
  | get_identity_status_token (tok : Token) (h : Handle)
  | set_permissions_credential_and_token (h : Handle) (cred perm : Token)
  | validate_remote_identity (n : Int × OctetSeq) (rh : Handle) (lt rt : Token)
      (lh : Handle) (tok : Token) (g : GUID_t)
  | begin_handshake_request (hh : Handle) (msg : Token) (ini rep : Handle) (data : OctetSeq)
  | begin_handshake_reply (hh : Handle) (msg : Token) (ini rep : Handle) (data : OctetSeq)
  | process_handshake (out msg : Token) (h : Handle)
  | get_shared_secret (h : Handle)
  | get_authenticated_peer_credential_token (tok : Token) (h : Handle)
  | set_listener (listener : Option Nat)
  | return_nothing
  | return_handshake_handle (h : Handle)
  | return_identity_handle (h : Handle)

/-- The plugin state after one call. -/
def Call.run (ext : External) (s : AuthenticationBuiltInImpl) (ex : SecurityException) :
    Call → AuthenticationBuiltInImpl
  | .validate_local_identity lh adj dom qos cand =>
    (OpenDDS.Security.validate_local_identity ext s lh adj dom qos cand ex).state
  | .get_identity_token tok h => (OpenDDS.Security.get_identity_token s tok h ex).state
  | .get_identity_status_token tok h =>
    (OpenDDS.Security.get_identity_status_token s tok h ex).state
  | .set_permissions_credential_and_token h cred perm =>
    (OpenDDS.Security.set_permissions_credential_and_token s h cred perm ex).state
  | .validate_remote_identity n rh lt rt lh tok g =>
    (OpenDDS.Security.validate_remote_identity n s rh lt rt lh tok g ex).state
  | .begin_handshake_request hh msg ini rep data =>
    (OpenDDS.Security.begin_handshake_request s hh msg ini rep data ex).state
  | .begin_handshake_reply hh msg ini rep data =>
    (OpenDDS.Security.begin_handshake_reply s hh msg ini rep data ex).state
  | .process_handshake out msg h => (OpenDDS.Security.process_handshake s out msg h ex).state
  | .get_shared_secret h => (OpenDDS.Security.get_shared_secret s h ex).state
  | .get_authenticated_peer_credential_token tok h =>
    (OpenDDS.Security.get_authenticated_peer_credential_token s tok h ex).state
  | .set_listener listener => (OpenDDS.Security.set_listener s listener ex).state
  | .return_nothing => (OpenDDS.Security.return_nothing s ex).state
  | .return_handshake_handle h => (OpenDDS.Security.return_handshake_handle s h ex).state
  | .return_identity_handle h => (OpenDDS.Security.return_identity_handle s h ex).state

/-- The plugin states reached from a fresh plugin by public operations while the
handle counter stays below its wrap-around (each call starts with a counter whose
successor still fits 64 bits). -/
inductive Reachable (ext : External) : AuthenticationBuiltInImpl → Prop where
  | fresh : Reachable ext AuthenticationBuiltInImpl.new
  | call (s : AuthenticationBuiltInImpl) (c : Call) (ex : SecurityException) :
      Reachable ext s → s.next_handle_ + 1 < 2 ^ 64 → Reachable ext (c.run ext s ex)


/-- The handle a call hands back to its caller: the handle output of a
`validate_local_identity`, `validate_remote_identity`, `begin_handshake_request` or
`begin_handshake_reply` call that does not fail; no other call returns a handle. -/
def Call.returned_handle (ext : External) (s : AuthenticationBuiltInImpl)
    (ex : SecurityException) : Call → Option Handle
  | .validate_local_identity lh adj dom qos cand =>
    if (OpenDDS.Security.validate_local_identity ext s lh adj dom qos cand ex).result
        ≠ VALIDATION_FAILED
    then some (OpenDDS.Security.validate_local_identity ext s lh adj dom qos cand
      ex).local_identity_handle
    else none
  | .validate_remote_identity n rh lt rt lh tok g =>
    if (OpenDDS.Security.validate_remote_identity n s rh lt rt lh tok g ex).result
        ≠ VALIDATION_FAILED
    then some (OpenDDS.Security.validate_remote_identity n s rh lt rt lh tok g
      ex).remote_identity_handle
    else none
  | .begin_handshake_request hh msg ini rep data =>
    if (OpenDDS.Security.begin_handshake_request s hh msg ini rep data ex).result
        ≠ VALIDATION_FAILED
    then some (OpenDDS.Security.begin_handshake_request s hh msg ini rep data
      ex).handshake_handle
    else none
  | .begin_handshake_reply hh msg ini rep data =>
    if (OpenDDS.Security.begin_handshake_reply s hh msg ini rep data ex).result
        ≠ VALIDATION_FAILED
    then some (OpenDDS.Security.begin_handshake_reply s hh msg ini rep data
      ex).handshake_handle
    else none
  | _ => none

/-- The handles returned, in call order, by a sequence of calls made one after the
other on one plugin instance, each call with its own error-detail record. -/
def run_handles (ext : External) :
    AuthenticationBuiltInImpl → List (Call × SecurityException) → List Handle
  | _, [] => []
  | s, (c, ex) :: rest =>
    match c.returned_handle ext s ex with
    | some h => h :: run_handles ext (c.run ext s ex) rest
    | none => run_handles ext (c.run ext s ex) rest

/-- A sequence of calls: local validation, remote validation, a lookup on an unknown
handle, a handshake request, a handshake request with empty data, a handshake reply on
the same pair in the other role, and the release of a handshake. -/
def demo_calls : List (Call × SecurityException) :=
  [(.validate_local_identity 0 GUID_UNKNOWN 0 [] guid_01, ex_clear),
   (.validate_remote_identity (0, [7]) 0 TokenNIL TokenNIL 1 identity_token_pki guid_02,
     ex_clear),
   (.get_identity_token TokenNIL 9, ex_clear),
   (.begin_handshake_request 0 TokenNIL 1 2 [1], ex_clear),
   (.begin_handshake_request 0 TokenNIL 1 2 [], ex_clear),
   (.begin_handshake_reply 0 TokenNIL 2 1 [1], ex_clear),
   (.return_handshake_handle 3, ex_clear)]


/-! ## What a call reports -/

/-- The value a public operation returns: a validation result, a boolean, or a shared
secret handle (`none` being nil). -/
inductive Outcome where
  | validation (r : ValidationResult_t)
  | flag (b : Bool)
  | secret (h : Option SharedSecret)
  deriving DecidableEq

/-- A returned value reports failure when it is VALIDATION_FAILED, false or nil. -/
def Outcome.reports_failure : Outcome → Bool
  | .validation r => decide (r = VALIDATION_FAILED)
  | .flag b => !b
  | .secret h => h.isNone

/-- The value returned by one call. -/
def Call.outcome (ext : External) (s : AuthenticationBuiltInImpl) (ex : SecurityException) :
    Call → Outcome
  | .validate_local_identity lh adj dom qos cand =>
    .validation (OpenDDS.Security.validate_local_identity ext s lh adj dom qos cand ex).result
  | .get_identity_token tok h => .flag (OpenDDS.Security.get_identity_token s tok h ex).result
  | .get_identity_status_token tok h =>
    .flag (OpenDDS.Security.get_identity_status_token s tok h ex).result
  | .set_permissions_credential_and_token h cred perm =>
    .flag (OpenDDS.Security.set_permissions_credential_and_token s h cred perm ex).result
  | .validate_remote_identity n rh lt rt lh tok g =>
    .validation (OpenDDS.Security.validate_remote_identity n s rh lt rt lh tok g ex).result
  | .begin_handshake_request hh msg ini rep data =>
    .validation (OpenDDS.Security.begin_handshake_request s hh msg ini rep data ex).result
  | .begin_handshake_reply hh msg ini rep data =>
    .validation (OpenDDS.Security.begin_handshake_reply s hh msg ini rep data ex).result
  | .process_handshake out msg h =>
    .validation (OpenDDS.Security.process_handshake s out msg h ex).result
  | .get_shared_secret h => .secret (OpenDDS.Security.get_shared_secret s h ex).result
  | .get_authenticated_peer_credential_token tok h =>
    .flag (OpenDDS.Security.get_authenticated_peer_credential_token s tok h ex).result
  | .set_listener listener => .flag (OpenDDS.Security.set_listener s listener ex).result
  | .return_nothing => .flag (OpenDDS.Security.return_nothing s ex).result
  | .return_handshake_handle h =>
    .flag (OpenDDS.Security.return_handshake_handle s h ex).result
  | .return_identity_handle h => .flag (OpenDDS.Security.return_identity_handle s h ex).result

/-- The error-detail record of the caller after one call. -/
def Call.ex_after (ext : External) (s : AuthenticationBuiltInImpl) (ex : SecurityException) :
    Call → SecurityException
  | .validate_local_identity lh adj dom qos cand =>
    (OpenDDS.Security.validate_local_identity ext s lh adj dom qos cand ex).ex
  | .get_identity_token tok h => (OpenDDS.Security.get_identity_token s tok h ex).ex
  | .get_identity_status_token tok h =>
    (OpenDDS.Security.get_identity_status_token s tok h ex).ex
  | .set_permissions_credential_and_token h cred perm =>
    (OpenDDS.Security.set_permissions_credential_and_token s h cred perm ex).ex
  | .validate_remote_identity n rh lt rt lh tok g =>
    (OpenDDS.Security.validate_remote_identity n s rh lt rt lh tok g ex).ex
  | .begin_handshake_request hh msg ini rep data =>
    (OpenDDS.Security.begin_handshake_request s hh msg ini rep data ex).ex
  | .begin_handshake_reply hh msg ini rep data =>
    (OpenDDS.Security.begin_handshake_reply s hh msg ini rep data ex).ex
  | .process_handshake out msg h => (OpenDDS.Security.process_handshake s out msg h ex).ex
  | .get_shared_secret h => (OpenDDS.Security.get_shared_secret s h ex).ex
  | .get_authenticated_peer_credential_token tok h =>
    (OpenDDS.Security.get_authenticated_peer_credential_token s tok h ex).ex
  | .set_listener listener => (OpenDDS.Security.set_listener s listener ex).ex
  | .return_nothing => (OpenDDS.Security.return_nothing s ex).ex
  | .return_handshake_handle h => (OpenDDS.Security.return_handshake_handle s h ex).ex
  | .return_identity_handle h => (OpenDDS.Security.return_identity_handle s h ex).ex

/-- An error-detail record as `set_security_error` is asked to leave it by every caller
in the plugin: code -1, minor code 0 and a message that is not empty. -/
def SecurityException.populated (e : SecurityException) : Prop :=
  e.code = -1 ∧ e.minor_code = 0 ∧ e.message ≠ []

/-- The plugin states reached from the state `s0` by public operations while the handle
counter stays below its wrap-around. -/
inductive ReachableFrom (ext : External) (s0 : AuthenticationBuiltInImpl) :
    AuthenticationBuiltInImpl → Prop where
  | start : ReachableFrom ext s0 s0
  | call (s : AuthenticationBuiltInImpl) (c : Call) (ex : SecurityException) :
      ReachableFrom ext s0 s → s.next_handle_ + 1 < 2 ^ 64 →
      ReachableFrom ext s0 (c.run ext s ex)

/-- External collaborators whose credential validation fails. -/
def ext_invalid : External :=
  { load := fun c _ => c
    validate := fun _ => false
    make_adjusted_guid := fun _ g _ => (0, g) }

/-- An incoming auth-request token carrying the challenge `[9]`. -/
def auth_request_9 : Token :=
  ⟨"DDS:Auth:PKI-DH:1.0+AuthReq".toList, [], [⟨"future_challenge".toList, [9], true⟩]⟩

/-- An error-detail record left by an earlier failure. -/
def ex_old : SecurityException := ⟨-1, 0, "Unknown Identity handle".toList⟩

/-- The plugin holding the local identifier 01 00 .. 00 under handle 1 after it has
validated the remote identifier 02 00 .. 00 whose auth-request token carried the
challenge `[9]`; the remote record is under handle 2. -/
def plugin_after_remote_challenge : AuthenticationBuiltInImpl :=
  (validate_remote_identity (0, [7]) (plugin_with_local guid_01) 0 TokenNIL auth_request_9 1
    identity_token_pki guid_02 ex_clear).state

/-- The call of the scenario by which participant A validates its local identity. -/
def call_local : Call := .validate_local_identity 0 GUID_UNKNOWN 0 [] guid_01

/-- The call of the scenario by which participant A validates participant B. -/
def call_remote : Call :=
  .validate_remote_identity (0, [7]) 0 TokenNIL TokenNIL 1 identity_token_pki guid_02

/-- A fresh plugin after `call_local` and `call_remote`: identities 1 and 2. -/
def plugin_after_two_calls : AuthenticationBuiltInImpl :=
  call_remote.run (ext_ok guid_01)
    (call_local.run (ext_ok guid_01) AuthenticationBuiltInImpl.new ex_clear) ex_clear

/-- The plugin of `plugin_after_two_calls` after identity 2 has been released and
participant B has been validated once more. -/
def plugin_after_release_and_more : AuthenticationBuiltInImpl :=
  call_remote.run (ext_ok guid_01)
    (return_identity_handle plugin_after_two_calls 2 ex_clear).state ex_clear

/-! ## Token builders as call sequences -/

/-- One call made on a `TokenWriter` after its construction: `set_property` or
`set_bin_property` with the index, the name, the value and the propagate flag. -/
inductive WriterCall where
  | set_property (i : Nat) (name value : Str) (propagate : Bool)
  | set_bin_property (i : Nat) (name : Str) (value : OctetSeq) (propagate : Bool)
  deriving DecidableEq

/-- The effect of one writer call on the token behind the writer. -/
def WriterCall.apply (t : Token) : WriterCall → Token
  | .set_property i name value propagate => TokenWriter.set_property t i name value propagate
  | .set_bin_property i name value propagate =>
    TokenWriter.set_bin_property t i name value propagate

/-- The name written by a call. -/
def WriterCall.name : WriterCall → Str
  | .set_property _ name _ _ => name
  | .set_bin_property _ name _ _ => name

/-- The index of a `set_property` call. -/
def WriterCall.string_index : WriterCall → Option Nat
  | .set_property i _ _ _ => some i
  | .set_bin_property _ _ _ _ => none

/-- The index of a `set_bin_property` call. -/
def WriterCall.bin_index : WriterCall → Option Nat
  | .set_property _ _ _ _ => none
  | .set_bin_property i _ _ _ => some i

/-- What one operation does with a `TokenWriter`: the three constructor arguments and
the calls that follow, in program order. -/
structure TokenBuilder where
  class_id : Str
  num_properties : Nat
  num_bin_properties : Nat
  calls : List WriterCall

/-- The token left behind by a builder working on the token `token`. -/
def TokenBuilder.write (b : TokenBuilder) (token : Token) : Token :=
  b.calls.foldl WriterCall.apply
    (TokenWriter token b.class_id b.num_properties b.num_bin_properties)

/-- The indices of the `set_property` calls, in call order. -/
def TokenBuilder.string_indices (b : TokenBuilder) : List Nat :=
  b.calls.filterMap WriterCall.string_index

/-- The indices of the `set_bin_property` calls, in call order. -/
def TokenBuilder.bin_indices (b : TokenBuilder) : List Nat :=
  b.calls.filterMap WriterCall.bin_index

/-- The names written, in call order. -/
def TokenBuilder.names (b : TokenBuilder) : List Str :=
  b.calls.map WriterCall.name

/-- The codec contract ("construct with (class-id, string-property count,
binary-property count), then set properties by index in the order declared"): the
string properties are set at the indices 0, 1, .. below the declared count, each once
and in increasing order, likewise the binary properties, and no name is written
twice. -/
def TokenBuilder.honours_contract (b : TokenBuilder) : Prop :=
  b.string_indices = List.range b.num_properties
    ∧ b.bin_indices = List.range b.num_bin_properties
    ∧ b.names.Nodup

instance (b : TokenBuilder) : Decidable b.honours_contract := by
  unfold TokenBuilder.honours_contract
  infer_instance

/-- The writer of `validate_remote_identity` (auth-request token), given the nonce. -/
def auth_request_builder (nonce : OctetSeq) : TokenBuilder :=
  { class_id := build_class_id Auth_Request_Class_Ext
    num_properties := 0
    num_bin_properties := 1
    calls := [.set_bin_property 0 "future_challenge".toList nonce true] }

/-- The writer of `begin_handshake_request`. -/
def handshake_request_builder (serialized_local_participant_data : OctetSeq)
    (remoteData : IdentityData) : TokenBuilder :=
  { class_id := build_class_id Handshake_Request_Class_Ext
    num_properties := 0
    num_bin_properties := 8
    calls :=
      [.set_bin_property 0 "c.id".toList Empty_Seq true,
       .set_bin_property 1 "c.perm".toList Empty_Seq true,
       .set_bin_property 2 "c.pdata".toList serialized_local_participant_data true,
       .set_bin_property 3 "c.dsign_algo".toList (string_octets AlgoName) true,
       .set_bin_property 4 "c.kagree_algo".toList (string_octets AgreementAlgo) true,
       .set_bin_property 5 "c.hash_c1".toList Empty_Seq true,
       .set_bin_property 6 "c.ocsp_status".toList Empty_Seq true]
      ++ (if !TokenReader.is_nil remoteData.local_auth_request then
            [.set_bin_property 7 "c.challenge1".toList
              (TokenReader.get_bin_property_value remoteData.local_auth_request
                "future_challenge".toList) true]
          else [.set_bin_property 7 "c.challenge1".toList Empty_Seq true]) }

/-- The writer of `begin_handshake_reply`: 13 binary properties are declared and
`prop_index` runs from 0 to 13. -/
def handshake_reply_builder (serialized_local_participant_data : OctetSeq)
    (remoteData : IdentityData) : TokenBuilder :=
  { class_id := build_class_id Handshake_Reply_Class_Ext
    num_properties := 0
    num_bin_properties := 13
    calls :=
      [.set_bin_property 0 "c.id".toList Empty_Seq true,
       .set_bin_property 1 "c.perm".toList Empty_Seq true,
       .set_bin_property 2 "c.pdata".toList serialized_local_participant_data true,
       .set_bin_property 3 "c.dsign_algo".toList (string_octets AlgoName) true,
       .set_bin_property 4 "c.kagree_algo".toList (string_octets AgreementAlgo) true,
       .set_bin_property 5 "hash_c2".toList Empty_Seq true,
       .set_bin_property 6 "dh2".toList Empty_Seq true,
       .set_bin_property 7 "hash_c1".toList Empty_Seq true,
       .set_bin_property 8 "dh1".toList Empty_Seq true,
       .set_bin_property 9 "challenge1".toList Empty_Seq true,
       .set_bin_property 10 "challenge2".toList Empty_Seq true,
       .set_bin_property 11 "ocsp_status".toList Empty_Seq true,
       .set_bin_property 12 "signature".toList Empty_Seq true]
      ++ (if !TokenReader.is_nil remoteData.local_auth_request then
            [.set_bin_property 13 "challenge1".toList
              (TokenReader.get_bin_property_value remoteData.local_auth_request
                "future_challenge".toList) true]
          else [.set_bin_property 13 "challenge1".toList Empty_Seq true]) }

/-- The writer of `process_handshake_reply` (final message). -/
def handshake_final_builder : TokenBuilder :=
  { class_id := build_class_id Handshake_Final_Class_Ext
    num_properties := 0
    num_bin_properties := 7
    calls :=
      [.set_bin_property 0 "hash_c1".toList Empty_Seq true,
       .set_bin_property 1 "hash_c2".toList Empty_Seq true,
       .set_bin_property 2 "dh1".toList Empty_Seq true,
       .set_bin_property 3 "dh2".toList Empty_Seq true,
       .set_bin_property 4 "challenge_1".toList Empty_Seq true,
       .set_bin_property 5 "challenge_2".toList Empty_Seq true,
       .set_bin_property 6 "signature".toList Empty_Seq true] }

/-- The writer of `get_identity_token`, given the plugin-wide credential data. -/
def identity_token_builder (cred : LocalAuthCredentialData) : TokenBuilder :=
  { class_id := "DDS:Auth:PKI-DH:1.0".toList
    num_properties := 4
    num_bin_properties := 0
    calls :=
      [.set_property 0 "dds.cert.sn".toList cred.participant_cert.subject_name true,
       .set_property 1 "dds.cert.algo".toList cred.participant_cert.algorithm true,
       .set_property 2 "dds.ca.sn".toList cred.ca_cert.subject_name true,
       .set_property 3 "dds.ca.algo".toList cred.ca_cert.algorithm true] }

/-- The writer of `get_identity_status_token`. -/
def identity_status_token_builder : TokenBuilder :=
  { class_id := Identity_Status_Token_Class_Id
    num_properties := 1
    num_bin_properties := 0
    calls := [.set_property 0 "dds.ocps_status".toList "TBD".toList true] }

/-- The writer of `get_authenticated_peer_credential_token`. -/
def peer_credential_token_builder : TokenBuilder :=
  { class_id := Auth_Peer_Cred_Token_Class_Id
    num_properties := 2
    num_bin_properties := 0
    calls :=
      [.set_property 0 "c.id".toList "CertificateContents".toList true,
       .set_property 1 "c.perm".toList "PermissionsDocument".toList true] }

/-! ## Transport framework: `DataLinkSet` (`dds/DCPS/transport/framework/DataLinkSet.cpp`)

The set keeps its links in `map_`, a `std::map` from link id to a counted reference
to the link: a list of entries with pairwise different ids. The lock taken by every
operation and the allocator member play no part in what the operations compute. -/

/-- The key type `DataLinkIdType` of the link map. -/
abbrev DataLinkIdType := Nat

/-- A counted reference to a link (`DataLink_rch`), given by the address of the link. -/
abbrev DataLink_rch := Nat

/-- The member type `DataLinkSet::MapType`. -/
abbrev MapType := List (DataLinkIdType × DataLink_rch)

/-- The data member `map_` of a `TAO::DCPS::DataLinkSet`. -/
structure DataLinkSet where
  map_ : MapType
  deriving DecidableEq, Repr

/-- The ids bound in a link set. -/
def DataLinkSet.ids (x : DataLinkSet) : List DataLinkIdType := x.map_.map Prod.fst

/-- The link bound under an id in a link set, if any. -/
def DataLinkSet.find (x : DataLinkSet) (id : DataLinkIdType) : Option DataLink_rch :=
  (x.map_.find? (fun e => e.1 == id)).map Prod.snd

/-- Modelled from the spec: the helper `unbind` of `dds/DCPS/Util.h` (not among the
sources; the spec does not describe it), as its two callers in `DataLinkSet.cpp` use
it: the entry under the key is erased and 0 is returned, and when there is no such
entry the map is left alone and the value returned is not 0. -/
def unbind (c : MapType) (k : DataLinkIdType) : Int × MapType :=
  if c.any (fun e => e.1 == k) then (0, c.filter (fun e => e.1 != k)) else (-1, c)

/-- The function `DataLinkSet::remove_links`, for a released set that is another object
than the set itself: the value returned and the set afterwards. The loop visits the
entries of the released set in map order and unbinds each id from `map_`; a failed
unbind is only logged. -/
def DataLinkSet.remove_links (this released_set : DataLinkSet) : Int × DataLinkSet :=
  let map_ := released_set.map_.foldl (fun m itr => (unbind m itr.1).2) this.map_
  ((map_.length : Int), { map_ := map_ })

/-- A link set with the links 100, 200, 300 and 400 under the ids 1, 2, 3 and 4. -/
def links_1234 : DataLinkSet := ⟨[(1, 100), (2, 200), (3, 300), (4, 400)]⟩

/-- A released set with the ids 2, 4 and 7. -/
def links_247 : DataLinkSet := ⟨[(2, 200), (4, 400), (7, 700)]⟩

/-! ## Sequence iterator (`dds/DCPS/sequence_iterator.h`) -/

/-- Element access `seq[i]` on a CORBA sequence through a pointer that may be null: the
`int` index is converted to the unsigned 32-bit index type; `none` when the pointer is
null or the index is not below the length. -/
def sequence_at {α : Type} (seq : Option (List α)) (i : Int) : Option α :=
  match seq with
  | none => none
  | some l => l[(i % 2 ^ 32).toNat]?

/-- The data members of `SequenceIteratorBase`: the pointer `seq_` to the sequence
(`none` when null) and the position `current_` (`difference_type`, an `int`; the
arithmetic is that of the integers, an overflow of `int` being undefined). -/
structure SequenceIteratorBase (α : Type) where
  seq_ : Option (List α)
  current_ : Int

/-- The constructor `SequenceIteratorBase(sequence)`. -/
def SequenceIteratorBase.of_sequence {α : Type} (sequence : List α) :
    SequenceIteratorBase α := ⟨some sequence, 0⟩

/-- The dereference `operator*`. -/
def SequenceIteratorBase.deref {α : Type} (it : SequenceIteratorBase α) : Option α :=
  sequence_at it.seq_ it.current_

/-- The subscript `operator[]`. -/
def SequenceIteratorBase.subscript {α : Type} (it : SequenceIteratorBase α) (n : Int) :
    Option α :=
  sequence_at it.seq_ n

/-- The sum `operator+(difference_type)`. -/
def SequenceIteratorBase.plus {α : Type} (it : SequenceIteratorBase α) (n : Int) :
    SequenceIteratorBase α :=
  { it with current_ := it.current_ + n }

/-- The static function `SequenceIteratorBase::begin`. -/
def SequenceIteratorBase.begin {α : Type} (sequence : List α) : SequenceIteratorBase α :=
  { SequenceIteratorBase.of_sequence sequence with current_ := 0 }

/-- The sequence 10, 20, 30. -/
def sequence_10_20_30 : List Nat := [10, 20, 30]

/-! ## Reachability whatever the counter does -/

/-- The plugin states reached from a fresh plugin by public operations, with no condition
on the handle counter. -/
inductive ReachableAny (ext : External) : AuthenticationBuiltInImpl → Prop where
  | fresh : ReachableAny ext AuthenticationBuiltInImpl.new
  | call (s : AuthenticationBuiltInImpl) (c : Call) (ex : SecurityException) :
      ReachableAny ext s → ReachableAny ext (c.run ext s ex)

/-- External collaborators whose loading step installs a fixed credential, subject
"CN=B" issued by "CN=CA", and whose validation fails. -/
def ext_load_invalid : External :=
  { load := fun _ _ => ⟨⟨"CN=B".toList, "RSA".toList⟩, ⟨"CN=CA".toList, "EC".toList⟩⟩
    validate := fun _ => false
    make_adjusted_guid := fun _ g _ => (0, g) }

/-- Every identity record of the state `t` stands under a key that was registered in
the state `s`, with the participant identifier and the pairing of the record there. -/
def identity_records_from (s t : AuthenticationBuiltInImpl) : Prop :=
  ∀ h d', get_identity_data t h = some d' →
    ∃ d, get_identity_data s h = some d ∧ d'.local_handle = d.local_handle
      ∧ d'.participant_guid = d.participant_guid

/-- Every handshake record of the state `t` is the record the state `s` held under that
key, or that record, which was pending, moved to VALIDATION_OK_FINAL_MESSAGE or to
VALIDATION_OK and given a shared secret. -/
def handshake_records_from (s t : AuthenticationBuiltInImpl) : Prop :=
  ∀ h r', get_handshake_data t h = some r' →
    get_handshake_data s h = some r'
      ∨ ∃ r, get_handshake_data s h = some r
        ∧ r.validation_state = VALIDATION_PENDING_HANDSHAKE_MESSAGE
        ∧ (r'.validation_state = VALIDATION_OK_FINAL_MESSAGE
          ∨ r'.validation_state = VALIDATION_OK)
        ∧ r'.secret_handle ≠ none
        ∧ r'.local_identity_handle = r.local_identity_handle
        ∧ r'.remote_identity_handle = r.remote_identity_handle

/-- The call of the scenario by which participant A begins the handshake request. -/
def call_request : Call := .begin_handshake_request 0 TokenNIL 1 2 [1]

/-- A fresh plugin after `call_local`, `call_remote` and `call_request`: identities 1 and
2 and the pending handshake 3. -/
def plugin_after_request : AuthenticationBuiltInImpl :=
  call_request.run (ext_ok guid_01) plugin_after_two_calls ex_clear

/-- The call by which a message of phase "Reply" is processed on handshake 3. -/
def call_process_reply : Call :=
  .process_handshake TokenNIL (message_with_phase "Reply".toList) 3

/-- The plugin of `plugin_after_request` after the reply has been processed: handshake 3
is in VALIDATION_OK_FINAL_MESSAGE. -/
def plugin_after_reply : AuthenticationBuiltInImpl :=
  call_process_reply.run (ext_ok guid_01) plugin_after_request ex_clear

/-- The plugin of `plugin_with_pair` after a local validation that loads the credential
of `ext_load_invalid` and fails. -/
def plugin_after_failed_local : AuthenticationBuiltInImpl :=
  (validate_local_identity ext_load_invalid plugin_with_pair 0 GUID_UNKNOWN 0 [] guid_01
    ex_clear).state

/-! ## Handshake engine: the two transitions -/

/-- The reply transition when its three checks pass. -/
theorem process_handshake_reply_accepts (s : AuthenticationBuiltInImpl)
    (out msg : Token) (h : Handle) (ex : SecurityException) (r : HandshakeData)
    (d : IdentityData) (hreg : get_handshake_data s h = some r)
    (hid : get_identity_data s r.remote_identity_handle = some d)
    (hstate : r.validation_state = VALIDATION_PENDING_HANDSHAKE_MESSAGE) :
    process_handshake_reply s out msg h ex =
      { result := VALIDATION_OK_FINAL_MESSAGE
        state := { s with
          handshake_data_ := map_assign s.handshake_data_ h
            { r with
              validation_state := VALIDATION_OK_FINAL_MESSAGE
              secret_handle := some (SharedSecret.mk Empty_Seq Empty_Seq Empty_Seq) } }
        handshake_message_out := handshake_final_message out
        ex := ex } := by
  simp [process_handshake_reply, hreg, hid, hstate]

/-- The reply transition when one of its three checks fails: the result is
VALIDATION_FAILED, the plugin state and the outgoing message are untouched. -/
theorem process_handshake_reply_rejects (s : AuthenticationBuiltInImpl)
    (out msg : Token) (h : Handle) (ex : SecurityException)
    (hguard : ¬ ∃ r, get_handshake_data s h = some r
      ∧ (∃ d, get_identity_data s r.remote_identity_handle = some d)
      ∧ r.validation_state = VALIDATION_PENDING_HANDSHAKE_MESSAGE) :
    (process_handshake_reply s out msg h ex).result = VALIDATION_FAILED
      ∧ (process_handshake_reply s out msg h ex).state = s
      ∧ (process_handshake_reply s out msg h ex).handshake_message_out = out := by
  unfold process_handshake_reply
  cases hreg : get_handshake_data s h with
  | none => simp
  | some r =>
    simp only []
    cases hid : get_identity_data s r.remote_identity_handle with
    | none => simp
    | some d =>
      have hst : r.validation_state ≠ VALIDATION_PENDING_HANDSHAKE_MESSAGE :=
        fun hp => hguard ⟨r, hreg, ⟨d, hid⟩, hp⟩
      simp [hst]

/-- The final transition when its three checks pass. -/
theorem process_final_handshake_accepts (s : AuthenticationBuiltInImpl)
    (msg : Token) (h : Handle) (ex : SecurityException) (r : HandshakeData)
    (d : IdentityData) (hreg : get_handshake_data s h = some r)
    (hid : get_identity_data s r.remote_identity_handle = some d)
    (hstate : r.validation_state = VALIDATION_PENDING_HANDSHAKE_MESSAGE) :
    process_final_handshake s msg h ex =
      { result := VALIDATION_OK
        state := { s with
          handshake_data_ := map_assign s.handshake_data_ h
            { r with
              validation_state := VALIDATION_OK
              secret_handle := some (SharedSecret.mk Empty_Seq Empty_Seq Empty_Seq) } }
        ex := ex } := by
  simp [process_final_handshake, hreg, hid, hstate]

/-- The final transition when one of its three checks fails: the result is
VALIDATION_FAILED and the plugin state is untouched. -/
theorem process_final_handshake_rejects (s : AuthenticationBuiltInImpl)
    (msg : Token) (h : Handle) (ex : SecurityException)
    (hguard : ¬ ∃ r, get_handshake_data s h = some r
      ∧ (∃ d, get_identity_data s r.remote_identity_handle = some d)
      ∧ r.validation_state = VALIDATION_PENDING_HANDSHAKE_MESSAGE) :
    (process_final_handshake s msg h ex).result = VALIDATION_FAILED
      ∧ (process_final_handshake s msg h ex).state = s := by
  unfold process_final_handshake
  cases hreg : get_handshake_data s h with
  | none => simp
  | some r =>
    simp only []
    cases hid : get_identity_data s r.remote_identity_handle with
    | none => simp
    | some d =>
      have hst : r.validation_state ≠ VALIDATION_PENDING_HANDSHAKE_MESSAGE :=
        fun hp => hguard ⟨r, hreg, ⟨d, hid⟩, hp⟩
      simp [hst]

/-- Dispatch of `process_handshake` on the phase "Reply". -/
theorem process_handshake_of_reply (s : AuthenticationBuiltInImpl) (out msg : Token)
    (h : Handle) (ex : SecurityException)
    (hphase : get_extension msg.class_id = "Reply".toList) :
    process_handshake s out msg h ex = process_handshake_reply s out msg h ex := by
  simp [process_handshake, hphase, Handshake_Reply_Class_Ext]

/-- Dispatch of `process_handshake` on the phase "Final". -/
theorem process_handshake_of_final (s : AuthenticationBuiltInImpl) (out msg : Token)
    (h : Handle) (ex : SecurityException)
    (hphase : get_extension msg.class_id = "Final".toList) :
    process_handshake s out msg h ex =
      { result := (process_final_handshake s msg h ex).result
        state := (process_final_handshake s msg h ex).state
        handshake_message_out := out
        ex := (process_final_handshake s msg h ex).ex } := by
  simp [process_handshake, hphase, Handshake_Reply_Class_Ext, Handshake_Final_Class_Ext]

/-! ## Handshake engine: claims on `process_handshake` -/

/-- Claim C1: a "Reply" message on a registered handshake that is not in
VALIDATION_PENDING_HANDSHAKE_MESSAGE makes `process_handshake` return
VALIDATION_FAILED, and the record keeps its validation state and its shared-secret
handle: the record found under the handle afterwards is the record found before. -/
theorem process_handshake_reply_wrong_state (s : AuthenticationBuiltInImpl)
    (handshake_message_out handshake_message_in : Token) (h : Handle)
    (ex : SecurityException) (r : HandshakeData)
    (hphase : get_extension handshake_message_in.class_id = "Reply".toList)
    (hreg : get_handshake_data s h = some r)
    (hstate : r.validation_state ≠ VALIDATION_PENDING_HANDSHAKE_MESSAGE) :
    (process_handshake s handshake_message_out handshake_message_in h ex).result
        = VALIDATION_FAILED
      ∧ get_handshake_data
          (process_handshake s handshake_message_out handshake_message_in h ex).state h
        = some r := by
  rw [process_handshake_of_reply s _ _ h ex hphase]
  have hguard : ¬ ∃ r', get_handshake_data s h = some r'
      ∧ (∃ d, get_identity_data s r'.remote_identity_handle = some d)
      ∧ r'.validation_state = VALIDATION_PENDING_HANDSHAKE_MESSAGE := by
    rintro ⟨r', hr', -, hp⟩
    rw [hreg] at hr'
    cases hr'
    exact hstate hp
  obtain ⟨h1, h2, -⟩ :=
    process_handshake_reply_rejects s handshake_message_out handshake_message_in h ex hguard
  exact ⟨h1, by rw [h2]; exact hreg⟩

/-- Witness for C1: a handshake already in VALIDATION_OK_FINAL_MESSAGE receives a second
"Reply". -/
theorem process_handshake_reply_wrong_state_witness :
    (get_extension (message_with_phase "Reply".toList).class_id = "Reply".toList
      ∧ get_handshake_data
          (plugin_with_handshake VALIDATION_OK_FINAL_MESSAGE (some ⟨[], [], []⟩)) 3
        = some ⟨1, 2, true, VALIDATION_OK_FINAL_MESSAGE, some ⟨[], [], []⟩⟩)
      ∧ (process_handshake
            (plugin_with_handshake VALIDATION_OK_FINAL_MESSAGE (some ⟨[], [], []⟩)) TokenNIL
            (message_with_phase "Reply".toList) 3 ex_clear).result = VALIDATION_FAILED
      ∧ get_handshake_data
          (process_handshake
            (plugin_with_handshake VALIDATION_OK_FINAL_MESSAGE (some ⟨[], [], []⟩)) TokenNIL
            (message_with_phase "Reply".toList) 3 ex_clear).state 3
        = some ⟨1, 2, true, VALIDATION_OK_FINAL_MESSAGE, some ⟨[], [], []⟩⟩ :=
  ⟨⟨by decide, by decide⟩,
    process_handshake_reply_wrong_state
      (plugin_with_handshake VALIDATION_OK_FINAL_MESSAGE (some ⟨[], [], []⟩)) TokenNIL
      (message_with_phase "Reply".toList) 3 ex_clear
      ⟨1, 2, true, VALIDATION_OK_FINAL_MESSAGE, some ⟨[], [], []⟩⟩
      (by decide) (by decide) (by decide)⟩

/-- Claim C2: on a "Reply" message `process_handshake` succeeds exactly when the
handshake handle resolves, the record's remote identity handle resolves and the
record is in VALIDATION_PENDING_HANDSHAKE_MESSAGE, whatever its `local_initiator`
flag. On success the result is VALIDATION_OK_FINAL_MESSAGE, the record (otherwise
unchanged) is in VALIDATION_OK_FINAL_MESSAGE and holds a non-nil shared secret, and
the outgoing message has class identifier "DDS:Auth:PKI-DH:1.0+Final"; in every
other case the result is VALIDATION_FAILED. -/
theorem process_handshake_reply_transition (s : AuthenticationBuiltInImpl)
    (handshake_message_out handshake_message_in : Token) (h : Handle)
    (ex : SecurityException)
    (hphase : get_extension handshake_message_in.class_id = "Reply".toList) :
    (∀ r, get_handshake_data s h = some r →
        (∃ d, get_identity_data s r.remote_identity_handle = some d) →
        r.validation_state = VALIDATION_PENDING_HANDSHAKE_MESSAGE →
        (process_handshake s handshake_message_out handshake_message_in h ex).result
            = VALIDATION_OK_FINAL_MESSAGE
          ∧ (∃ sec, get_handshake_data
              (process_handshake s handshake_message_out handshake_message_in h ex).state h
              = some { r with validation_state := VALIDATION_OK_FINAL_MESSAGE
                              secret_handle := some sec })
          ∧ (process_handshake s handshake_message_out handshake_message_in h
              ex).handshake_message_out.class_id = "DDS:Auth:PKI-DH:1.0+Final".toList)
      ∧ ((¬ ∃ r, get_handshake_data s h = some r
            ∧ (∃ d, get_identity_data s r.remote_identity_handle = some d)
            ∧ r.validation_state = VALIDATION_PENDING_HANDSHAKE_MESSAGE) →
          (process_handshake s handshake_message_out handshake_message_in h ex).result
            = VALIDATION_FAILED) := by
  rw [process_handshake_of_reply s _ _ h ex hphase]
  refine ⟨?_, fun hguard => (process_handshake_reply_rejects s _ _ h ex hguard).1⟩
  rintro r hreg ⟨d, hid⟩ hstate
  rw [process_handshake_reply_accepts s _ _ h ex r d hreg hid hstate]
  refine ⟨rfl, ⟨⟨Empty_Seq, Empty_Seq, Empty_Seq⟩, ?_⟩, ?_⟩
  · simp [get_handshake_data, map_assign]
  · simp [handshake_final_message, TokenWriter, TokenWriter.set_bin_property]
    decide

/-- Witness for C2: a pending handshake begun as a request receives a "Reply". -/
theorem process_handshake_reply_transition_witness :
    get_extension (message_with_phase "Reply".toList).class_id = "Reply".toList
      ∧ (process_handshake
            (plugin_with_handshake VALIDATION_PENDING_HANDSHAKE_MESSAGE none) TokenNIL
            (message_with_phase "Reply".toList) 3 ex_clear).result
          = VALIDATION_OK_FINAL_MESSAGE :=
  ⟨by decide,
    ((process_handshake_reply_transition
      (plugin_with_handshake VALIDATION_PENDING_HANDSHAKE_MESSAGE none) TokenNIL
      (message_with_phase "Reply".toList) 3 ex_clear (by decide)).1
      ⟨1, 2, true, VALIDATION_PENDING_HANDSHAKE_MESSAGE, none⟩ (by decide)
      ⟨{ IdentityData.make_rch with participant_guid := guid_02, local_handle := 1 },
        by decide⟩
      (by decide)).1⟩

/-- Claim C3: on a "Final" message `process_handshake` returns VALIDATION_OK, puts the
record in VALIDATION_OK and attaches a non-nil shared secret exactly when the
handshake handle resolves, the record's remote identity handle resolves and the
record is in VALIDATION_PENDING_HANDSHAKE_MESSAGE; in every other case it returns
VALIDATION_FAILED and no handshake record changes; the outgoing message is never
written. -/
theorem process_handshake_final_transition (s : AuthenticationBuiltInImpl)
    (handshake_message_out handshake_message_in : Token) (h : Handle)
    (ex : SecurityException)
    (hphase : get_extension handshake_message_in.class_id = "Final".toList) :
    (∀ r, get_handshake_data s h = some r →
        (∃ d, get_identity_data s r.remote_identity_handle = some d) →
        r.validation_state = VALIDATION_PENDING_HANDSHAKE_MESSAGE →
        (process_handshake s handshake_message_out handshake_message_in h ex).result
            = VALIDATION_OK
          ∧ (∃ sec, get_handshake_data
              (process_handshake s handshake_message_out handshake_message_in h ex).state h
              = some { r with validation_state := VALIDATION_OK
                              secret_handle := some sec }))
      ∧ ((¬ ∃ r, get_handshake_data s h = some r
            ∧ (∃ d, get_identity_data s r.remote_identity_handle = some d)
            ∧ r.validation_state = VALIDATION_PENDING_HANDSHAKE_MESSAGE) →
          (process_handshake s handshake_message_out handshake_message_in h ex).result
              = VALIDATION_FAILED
            ∧ ∀ k, get_handshake_data
                (process_handshake s handshake_message_out handshake_message_in h ex).state k
              = get_handshake_data s k)
      ∧ (process_handshake s handshake_message_out handshake_message_in h
          ex).handshake_message_out = handshake_message_out := by
  rw [process_handshake_of_final s _ _ h ex hphase]
  refine ⟨?_, fun hguard => ?_, rfl⟩
  · rintro r hreg ⟨d, hid⟩ hstate
    rw [process_final_handshake_accepts s _ h ex r d hreg hid hstate]
    refine ⟨rfl, ⟨⟨Empty_Seq, Empty_Seq, Empty_Seq⟩, ?_⟩⟩
    simp [get_handshake_data, map_assign]
  · obtain ⟨h1, h2⟩ := process_final_handshake_rejects s handshake_message_in h ex hguard
    exact ⟨h1, fun k => by simp only [h2]⟩

/-- Witness for C3: a pending handshake begun as a reply receives a "Final". -/
theorem process_handshake_final_transition_witness :
    get_extension (message_with_phase "Final".toList).class_id = "Final".toList
      ∧ (process_handshake
            (plugin_with_handshake VALIDATION_PENDING_HANDSHAKE_MESSAGE none) TokenNIL
            (message_with_phase "Final".toList) 3 ex_clear).result = VALIDATION_OK :=
  ⟨by decide,
    ((process_handshake_final_transition
      (plugin_with_handshake VALIDATION_PENDING_HANDSHAKE_MESSAGE none) TokenNIL
      (message_with_phase "Final".toList) 3 ex_clear (by decide)).1
      ⟨1, 2, true, VALIDATION_PENDING_HANDSHAKE_MESSAGE, none⟩ (by decide)
      ⟨{ IdentityData.make_rch with participant_guid := guid_02, local_handle := 1 },
        by decide⟩
      (by decide)).1⟩

/-- Claim C4, the code at a failing input: a fresh plugin, where no handshake is
registered, is handed a message of phase "Req" for the handle 42, and
`process_handshake` returns VALIDATION_OK. -/
theorem process_handshake_unknown_phase_unregistered :
    get_extension (message_with_phase "Req".toList).class_id ≠ "Reply".toList
      ∧ get_extension (message_with_phase "Req".toList).class_id ≠ "Final".toList
      ∧ get_handshake_data AuthenticationBuiltInImpl.new 42 = none
      ∧ (process_handshake AuthenticationBuiltInImpl.new TokenNIL
          (message_with_phase "Req".toList) 42 ex_clear).result = VALIDATION_OK := by
  decide

/-- Claim C5: on a message whose phase is neither "Reply" nor "Final",
`process_handshake` returns VALIDATION_OK for every handle and every plugin state
(so the result does not depend on the registries), and the identity registry, the
handshake registry, the handle counter, the outgoing message and the error-detail
record are unchanged. -/
theorem process_handshake_other_phase (s : AuthenticationBuiltInImpl)
    (handshake_message_out handshake_message_in : Token) (h : Handle)
    (ex : SecurityException)
    (hreply : get_extension handshake_message_in.class_id ≠ "Reply".toList)
    (hfinal : get_extension handshake_message_in.class_id ≠ "Final".toList) :
    (process_handshake s handshake_message_out handshake_message_in h ex).result
        = VALIDATION_OK
      ∧ (process_handshake s handshake_message_out handshake_message_in h
          ex).state.identity_data_ = s.identity_data_
      ∧ (process_handshake s handshake_message_out handshake_message_in h
          ex).state.handshake_data_ = s.handshake_data_
      ∧ (process_handshake s handshake_message_out handshake_message_in h
          ex).state.next_handle_ = s.next_handle_
      ∧ (process_handshake s handshake_message_out handshake_message_in h
          ex).handshake_message_out = handshake_message_out
      ∧ (process_handshake s handshake_message_out handshake_message_in h ex).ex = ex := by
  have h1 : ¬ Handshake_Reply_Class_Ext = get_extension handshake_message_in.class_id :=
    fun e => hreply e.symm
  have h2 : ¬ Handshake_Final_Class_Ext = get_extension handshake_message_in.class_id :=
    fun e => hfinal e.symm
  simp [process_handshake, h1, h2]

/-- Witness for C5: a class identifier without any '+' and an unregistered handle. -/
theorem process_handshake_other_phase_witness :
    (get_extension (Token.mk "DDS:Auth:PKI-DH:1.0".toList [] []).class_id ≠ "Reply".toList
      ∧ get_extension (Token.mk "DDS:Auth:PKI-DH:1.0".toList [] []).class_id
          ≠ "Final".toList)
      ∧ (process_handshake AuthenticationBuiltInImpl.new TokenNIL
          (Token.mk "DDS:Auth:PKI-DH:1.0".toList [] []) 7 ex_clear).result = VALIDATION_OK :=
  ⟨⟨by decide, by decide⟩,
    (process_handshake_other_phase AuthenticationBuiltInImpl.new TokenNIL
      (Token.mk "DDS:Auth:PKI-DH:1.0".toList [] []) 7 ex_clear (by decide) (by decide)).1⟩

/-! ## Tie-break selector -/

/-- On ranges of one length, `std::lexicographical_compare` is the lexicographic
"sorts before" relation. -/
theorem lexicographical_compare_iff_lex_before (xs ys : List Octet)
    (hlen : xs.length = ys.length) :
    lexicographical_compare xs ys = true ↔ lex_before xs ys := by
  induction xs generalizing ys with
  | nil =>
    cases ys with
    | nil => simp [lexicographical_compare, lex_before]
    | cons b bs => simp at hlen
  | cons a as ih =>
    cases ys with
    | nil => simp at hlen
    | cons b bs =>
      have hlen' : as.length = bs.length := by simpa using hlen
      rcases lt_trichotomy a b with hab | hab | hab
      · simp only [lexicographical_compare, hab, if_true, true_iff]
        exact ⟨0, by simp, by simp, by simp, by simpa using hab⟩
      · subst hab
        simp only [lexicographical_compare, lt_irrefl, if_false]
        rw [ih bs hlen']
        constructor
        · rintro ⟨i, h1, h2, h3, h4⟩
          refine ⟨i + 1, by simpa using h1, by simpa using h2, ?_, by simpa using h4⟩
          intro j hj
          cases j with
          | zero => simp
          | succ j => simpa using h3 j (by omega)
        · rintro ⟨i, h1, h2, h3, h4⟩
          cases i with
          | zero => simp at h4
          | succ i =>
            refine ⟨i, by simpa using h1, by simpa using h2, ?_, by simpa using h4⟩
            intro j hj
            simpa using h3 (j + 1) (by omega)
      · have hnot : ¬ a < b := not_lt_of_gt hab
        simp only [lexicographical_compare, hnot, hab, if_false, if_true]
        constructor
        · intro h
          cases h
        · rintro ⟨i, _, _, h3, h4⟩
          cases i with
          | zero => exact absurd (by simpa using h4) hnot
          | succ i =>
            have h0 := h3 0 (by omega)
            simp at h0
            exact absurd (h0 ▸ hab) (lt_irrefl _)

/-- On two different ranges of one length, `std::lexicographical_compare` holds in
exactly one of the two directions. -/
theorem lexicographical_compare_swap (xs ys : List Octet)
    (hlen : xs.length = ys.length) (hne : xs ≠ ys) :
    lexicographical_compare xs ys = !lexicographical_compare ys xs := by
  induction xs generalizing ys with
  | nil =>
    cases ys with
    | nil => exact absurd rfl hne
    | cons b bs => simp at hlen
  | cons a as ih =>
    cases ys with
    | nil => simp at hlen
    | cons b bs =>
      have hlen' : as.length = bs.length := by simpa using hlen
      rcases lt_trichotomy a b with hab | hab | hab
      · simp [lexicographical_compare, hab, not_lt_of_gt hab]
      · subst hab
        have hne' : as ≠ bs := fun e => hne (by rw [e])
        simpa [lexicographical_compare] using ih bs hlen' hne'
      · simp [lexicographical_compare, hab, not_lt_of_gt hab]

/-- No range sorts before itself. -/
theorem lexicographical_compare_self (xs : List Octet) :
    lexicographical_compare xs xs = false := by
  induction xs with
  | nil => rfl
  | cons a as ih => simp [lexicographical_compare, ih]

/-- Two participant identifiers with the same octets are equal. -/
theorem GUID_t.eq_of_bytes (a b : GUID_t) (h : a.bytes = b.bytes) : a = b := by
  cases a
  cases b
  simp only [GUID_t.mk.injEq]
  exact h

/-- The intermediate result of the auth-request step is VALIDATION_OK or
VALIDATION_FAILED. -/
theorem auth_request_step_result (n : Int × OctetSeq) (lt rt : Token) :
    (auth_request_step n lt rt).1 = VALIDATION_OK
      ∨ (auth_request_step n lt rt).1 = VALIDATION_FAILED := by
  unfold auth_request_step
  split
  · split
    · exact Or.inl rfl
    · exact Or.inr rfl
  · exact Or.inl rfl

/-- A call of `validate_remote_identity` that does not fail reports the tie-break
taken on the local record's identifier and the remote identifier. -/
theorem validate_remote_identity_result (n : Int × OctetSeq)
    (s : AuthenticationBuiltInImpl) (rh : Handle) (lt rt : Token) (lh : Handle)
    (tok : Token) (g : GUID_t) (ex : SecurityException) (d : IdentityData)
    (hloc : get_identity_data s lh = some d)
    (hok : (validate_remote_identity n s rh lt rt lh tok g ex).result ≠ VALIDATION_FAILED) :
    (validate_remote_identity n s rh lt rt lh tok g ex).result =
      if is_handshake_initiator d.participant_guid g
      then VALIDATION_PENDING_HANDSHAKE_REQUEST
      else VALIDATION_PENDING_HANDSHAKE_MESSAGE := by
  unfold validate_remote_identity at hok ⊢
  rw [hloc] at hok ⊢
  simp only [] at hok ⊢
  by_cases hc : check_class_versions (some tok.class_id) = true
  · simp only [hc, if_true] at hok ⊢
    rcases auth_request_step_result n lt rt with hs | hs
    · simp only [hs, if_true]
    · simp [hs] at hok
  · simp [hc] at hok

/-- Claim C6: the tie-break is anti-symmetric and total. For two different participant
identifiers exactly one of `is_handshake_initiator a b` and `is_handshake_initiator b a`
is true; hence, when the plugin whose local identifier is `a` validates `b` as remote
and the plugin whose local identifier is `b` validates `a` as remote, and neither
call fails, one call returns VALIDATION_PENDING_HANDSHAKE_REQUEST and the other
VALIDATION_PENDING_HANDSHAKE_MESSAGE. -/
theorem is_handshake_initiator_exactly_one (a b : GUID_t) (hab : a ≠ b) :
    ((is_handshake_initiator a b = true ∧ is_handshake_initiator b a = false)
        ∨ (is_handshake_initiator a b = false ∧ is_handshake_initiator b a = true))
      ∧ ∀ (nA nB : Int × OctetSeq) (sA sB : AuthenticationBuiltInImpl)
          (rhA rhB : Handle) (ltA rtA ltB rtB : Token) (hA hB : Handle)
          (tokA tokB : Token) (exA exB : SecurityException) (dA dB : IdentityData),
          get_identity_data sA hA = some dA → dA.participant_guid = a →
          get_identity_data sB hB = some dB → dB.participant_guid = b →
          (validate_remote_identity nA sA rhA ltA rtA hA tokB b exA).result
            ≠ VALIDATION_FAILED →
          (validate_remote_identity nB sB rhB ltB rtB hB tokA a exB).result
            ≠ VALIDATION_FAILED →
          ((validate_remote_identity nA sA rhA ltA rtA hA tokB b exA).result
                = VALIDATION_PENDING_HANDSHAKE_REQUEST
              ∧ (validate_remote_identity nB sB rhB ltB rtB hB tokA a exB).result
                = VALIDATION_PENDING_HANDSHAKE_MESSAGE)
            ∨ ((validate_remote_identity nA sA rhA ltA rtA hA tokB b exA).result
                = VALIDATION_PENDING_HANDSHAKE_MESSAGE
              ∧ (validate_remote_identity nB sB rhB ltB rtB hB tokA a exB).result
                = VALIDATION_PENDING_HANDSHAKE_REQUEST) := by
  have hbytes : a.bytes ≠ b.bytes := fun e => hab (GUID_t.eq_of_bytes a b e)
  have hswap : is_handshake_initiator a b = !is_handshake_initiator b a :=
    lexicographical_compare_swap a.bytes b.bytes (by rw [a.size_eq, b.size_eq]) hbytes
  constructor
  · cases hba : is_handshake_initiator b a <;> simp [hswap, hba]
  · intro nA nB sA sB rhA rhB ltA rtA ltB rtB hA hB tokA tokB exA exB dA dB
      hdA hgA hdB hgB hokA hokB
    rw [validate_remote_identity_result nA sA rhA ltA rtA hA tokB b exA dA hdA hokA,
      validate_remote_identity_result nB sB rhB ltB rtB hB tokA a exB dB hdB hokB,
      hgA, hgB]
    cases hba : is_handshake_initiator b a <;> simp [hswap, hba]

/-- Witness for C6: the identifiers beginning 0x01 and 0x02, each plugin holding its
own identifier under handle 1. -/
theorem is_handshake_initiator_exactly_one_witness :
    guid_01 ≠ guid_02
      ∧ (((validate_remote_identity (0, []) (plugin_with_local guid_01) 0 TokenNIL TokenNIL 1
              identity_token_pki guid_02 ex_clear).result
            = VALIDATION_PENDING_HANDSHAKE_REQUEST
          ∧ (validate_remote_identity (0, []) (plugin_with_local guid_02) 0 TokenNIL TokenNIL 1
              identity_token_pki guid_01 ex_clear).result
            = VALIDATION_PENDING_HANDSHAKE_MESSAGE)
        ∨ ((validate_remote_identity (0, []) (plugin_with_local guid_01) 0 TokenNIL TokenNIL 1
              identity_token_pki guid_02 ex_clear).result
            = VALIDATION_PENDING_HANDSHAKE_MESSAGE
          ∧ (validate_remote_identity (0, []) (plugin_with_local guid_02) 0 TokenNIL TokenNIL 1
              identity_token_pki guid_01 ex_clear).result
            = VALIDATION_PENDING_HANDSHAKE_REQUEST)) :=
  ⟨by decide,
    (is_handshake_initiator_exactly_one guid_01 guid_02 (by decide)).2
      (0, []) (0, []) (plugin_with_local guid_01) (plugin_with_local guid_02) 0 0
      TokenNIL TokenNIL TokenNIL TokenNIL 1 1 identity_token_pki identity_token_pki
      ex_clear ex_clear
      { IdentityData.make_rch with participant_guid := guid_01 }
      { IdentityData.make_rch with participant_guid := guid_02 }
      (by decide) rfl (by decide) rfl (by decide) (by decide)⟩

/-- Claim C7 as stated fails: with local identifier 01 00 .. 00 and remote identifier
02 00 .. 00 the local side is the initiator although its byte sequence is not the
lexicographically greater one. -/
theorem is_handshake_initiator_not_greater :
    ¬ (is_handshake_initiator guid_01 guid_02 = true
        ↔ lex_before guid_02.bytes guid_01.bytes) := by
  intro h
  have h1 : lex_before guid_02.bytes guid_01.bytes := h.1 (by decide)
  have h2 := (lexicographical_compare_iff_lex_before guid_02.bytes guid_01.bytes
    (by decide)).2 h1
  revert h2
  decide

/-- Claim C7, amended: `is_handshake_initiator local remote` is true exactly when the
local byte sequence is lexicographically smaller than the remote one, and a call of
`validate_remote_identity` that does not fail returns
VALIDATION_PENDING_HANDSHAKE_REQUEST exactly when the local record's identifier is
lexicographically smaller than the remote identifier. -/
theorem is_handshake_initiator_iff_smaller (loc remote : GUID_t) :
    (is_handshake_initiator loc remote = true ↔ lex_before loc.bytes remote.bytes)
      ∧ ∀ (n : Int × OctetSeq) (s : AuthenticationBuiltInImpl) (rh : Handle)
          (lt rt : Token) (lh : Handle) (tok : Token) (ex : SecurityException)
          (d : IdentityData),
          get_identity_data s lh = some d → d.participant_guid = loc →
          (validate_remote_identity n s rh lt rt lh tok remote ex).result
            ≠ VALIDATION_FAILED →
          ((validate_remote_identity n s rh lt rt lh tok remote ex).result
              = VALIDATION_PENDING_HANDSHAKE_REQUEST
            ↔ lex_before loc.bytes remote.bytes) := by
  have hiff : is_handshake_initiator loc remote = true ↔ lex_before loc.bytes remote.bytes :=
    lexicographical_compare_iff_lex_before loc.bytes remote.bytes
      (by rw [loc.size_eq, remote.size_eq])
  refine ⟨hiff, ?_⟩
  intro n s rh lt rt lh tok ex d hd hg hok
  rw [validate_remote_identity_result n s rh lt rt lh tok remote ex d hd hok, hg, ← hiff]
  cases is_handshake_initiator loc remote <;> simp

/-- Witness for C7 amended: local 01 00 .. 00 against remote 02 00 .. 00. -/
theorem is_handshake_initiator_iff_smaller_witness :
    (validate_remote_identity (0, []) (plugin_with_local guid_01) 0 TokenNIL TokenNIL 1
        identity_token_pki guid_02 ex_clear).result = VALIDATION_PENDING_HANDSHAKE_REQUEST
      ↔ lex_before guid_01.bytes guid_02.bytes :=
  (is_handshake_initiator_iff_smaller guid_01 guid_02).2 (0, []) (plugin_with_local guid_01)
    0 TokenNIL TokenNIL 1 identity_token_pki ex_clear
    { IdentityData.make_rch with participant_guid := guid_01 } (by decide) rfl (by decide)

/-! ## Handshake initiation -/

/-- The request entry point when its precondition holds. -/
theorem begin_handshake_request_accepts (s : AuthenticationBuiltInImpl) (hh : Handle)
    (msg : Token) (ini rep : Handle) (data : OctetSeq) (ex : SecurityException)
    (d : IdentityData) (hdata : data ≠ []) (hrep : get_identity_data s rep = some d)
    (hpair : d.local_handle = ini) :
    begin_handshake_request s hh msg ini rep data ex =
      { result := VALIDATION_PENDING_HANDSHAKE_MESSAGE
        state := { s with
          next_handle_ := (s.next_handle_ + 1) % 2 ^ 64
          handshake_data_ := map_assign s.handshake_data_ s.next_handle_
            ⟨ini, rep, true, VALIDATION_PENDING_HANDSHAKE_MESSAGE, none⟩ }
        handshake_handle := s.next_handle_
        handshake_message := handshake_request_message msg data d
        ex := ex } := by
  have hlen : data.length ≠ 0 := fun h => hdata (List.length_eq_zero.mp h)
  simp [begin_handshake_request, hlen, hrep, hpair, get_next_handle, HandshakeData.make_rch]

/-- The request entry point when its precondition fails: VALIDATION_FAILED, and the
plugin state and the output parameters stay as they were. -/
theorem begin_handshake_request_rejects (s : AuthenticationBuiltInImpl) (hh : Handle)
    (msg : Token) (ini rep : Handle) (data : OctetSeq) (ex : SecurityException)
    (hpre : data = [] ∨ get_identity_data s rep = none
      ∨ ∃ d, get_identity_data s rep = some d ∧ d.local_handle ≠ ini) :
    (begin_handshake_request s hh msg ini rep data ex).result = VALIDATION_FAILED
      ∧ (begin_handshake_request s hh msg ini rep data ex).state = s
      ∧ (begin_handshake_request s hh msg ini rep data ex).handshake_handle = hh
      ∧ (begin_handshake_request s hh msg ini rep data ex).handshake_message = msg := by
  unfold begin_handshake_request
  by_cases hlen : data.length = 0
  · simp [hlen]
  · have hdata : data ≠ [] := fun h => hlen (by rw [h]; rfl)
    rcases hpre with h | h | ⟨d, h, hne⟩
    · exact absurd h hdata
    · simp [hlen, h]
    · simp [hlen, h, hne]

/-- The reply entry point when its precondition holds. -/
theorem begin_handshake_reply_accepts (s : AuthenticationBuiltInImpl) (hh : Handle)
    (msg : Token) (ini rep : Handle) (data : OctetSeq) (ex : SecurityException)
    (d : IdentityData) (hdata : data ≠ []) (hini : get_identity_data s ini = some d)
    (hpair : d.local_handle = rep) :
    begin_handshake_reply s hh msg ini rep data ex =
      { result := VALIDATION_PENDING_HANDSHAKE_MESSAGE
        state := { s with
          next_handle_ := (s.next_handle_ + 1) % 2 ^ 64
          handshake_data_ := map_assign s.handshake_data_ s.next_handle_
            ⟨rep, ini, false, VALIDATION_PENDING_HANDSHAKE_MESSAGE, none⟩ }
        handshake_handle := s.next_handle_
        handshake_message := handshake_reply_message msg data d
        ex := ex } := by
  have hlen : data.length ≠ 0 := fun h => hdata (List.length_eq_zero.mp h)
  simp [begin_handshake_reply, hlen, hini, hpair, get_next_handle, HandshakeData.make_rch]

/-- The reply entry point when its precondition fails: VALIDATION_FAILED, and the
plugin state and the output parameters stay as they were. -/
theorem begin_handshake_reply_rejects (s : AuthenticationBuiltInImpl) (hh : Handle)
    (msg : Token) (ini rep : Handle) (data : OctetSeq) (ex : SecurityException)
    (hpre : data = [] ∨ get_identity_data s ini = none
      ∨ ∃ d, get_identity_data s ini = some d ∧ d.local_handle ≠ rep) :
    (begin_handshake_reply s hh msg ini rep data ex).result = VALIDATION_FAILED
      ∧ (begin_handshake_reply s hh msg ini rep data ex).state = s
      ∧ (begin_handshake_reply s hh msg ini rep data ex).handshake_handle = hh
      ∧ (begin_handshake_reply s hh msg ini rep data ex).handshake_message = msg := by
  unfold begin_handshake_reply
  by_cases hlen : data.length = 0
  · simp [hlen]
  · have hdata : data ≠ [] := fun h => hlen (by rw [h]; rfl)
    rcases hpre with h | h | ⟨d, h, hne⟩
    · exact absurd h hdata
    · simp [hlen, h]
    · simp [hlen, h, hne]

/-- The precondition of a handshake entry point either holds or fails. -/
theorem begin_handshake_precondition_cases (s : AuthenticationBuiltInImpl) (x y : Handle)
    (data : OctetSeq) :
    (data ≠ [] ∧ ∃ d, get_identity_data s x = some d ∧ d.local_handle = y)
      ∨ (data = [] ∨ get_identity_data s x = none
        ∨ ∃ d, get_identity_data s x = some d ∧ d.local_handle ≠ y) := by
  by_cases hdata : data = []
  · exact Or.inr (Or.inl hdata)
  · cases hx : get_identity_data s x with
    | none => exact Or.inr (Or.inr (Or.inl rfl))
    | some d =>
      by_cases hp : d.local_handle = y
      · exact Or.inl ⟨hdata, d, rfl, hp⟩
      · exact Or.inr (Or.inr (Or.inr ⟨d, rfl, hp⟩))

/-- A request begun on a matched pair, followed by a "Reply" message: the record is
registered pending, the reply is accepted with VALIDATION_OK_FINAL_MESSAGE, the
outgoing message is the final message, and a shared secret is then available. -/
theorem request_then_reply_completes (s : AuthenticationBuiltInImpl) (hh : Handle)
    (msg out reply : Token) (ini rep : Handle) (data : OctetSeq) (ex : SecurityException)
    (d : IdentityData) (hdata : data ≠ []) (hrep : get_identity_data s rep = some d)
    (hpair : d.local_handle = ini)
    (hphase : get_extension reply.class_id = "Reply".toList) :
    (begin_handshake_request s hh msg ini rep data ex).result
        = VALIDATION_PENDING_HANDSHAKE_MESSAGE
      ∧ (get_handshake_data (begin_handshake_request s hh msg ini rep data ex).state
          (begin_handshake_request s hh msg ini rep data ex).handshake_handle).map
            HandshakeData.validation_state = some VALIDATION_PENDING_HANDSHAKE_MESSAGE
      ∧ (process_handshake (begin_handshake_request s hh msg ini rep data ex).state out reply
          (begin_handshake_request s hh msg ini rep data ex).handshake_handle
          (begin_handshake_request s hh msg ini rep data ex).ex).result
        = VALIDATION_OK_FINAL_MESSAGE
      ∧ (process_handshake (begin_handshake_request s hh msg ini rep data ex).state out reply
          (begin_handshake_request s hh msg ini rep data ex).handshake_handle
          (begin_handshake_request s hh msg ini rep data ex).ex).handshake_message_out
        = handshake_final_message out
      ∧ (get_shared_secret
          (process_handshake (begin_handshake_request s hh msg ini rep data ex).state out
            reply (begin_handshake_request s hh msg ini rep data ex).handshake_handle
            (begin_handshake_request s hh msg ini rep data ex).ex).state
          (begin_handshake_request s hh msg ini rep data ex).handshake_handle
          (process_handshake (begin_handshake_request s hh msg ini rep data ex).state out
            reply (begin_handshake_request s hh msg ini rep data ex).handshake_handle
            (begin_handshake_request s hh msg ini rep data ex).ex).ex).result ≠ none := by
  rw [begin_handshake_request_accepts s hh msg ini rep data ex d hdata hrep hpair]
  simp only []
  rw [process_handshake_of_reply _ _ _ _ _ hphase]
  rw [process_handshake_reply_accepts _ out reply s.next_handle_ ex
    ⟨ini, rep, true, VALIDATION_PENDING_HANDSHAKE_MESSAGE, none⟩ d
    (by simp [get_handshake_data, map_assign]) (by simpa [get_identity_data] using hrep) rfl]
  simp [get_handshake_data, map_assign, get_shared_secret]

/-- A reply begun on a matched pair, followed by a "Final" message: the reply message
is the one built for "Reply", the final message is accepted with VALIDATION_OK, and a
shared secret is then available. -/
theorem reply_then_final_completes (s : AuthenticationBuiltInImpl) (hh : Handle)
    (msg out final : Token) (ini rep : Handle) (data : OctetSeq) (ex : SecurityException)
    (d : IdentityData) (hdata : data ≠ []) (hini : get_identity_data s ini = some d)
    (hpair : d.local_handle = rep)
    (hphase : get_extension final.class_id = "Final".toList) :
    (begin_handshake_reply s hh msg ini rep data ex).result
        = VALIDATION_PENDING_HANDSHAKE_MESSAGE
      ∧ (begin_handshake_reply s hh msg ini rep data ex).handshake_message
        = handshake_reply_message msg data d
      ∧ (process_handshake (begin_handshake_reply s hh msg ini rep data ex).state out final
          (begin_handshake_reply s hh msg ini rep data ex).handshake_handle
          (begin_handshake_reply s hh msg ini rep data ex).ex).result = VALIDATION_OK
      ∧ (get_shared_secret
          (process_handshake (begin_handshake_reply s hh msg ini rep data ex).state out
            final (begin_handshake_reply s hh msg ini rep data ex).handshake_handle
            (begin_handshake_reply s hh msg ini rep data ex).ex).state
          (begin_handshake_reply s hh msg ini rep data ex).handshake_handle
          (process_handshake (begin_handshake_reply s hh msg ini rep data ex).state out
            final (begin_handshake_reply s hh msg ini rep data ex).handshake_handle
            (begin_handshake_reply s hh msg ini rep data ex).ex).ex).result ≠ none := by
  rw [begin_handshake_reply_accepts s hh msg ini rep data ex d hdata hini hpair]
  simp only []
  rw [process_handshake_of_final _ _ _ _ _ hphase]
  rw [process_final_handshake_accepts _ final s.next_handle_ ex
    ⟨rep, ini, false, VALIDATION_PENDING_HANDSHAKE_MESSAGE, none⟩ d
    (by simp [get_handshake_data, map_assign]) (by simpa [get_identity_data] using hini) rfl]
  simp [get_handshake_data, map_assign, get_shared_secret]

/-- Claim C9: `begin_handshake_request` returns VALIDATION_FAILED if and only if the
participant data is empty, or the replier handle does not resolve, or the replier
record's stored local handle is not the initiator handle; `begin_handshake_reply`
returns VALIDATION_FAILED if and only if the data is empty, or the initiator handle
does not resolve, or the initiator record's stored local handle is not the replier
handle. On such a failure the plugin state is unchanged (no handshake record, no
handle allocated) and the handshake-handle parameter is not written. -/
theorem begin_handshake_precondition (s : AuthenticationBuiltInImpl) (hh : Handle)
    (msg : Token) (ini rep : Handle) (data : OctetSeq) (ex : SecurityException) :
    ((begin_handshake_request s hh msg ini rep data ex).result = VALIDATION_FAILED
        ↔ (data = [] ∨ get_identity_data s rep = none
          ∨ ∃ d, get_identity_data s rep = some d ∧ d.local_handle ≠ ini))
      ∧ ((begin_handshake_reply s hh msg ini rep data ex).result = VALIDATION_FAILED
        ↔ (data = [] ∨ get_identity_data s ini = none
          ∨ ∃ d, get_identity_data s ini = some d ∧ d.local_handle ≠ rep))
      ∧ ((begin_handshake_request s hh msg ini rep data ex).result = VALIDATION_FAILED →
          (begin_handshake_request s hh msg ini rep data ex).state = s
            ∧ (begin_handshake_request s hh msg ini rep data ex).handshake_handle = hh)
      ∧ ((begin_handshake_reply s hh msg ini rep data ex).result = VALIDATION_FAILED →
          (begin_handshake_reply s hh msg ini rep data ex).state = s
            ∧ (begin_handshake_reply s hh msg ini rep data ex).handshake_handle = hh) := by
  have hreq : (begin_handshake_request s hh msg ini rep data ex).result = VALIDATION_FAILED
      ↔ (data = [] ∨ get_identity_data s rep = none
        ∨ ∃ d, get_identity_data s rep = some d ∧ d.local_handle ≠ ini) := by
    constructor
    · intro hres
      rcases begin_handshake_precondition_cases s rep ini data with ⟨hdata, d, hd, hp⟩ | hpre
      · rw [begin_handshake_request_accepts s hh msg ini rep data ex d hdata hd hp] at hres
        cases hres
      · exact hpre
    · exact fun hpre => (begin_handshake_request_rejects s hh msg ini rep data ex hpre).1
  have hrpl : (begin_handshake_reply s hh msg ini rep data ex).result = VALIDATION_FAILED
      ↔ (data = [] ∨ get_identity_data s ini = none
        ∨ ∃ d, get_identity_data s ini = some d ∧ d.local_handle ≠ rep) := by
    constructor
    · intro hres
      rcases begin_handshake_precondition_cases s ini rep data with ⟨hdata, d, hd, hp⟩ | hpre
      · rw [begin_handshake_reply_accepts s hh msg ini rep data ex d hdata hd hp] at hres
        cases hres
      · exact hpre
    · exact fun hpre => (begin_handshake_reply_rejects s hh msg ini rep data ex hpre).1
  refine ⟨hreq, hrpl, fun hres => ?_, fun hres => ?_⟩
  · obtain ⟨-, h2, h3, -⟩ :=
      begin_handshake_request_rejects s hh msg ini rep data ex (hreq.1 hres)
    exact ⟨h2, h3⟩
  · obtain ⟨-, h2, h3, -⟩ :=
      begin_handshake_reply_rejects s hh msg ini rep data ex (hrpl.1 hres)
    exact ⟨h2, h3⟩

/-- Witness for C9: a request whose initiator handle 9 is not the local handle stored
in the replier record fails and leaves the plugin as it was. -/
theorem begin_handshake_precondition_witness :
    (begin_handshake_request plugin_with_pair 0 TokenNIL 9 2 [1] ex_clear).result
        = VALIDATION_FAILED
      ∧ (begin_handshake_request plugin_with_pair 0 TokenNIL 9 2 [1] ex_clear).state
        = plugin_with_pair
      ∧ (begin_handshake_request plugin_with_pair 0 TokenNIL 9 2 [1] ex_clear).handshake_handle
        = 0 :=
  ⟨by decide,
    (begin_handshake_precondition plugin_with_pair 0 TokenNIL 9 2 [1] ex_clear).2.2.1
      (by decide)⟩

/-- Claim C10: in a plugin state whose registered handshake handles all lie below the
handle counter (as they do in every state reached without counter wrap-around),
every successful `begin_handshake_request` / `begin_handshake_reply` returns
VALIDATION_PENDING_HANDSHAKE_MESSAGE, registers one new record under the handle it
allocates, which was not registered before, and leaves the record under every other
handle as it was, whatever records exist already. The new record is in
VALIDATION_PENDING_HANDSHAKE_MESSAGE without shared secret; for a request it is
(local = initiator, remote = replier, local_initiator = true), for a reply
(local = replier, remote = initiator, local_initiator = false). -/
theorem begin_handshake_creates_record (s : AuthenticationBuiltInImpl) (hh : Handle)
    (msg : Token) (ini rep : Handle) (data : OctetSeq) (ex : SecurityException)
    (hinv : ∀ k r, get_handshake_data s k = some r → k < s.next_handle_) :
    ((begin_handshake_request s hh msg ini rep data ex).result ≠ VALIDATION_FAILED →
        (begin_handshake_request s hh msg ini rep data ex).result
            = VALIDATION_PENDING_HANDSHAKE_MESSAGE
          ∧ (begin_handshake_request s hh msg ini rep data ex).handshake_handle
            = (get_next_handle s).1
          ∧ get_handshake_data s
              (begin_handshake_request s hh msg ini rep data ex).handshake_handle = none
          ∧ get_handshake_data (begin_handshake_request s hh msg ini rep data ex).state
              (begin_handshake_request s hh msg ini rep data ex).handshake_handle
            = some ⟨ini, rep, true, VALIDATION_PENDING_HANDSHAKE_MESSAGE, none⟩
          ∧ ∀ k, k ≠ (begin_handshake_request s hh msg ini rep data ex).handshake_handle →
              get_handshake_data (begin_handshake_request s hh msg ini rep data ex).state k
                = get_handshake_data s k)
      ∧ ((begin_handshake_reply s hh msg ini rep data ex).result ≠ VALIDATION_FAILED →
        (begin_handshake_reply s hh msg ini rep data ex).result
            = VALIDATION_PENDING_HANDSHAKE_MESSAGE
          ∧ (begin_handshake_reply s hh msg ini rep data ex).handshake_handle
            = (get_next_handle s).1
          ∧ get_handshake_data s
              (begin_handshake_reply s hh msg ini rep data ex).handshake_handle = none
          ∧ get_handshake_data (begin_handshake_reply s hh msg ini rep data ex).state
              (begin_handshake_reply s hh msg ini rep data ex).handshake_handle
            = some ⟨rep, ini, false, VALIDATION_PENDING_HANDSHAKE_MESSAGE, none⟩
          ∧ ∀ k, k ≠ (begin_handshake_reply s hh msg ini rep data ex).handshake_handle →
              get_handshake_data (begin_handshake_reply s hh msg ini rep data ex).state k
                = get_handshake_data s k) := by
  have hfresh : get_handshake_data s s.next_handle_ = none := by
    cases hk : get_handshake_data s s.next_handle_ with
    | none => rfl
    | some r => exact absurd (hinv _ r hk) (lt_irrefl _)
  constructor
  · intro hres
    rcases begin_handshake_precondition_cases s rep ini data with ⟨hdata, d, hd, hp⟩ | hpre
    · rw [begin_handshake_request_accepts s hh msg ini rep data ex d hdata hd hp]
      refine ⟨rfl, rfl, hfresh, by simp [get_handshake_data, map_assign], ?_⟩
      intro k hk
      simp only [get_handshake_data, map_assign] at hk ⊢
      simp [hk]
    · exact absurd (begin_handshake_request_rejects s hh msg ini rep data ex hpre).1 hres
  · intro hres
    rcases begin_handshake_precondition_cases s ini rep data with ⟨hdata, d, hd, hp⟩ | hpre
    · rw [begin_handshake_reply_accepts s hh msg ini rep data ex d hdata hd hp]
      refine ⟨rfl, rfl, hfresh, by simp [get_handshake_data, map_assign], ?_⟩
      intro k hk
      simp only [get_handshake_data, map_assign] at hk ⊢
      simp [hk]
    · exact absurd (begin_handshake_reply_rejects s hh msg ini rep data ex hpre).1 hres

/-- Witness for C10: a second request for the identity pair (1, 2), whose first
handshake is registered under handle 3, is registered under handle 4 and the record
under handle 3 stays. -/
theorem begin_handshake_creates_record_witness :
    (∀ k r, get_handshake_data
        (plugin_with_handshake VALIDATION_PENDING_HANDSHAKE_MESSAGE none) k = some r →
        k < (plugin_with_handshake VALIDATION_PENDING_HANDSHAKE_MESSAGE none).next_handle_)
      ∧ (begin_handshake_request
            (plugin_with_handshake VALIDATION_PENDING_HANDSHAKE_MESSAGE none) 0 TokenNIL 1 2
            [1] ex_clear).handshake_handle = 4
      ∧ get_handshake_data
          (begin_handshake_request
            (plugin_with_handshake VALIDATION_PENDING_HANDSHAKE_MESSAGE none) 0 TokenNIL 1 2
            [1] ex_clear).state 3
        = some ⟨1, 2, true, VALIDATION_PENDING_HANDSHAKE_MESSAGE, none⟩ :=
  have hinv : ∀ k r, get_handshake_data
      (plugin_with_handshake VALIDATION_PENDING_HANDSHAKE_MESSAGE none) k = some r →
      k < (plugin_with_handshake VALIDATION_PENDING_HANDSHAKE_MESSAGE none).next_handle_ := by
    intro k r hk
    by_cases h3 : k = 3
    · subst h3
      decide
    · simp [get_handshake_data, plugin_with_handshake, h3] at hk
  have hthm := (begin_handshake_creates_record
    (plugin_with_handshake VALIDATION_PENDING_HANDSHAKE_MESSAGE none) 0 TokenNIL 1 2 [1]
    ex_clear hinv).1 (by decide)
  ⟨hinv, hthm.2.1, (hthm.2.2.2.2 3 (by rw [hthm.2.1]; decide)).trans (by decide)⟩

/-! ## Identity validation -/

/-- Local validation when the credential validates and the identifier adjustment
succeeds. -/
theorem validate_local_identity_accepts (ext : External) (s : AuthenticationBuiltInImpl)
    (lh : Handle) (adj : GUID_t) (dom : Int) (qos : List Property_t) (cand : GUID_t)
    (ex : SecurityException) (g : GUID_t)
    (hvalid : ext.validate (ext.load s.local_credential_data_ qos) = true)
    (hadj : ext.make_adjusted_guid cand adj
      (ext.load s.local_credential_data_ qos).participant_cert = (0, g)) :
    validate_local_identity ext s lh adj dom qos cand ex =
      { result := VALIDATION_OK
        state := { s with
          local_credential_data_ := ext.load s.local_credential_data_ qos
          next_handle_ := (s.next_handle_ + 1) % 2 ^ 64
          identity_data_ := map_assign s.identity_data_ s.next_handle_
            { IdentityData.make_rch with participant_guid := g } }
        local_identity_handle := s.next_handle_
        adjusted_participant_guid := g
        ex := ex } := by
  simp [validate_local_identity, hvalid, hadj, get_next_handle]

/-- The auth-request step succeeds when nonce generation, if it is called at all (the
incoming auth-request token being nil), succeeds. -/
theorem auth_request_step_of_nonce (n : Int × OctetSeq) (lt rt : Token)
    (hn : TokenReader.is_nil rt = true → n.1 = 0) :
    (auth_request_step n lt rt).1 = VALIDATION_OK := by
  unfold auth_request_step
  split
  · next hnil => simp [hn hnil]
  · rfl

/-- Remote validation when the local handle resolves, the class identifier is
compatible and the auth-request step succeeds. -/
theorem validate_remote_identity_accepts (n : Int × OctetSeq)
    (s : AuthenticationBuiltInImpl) (rh : Handle) (lt rt : Token) (lh : Handle)
    (tok : Token) (g : GUID_t) (ex : SecurityException) (d : IdentityData)
    (hloc : get_identity_data s lh = some d)
    (hclass : check_class_versions (some tok.class_id) = true)
    (hstep : (auth_request_step n lt rt).1 = VALIDATION_OK) :
    validate_remote_identity n s rh lt rt lh tok g ex =
      { result :=
          if is_handshake_initiator d.participant_guid g
          then VALIDATION_PENDING_HANDSHAKE_REQUEST
          else VALIDATION_PENDING_HANDSHAKE_MESSAGE
        state := { s with
          next_handle_ := (s.next_handle_ + 1) % 2 ^ 64
          identity_data_ := map_assign s.identity_data_ s.next_handle_
            { IdentityData.make_rch with
              participant_guid := g
              local_handle := lh
              local_auth_request := (auth_request_step n lt rt).2
              remote_auth_request := rt } }
        remote_identity_handle := s.next_handle_
        local_auth_request_token := (auth_request_step n lt rt).2
        ex := ex } := by
  simp [validate_remote_identity, hloc, hclass, hstep, get_next_handle]

/-- An identifier beginning 0x01 sorts before an identifier beginning 0x02, and not
the other way round. -/
theorem is_handshake_initiator_of_heads (a b : GUID_t) (ha : a.bytes.head? = some 1)
    (hb : b.bytes.head? = some 2) :
    is_handshake_initiator a b = true ∧ is_handshake_initiator b a = false := by
  obtain ⟨xs, hx⟩ := a
  obtain ⟨ys, hy⟩ := b
  cases xs with
  | nil => simp at ha
  | cons x xs =>
    cases ys with
    | nil => simp at hb
    | cons y ys =>
      simp only [List.head?_cons, Option.some.injEq] at ha hb
      subst ha
      subst hb
      constructor <;> simp [is_handshake_initiator, lexicographical_compare]

/-- The class identifier of a reply message is the one built for "Reply". -/
theorem handshake_reply_message_class_id (msg : Token) (data : OctetSeq)
    (d : IdentityData) :
    (handshake_reply_message msg data d).class_id = build_class_id "Reply".toList := by
  unfold handshake_reply_message
  split <;> rfl

/-- The class identifier of a final message is the one built for "Final". -/
theorem handshake_final_message_class_id (msg : Token) :
    (handshake_final_message msg).class_id = build_class_id "Final".toList := rfl

/-- What a successful local validation leaves: the adjusted identifier is returned and
a record holding it is found under the returned handle. -/
theorem validate_local_identity_registers (ext : External) (s : AuthenticationBuiltInImpl)
    (lh : Handle) (adj : GUID_t) (dom : Int) (qos : List Property_t) (cand : GUID_t)
    (ex : SecurityException) (g : GUID_t)
    (hvalid : ext.validate (ext.load s.local_credential_data_ qos) = true)
    (hadj : ext.make_adjusted_guid cand adj
      (ext.load s.local_credential_data_ qos).participant_cert = (0, g)) :
    (validate_local_identity ext s lh adj dom qos cand ex).result = VALIDATION_OK
      ∧ (validate_local_identity ext s lh adj dom qos cand ex).adjusted_participant_guid = g
      ∧ (validate_local_identity ext s lh adj dom qos cand ex).ex = ex
      ∧ get_identity_data (validate_local_identity ext s lh adj dom qos cand ex).state
          (validate_local_identity ext s lh adj dom qos cand ex).local_identity_handle
        = some { IdentityData.make_rch with participant_guid := g } := by
  rw [validate_local_identity_accepts ext s lh adj dom qos cand ex g hvalid hadj]
  simp [get_identity_data, map_assign]

/-- What a successful remote validation leaves: the tie-break result, and under the
returned handle a record paired with the local handle. -/
theorem validate_remote_identity_registers (n : Int × OctetSeq)
    (s : AuthenticationBuiltInImpl) (rh : Handle) (lt rt : Token) (lh : Handle)
    (tok : Token) (g : GUID_t) (ex : SecurityException) (d : IdentityData)
    (hloc : get_identity_data s lh = some d)
    (hclass : check_class_versions (some tok.class_id) = true)
    (hstep : (auth_request_step n lt rt).1 = VALIDATION_OK) :
    (validate_remote_identity n s rh lt rt lh tok g ex).result
        = (if is_handshake_initiator d.participant_guid g
          then VALIDATION_PENDING_HANDSHAKE_REQUEST
          else VALIDATION_PENDING_HANDSHAKE_MESSAGE)
      ∧ (validate_remote_identity n s rh lt rt lh tok g ex).ex = ex
      ∧ ∃ d', get_identity_data (validate_remote_identity n s rh lt rt lh tok g ex).state
            (validate_remote_identity n s rh lt rt lh tok g ex).remote_identity_handle
          = some d' ∧ d'.local_handle = lh := by
  rw [validate_remote_identity_accepts n s rh lt rt lh tok g ex d hloc hclass hstep]
  refine ⟨rfl, rfl,
    { IdentityData.make_rch with
      participant_guid := g
      local_handle := lh
      local_auth_request := (auth_request_step n lt rt).2
      remote_auth_request := rt }, ?_, rfl⟩
  simp only [get_identity_data, map_assign, if_true]

/-- Claim C8: the end-to-end scenario. Two fresh plugins A and B validate their local
identities (credential validation and identifier adjustment succeeding, A's adjusted
identifier beginning 0x01 and B's beginning 0x02), then validate each other as remote
with compatible identity tokens (nonce generation, where it is called, succeeding), and exchange the
handshake with non-empty participant data. Then A is told
VALIDATION_PENDING_HANDSHAKE_REQUEST and B VALIDATION_PENDING_HANDSHAKE_MESSAGE; A's
`begin_handshake_request` registers a record in VALIDATION_PENDING_HANDSHAKE_MESSAGE;
B's `begin_handshake_reply` gives a message of phase "Reply"; A's `process_handshake`
on it returns VALIDATION_OK_FINAL_MESSAGE with a message of phase "Final"; B's
`process_handshake` on that message returns VALIDATION_OK; and `get_shared_secret`
then gives a non-nil handle on both sides. -/
theorem end_to_end_handshake (extA extB : External) (domA domB : Int)
    (qosA qosB : List Property_t) (candA candB gA gB : GUID_t)
    (tokA tokB rtA rtB : Token) (nA nB : Int × OctetSeq) (dataA dataB : OctetSeq)
    (ex : SecurityException)
    (hvalidA : extA.validate
      (extA.load AuthenticationBuiltInImpl.new.local_credential_data_ qosA) = true)
    (hadjA : extA.make_adjusted_guid candA GUID_UNKNOWN
      (extA.load AuthenticationBuiltInImpl.new.local_credential_data_ qosA).participant_cert
        = (0, gA))
    (hvalidB : extB.validate
      (extB.load AuthenticationBuiltInImpl.new.local_credential_data_ qosB) = true)
    (hadjB : extB.make_adjusted_guid candB GUID_UNKNOWN
      (extB.load AuthenticationBuiltInImpl.new.local_credential_data_ qosB).participant_cert
        = (0, gB))
    (hgA : gA.bytes.head? = some 1) (hgB : gB.bytes.head? = some 2)
    (htokA : check_class_versions (some tokA.class_id) = true)
    (htokB : check_class_versions (some tokB.class_id) = true)
    (hnA : TokenReader.is_nil rtA = true → nA.1 = 0)
    (hnB : TokenReader.is_nil rtB = true → nB.1 = 0)
    (hdataA : dataA ≠ []) (hdataB : dataB ≠ []) :
    let a1 := validate_local_identity extA AuthenticationBuiltInImpl.new 0 GUID_UNKNOWN
      domA qosA candA ex
    let b1 := validate_local_identity extB AuthenticationBuiltInImpl.new 0 GUID_UNKNOWN
      domB qosB candB ex
    let a2 := validate_remote_identity nA a1.state 0 TokenNIL rtA a1.local_identity_handle
      tokB b1.adjusted_participant_guid a1.ex
    let b2 := validate_remote_identity nB b1.state 0 TokenNIL rtB b1.local_identity_handle
      tokA a1.adjusted_participant_guid b1.ex
    let a3 := begin_handshake_request a2.state 0 TokenNIL a1.local_identity_handle
      a2.remote_identity_handle dataA a2.ex
    let b3 := begin_handshake_reply b2.state 0 TokenNIL b2.remote_identity_handle
      b1.local_identity_handle dataB b2.ex
    let a4 := process_handshake a3.state TokenNIL b3.handshake_message a3.handshake_handle
      a3.ex
    let b4 := process_handshake b3.state TokenNIL a4.handshake_message_out
      b3.handshake_handle b3.ex
    a1.result = VALIDATION_OK ∧ b1.result = VALIDATION_OK
      ∧ a1.adjusted_participant_guid = gA ∧ b1.adjusted_participant_guid = gB
      ∧ a2.result = VALIDATION_PENDING_HANDSHAKE_REQUEST
      ∧ b2.result = VALIDATION_PENDING_HANDSHAKE_MESSAGE
      ∧ a3.result = VALIDATION_PENDING_HANDSHAKE_MESSAGE
      ∧ (get_handshake_data a3.state a3.handshake_handle).map HandshakeData.validation_state
          = some VALIDATION_PENDING_HANDSHAKE_MESSAGE
      ∧ b3.result = VALIDATION_PENDING_HANDSHAKE_MESSAGE
      ∧ get_extension b3.handshake_message.class_id = "Reply".toList
      ∧ a4.result = VALIDATION_OK_FINAL_MESSAGE
      ∧ get_extension a4.handshake_message_out.class_id = "Final".toList
      ∧ b4.result = VALIDATION_OK
      ∧ (get_shared_secret a4.state a3.handshake_handle a4.ex).result ≠ none
      ∧ (get_shared_secret b4.state b3.handshake_handle b4.ex).result ≠ none := by
  intro a1 b1 a2 b2 a3 b3 a4 b4
  obtain ⟨ha1r, ha1g, ha1e, ha1d⟩ := validate_local_identity_registers extA
    AuthenticationBuiltInImpl.new 0 GUID_UNKNOWN domA qosA candA ex gA hvalidA hadjA
  obtain ⟨hb1r, hb1g, hb1e, hb1d⟩ := validate_local_identity_registers extB
    AuthenticationBuiltInImpl.new 0 GUID_UNKNOWN domB qosB candB ex gB hvalidB hadjB
  obtain ⟨hinitA, hinitB⟩ := is_handshake_initiator_of_heads gA gB hgA hgB
  obtain ⟨ha2r, ha2e, dA, ha2d, ha2p⟩ := validate_remote_identity_registers nA a1.state 0
    TokenNIL rtA a1.local_identity_handle tokB b1.adjusted_participant_guid a1.ex _ ha1d
    htokB (auth_request_step_of_nonce nA TokenNIL rtA hnA)
  obtain ⟨hb2r, hb2e, dB, hb2d, hb2p⟩ := validate_remote_identity_registers nB b1.state 0
    TokenNIL rtB b1.local_identity_handle tokA a1.adjusted_participant_guid b1.ex _ hb1d
    htokA (auth_request_step_of_nonce nB TokenNIL rtB hnB)
  have hb3phase : get_extension b3.handshake_message.class_id = "Reply".toList := by
    show get_extension (begin_handshake_reply b2.state 0 TokenNIL b2.remote_identity_handle
      b1.local_identity_handle dataB b2.ex).handshake_message.class_id = "Reply".toList
    rw [begin_handshake_reply_accepts b2.state 0 TokenNIL b2.remote_identity_handle
      b1.local_identity_handle dataB b2.ex dB hdataB hb2d hb2p]
    simp only [handshake_reply_message_class_id]
    decide
  obtain ⟨ha3r, ha3s, ha4r, ha4m, ha4s⟩ := request_then_reply_completes a2.state 0 TokenNIL
    TokenNIL b3.handshake_message a1.local_identity_handle a2.remote_identity_handle dataA
    a2.ex dA hdataA ha2d ha2p hb3phase
  have ha4phase : get_extension a4.handshake_message_out.class_id = "Final".toList := by
    show get_extension (process_handshake a3.state TokenNIL b3.handshake_message
      a3.handshake_handle a3.ex).handshake_message_out.class_id = "Final".toList
    rw [ha4m]
    decide
  obtain ⟨hb3r, -, hb4r, hb4s⟩ := reply_then_final_completes b2.state 0 TokenNIL TokenNIL
    a4.handshake_message_out b2.remote_identity_handle b1.local_identity_handle dataB b2.ex
    dB hdataB hb2d hb2p ha4phase
  have ha2r' : a2.result = VALIDATION_PENDING_HANDSHAKE_REQUEST := by
    refine ha2r.trans ?_
    rw [show b1.adjusted_participant_guid = gB from hb1g]
    simp [hinitA]
  have hb2r' : b2.result = VALIDATION_PENDING_HANDSHAKE_MESSAGE := by
    refine hb2r.trans ?_
    rw [show a1.adjusted_participant_guid = gA from ha1g]
    simp [hinitB]
  exact ⟨ha1r, hb1r, ha1g, hb1g, ha2r', hb2r', ha3r, ha3s, hb3r, hb3phase, ha4r, ha4phase,
    hb4r, ha4s, hb4s⟩

/-- Witness for C8: the scenario run with always-succeeding collaborators, identifiers
01 00 .. 00 and 02 00 .. 00, and one octet of participant data on each side. -/
theorem end_to_end_handshake_witness :
    scenario_a2.result = VALIDATION_PENDING_HANDSHAKE_REQUEST
      ∧ scenario_b2.result = VALIDATION_PENDING_HANDSHAKE_MESSAGE
      ∧ scenario_a4.result = VALIDATION_OK_FINAL_MESSAGE
      ∧ scenario_b4.result = VALIDATION_OK
      ∧ (get_shared_secret scenario_a4.state scenario_a3.handshake_handle
          scenario_a4.ex).result ≠ none
      ∧ (get_shared_secret scenario_b4.state scenario_b3.handshake_handle
          scenario_b4.ex).result ≠ none :=
  have h := end_to_end_handshake (ext_ok guid_01) (ext_ok guid_02) 0 0 [] [] guid_01 guid_02
    guid_01 guid_02 identity_token_pki identity_token_pki TokenNIL TokenNIL (0, [7]) (0, [9])
    [1] [2] ex_clear rfl rfl rfl rfl (by decide) (by decide) (by decide) (by decide)
    (fun _ => rfl) (fun _ => rfl) (by decide) (by decide)
  ⟨h.2.2.2.2.1, h.2.2.2.2.2.1, h.2.2.2.2.2.2.2.2.2.2.1, h.2.2.2.2.2.2.2.2.2.2.2.2.1,
    h.2.2.2.2.2.2.2.2.2.2.2.2.2.1, h.2.2.2.2.2.2.2.2.2.2.2.2.2.2⟩

/-! ## Registered handles lie below the counter -/

/-- Keys below `n` stay below `n + 1` after an assignment under the key `n`. -/
theorem map_assign_below_succ {α : Type} (m : Handle → Option α) (n : Nat) (v : α)
    (h : ∀ k r, m k = some r → k < n) : ∀ k r, map_assign m n v k = some r → k < n + 1 := by
  intro k r hk
  by_cases hkn : k = n
  · subst hkn
    exact Nat.lt_succ_self _
  · simp only [map_assign, hkn, if_false] at hk
    exact Nat.lt_succ_of_lt (h k r hk)

/-- Keys below `n` stay below `n` after an assignment under a registered key. -/
theorem map_assign_below {α : Type} (m : Handle → Option α) (n x : Nat) (v w : α)
    (hx : m x = some w) (h : ∀ k r, m k = some r → k < n) :
    ∀ k r, map_assign m x v k = some r → k < n := by
  intro k r hk
  by_cases hkx : k = x
  · subst hkx
    exact h k w hx
  · simp only [map_assign, hkx, if_false] at hk
    exact h k r hk

/-- Keys below `n` stay below `n` after a removal. -/
theorem map_erase_below {α : Type} (m : Handle → Option α) (n x : Nat)
    (h : ∀ k r, m k = some r → k < n) : ∀ k r, map_erase m x k = some r → k < n := by
  intro k r hk
  by_cases hkx : k = x
  · simp [map_erase, hkx] at hk
  · simp only [map_erase, hkx, if_false] at hk
    exact h k r hk

/-- One call, started with a counter that does not wrap, keeps every registered
identity and handshake handle below the handle counter. -/
theorem run_handles_below_counter (ext : External) (s : AuthenticationBuiltInImpl)
    (ex : SecurityException) (c : Call) (hwrap : s.next_handle_ + 1 < 2 ^ 64)
    (hinv : (∀ k r, get_handshake_data s k = some r → k < s.next_handle_)
      ∧ (∀ k d, get_identity_data s k = some d → k < s.next_handle_)) :
    (∀ k r, get_handshake_data (c.run ext s ex) k = some r → k < (c.run ext s ex).next_handle_)
      ∧ (∀ k d, get_identity_data (c.run ext s ex) k = some d →
          k < (c.run ext s ex).next_handle_) := by
  obtain ⟨hH, hI⟩ := hinv
  have hmod : (s.next_handle_ + 1) % 2 ^ 64 = s.next_handle_ + 1 := Nat.mod_eq_of_lt hwrap
  have hup : (∀ k r, get_handshake_data s k = some r → k < s.next_handle_ + 1) :=
    fun k r hk => Nat.lt_succ_of_lt (hH k r hk)
  have hupI : (∀ k d, get_identity_data s k = some d → k < s.next_handle_ + 1) :=
    fun k d hk => Nat.lt_succ_of_lt (hI k d hk)
  cases c with
  | validate_local_identity lh adj dom qos cand =>
    simp only [Call.run, validate_local_identity, get_next_handle]
    split
    · split
      · simp only [hmod]
        exact ⟨hup, map_assign_below_succ _ _ _ hI⟩
      · exact ⟨hH, hI⟩
    · exact ⟨hH, hI⟩
  | get_identity_token tok h =>
    simp only [Call.run, get_identity_token]
    split <;> exact ⟨hH, hI⟩
  | get_identity_status_token tok h =>
    simp only [Call.run, get_identity_status_token]
    split <;> exact ⟨hH, hI⟩
  | set_permissions_credential_and_token h cred perm =>
    simp only [Call.run, set_permissions_credential_and_token]
    split
    · next d hd => exact ⟨hH, map_assign_below _ _ _ _ d hd hI⟩
    · exact ⟨hH, hI⟩
  | validate_remote_identity n rh lt rt lh tok g =>
    simp only [Call.run, validate_remote_identity, get_next_handle]
    split
    · split
      · split
        · simp only [hmod]
          exact ⟨hup, map_assign_below_succ _ _ _ hI⟩
        · exact ⟨hH, hI⟩
      · exact ⟨hH, hI⟩
    · exact ⟨hH, hI⟩
  | begin_handshake_request hh msg ini rep data =>
    simp only [Call.run, begin_handshake_request, get_next_handle]
    split
    · exact ⟨hH, hI⟩
    · split
      · exact ⟨hH, hI⟩
      · split
        · exact ⟨hH, hI⟩
        · simp only [hmod]
          exact ⟨map_assign_below_succ _ _ _ hH, hupI⟩
  | begin_handshake_reply hh msg ini rep data =>
    simp only [Call.run, begin_handshake_reply, get_next_handle]
    split
    · exact ⟨hH, hI⟩
    · split
      · exact ⟨hH, hI⟩
      · split
        · exact ⟨hH, hI⟩
        · simp only [hmod]
          exact ⟨map_assign_below_succ _ _ _ hH, hupI⟩
  | process_handshake out msg h =>
    simp only [Call.run, process_handshake, process_handshake_reply, process_final_handshake]
    split
    · split
      · exact ⟨hH, hI⟩
      · next r hr =>
        split
        · exact ⟨hH, hI⟩
        · split
          · exact ⟨hH, hI⟩
          · exact ⟨map_assign_below _ _ _ _ r hr hH, hI⟩
    · split
      · split
        · exact ⟨hH, hI⟩
        · next r hr =>
          split
          · exact ⟨hH, hI⟩
          · split
            · exact ⟨hH, hI⟩
            · exact ⟨map_assign_below _ _ _ _ r hr hH, hI⟩
      · exact ⟨hH, hI⟩
  | get_shared_secret h =>
    simp only [Call.run, get_shared_secret]
    split <;> exact ⟨hH, hI⟩
  | get_authenticated_peer_credential_token tok h =>
    simp only [Call.run, get_authenticated_peer_credential_token]
    split <;> exact ⟨hH, hI⟩
  | set_listener listener =>
    simp only [Call.run, set_listener]
    split <;> exact ⟨hH, hI⟩
  | return_nothing => exact ⟨hH, hI⟩
  | return_handshake_handle h =>
    simp only [Call.run, return_handshake_handle]
    split
    · exact ⟨map_erase_below _ _ _ hH, hI⟩
    · exact ⟨hH, hI⟩
  | return_identity_handle h =>
    simp only [Call.run, return_identity_handle]
    split
    · exact ⟨hH, map_erase_below _ _ _ hI⟩
    · exact ⟨hH, hI⟩

/-- In every state reached from a fresh plugin without counter wrap-around, every
registered identity and handshake handle lies below the handle counter. -/
theorem reachable_handles_below_counter (ext : External) (s : AuthenticationBuiltInImpl)
    (hs : Reachable ext s) :
    (∀ k r, get_handshake_data s k = some r → k < s.next_handle_)
      ∧ (∀ k d, get_identity_data s k = some d → k < s.next_handle_) := by
  induction hs with
  | fresh =>
    constructor <;> intro k r hk <;>
      simp [get_handshake_data, get_identity_data, AuthenticationBuiltInImpl.new] at hk
  | call s c ex _ hwrap ih => exact run_handles_below_counter ext s ex c hwrap ih

/-! ## Class-identifier codec: positions of the delimiters -/

/-- The search `find_last_of` gives `npos` exactly when the character does not occur. -/
theorem find_last_of_eq_none (s : Str) (c : Char) : find_last_of s c = none ↔ c ∉ s := by
  induction s with
  | nil => simp [find_last_of]
  | cons x xs ih =>
    unfold find_last_of
    cases h : find_last_of xs c with
    | some i =>
      have hmem : c ∈ xs := by
        by_contra hc
        rw [ih.2 hc] at h
        cases h
      simp [hmem]
    | none =>
      have hnot : c ∉ xs := ih.1 h
      by_cases hx : x = c
      · simp [hx]
      · have hx' : ¬ c = x := fun e => hx e.symm
        simp [hx, hx', hnot]

/-- The search `find_last_of` on a string split at the last occurrence of the character. -/
theorem find_last_of_append (pre post : Str) (c : Char) (hpost : c ∉ post) :
    find_last_of (pre ++ c :: post) c = some pre.length := by
  induction pre with
  | nil =>
    have h := (find_last_of_eq_none post c).2 hpost
    simp [find_last_of, h]
  | cons x xs ih =>
    simp only [List.cons_append, List.length_cons]
    unfold find_last_of
    rw [ih]

/-- A position given by `find_last_of` splits the string at the last occurrence of the
character. -/
theorem find_last_of_eq_some (s : Str) (c : Char) (i : Nat) (h : find_last_of s c = some i) :
    ∃ pre post, s = pre ++ c :: post ∧ c ∉ post ∧ pre.length = i := by
  induction s generalizing i with
  | nil => simp [find_last_of] at h
  | cons x xs ih =>
    unfold find_last_of at h
    cases hxs : find_last_of xs c with
    | some j =>
      rw [hxs] at h
      simp only [Option.some.injEq] at h
      obtain ⟨pre, post, hs, hpost, hlen⟩ := ih j hxs
      exact ⟨x :: pre, post, by rw [hs]; rfl, hpost, by simp [hlen, h]⟩
    | none =>
      rw [hxs] at h
      by_cases hx : x = c
      · simp only [hx, if_true, Option.some.injEq] at h
        exact ⟨[], xs, by simp [hx], (find_last_of_eq_none xs c).1 hxs, by simp [← h]⟩
      · simp [hx] at h

/-- The search `indexOf?` on a string split at the first occurrence of the character. -/
theorem indexOf?_append (pre post : Str) (c : Char) (hpre : c ∉ pre) :
    (pre ++ c :: post).indexOf? c = some pre.length := by
  induction pre with
  | nil => simp [List.indexOf?_cons]
  | cons x xs ih =>
    have hx : ¬ x = c := fun e => hpre (by simp [e])
    have hxs : c ∉ xs := fun e => hpre (by simp [e])
    simp [List.indexOf?_cons, hx, ih hxs]

/-- A position given by `indexOf?` splits the string at the first occurrence of the
character. -/
theorem indexOf?_eq_some (s : Str) (c : Char) (i : Nat) (h : s.indexOf? c = some i) :
    ∃ pre post, s = pre ++ c :: post ∧ c ∉ pre ∧ pre.length = i := by
  induction s generalizing i with
  | nil => simp at h
  | cons x xs ih =>
    rw [List.indexOf?_cons] at h
    by_cases hx : x = c
    · simp only [hx, beq_self_eq_true, if_true, Option.some.injEq] at h
      exact ⟨[], xs, by simp [hx], by simp, by simp [← h]⟩
    · have hx' : (x == c) = false := by simp [hx]
      simp only [hx', Bool.false_eq_true, if_false] at h
      cases hxs : xs.indexOf? c with
      | none => simp [hxs] at h
      | some j =>
        rw [hxs] at h
        simp only [Option.map_some', Option.some.injEq] at h
        obtain ⟨pre, post, hs, hpre, hlen⟩ := ih j hxs
        refine ⟨x :: pre, post, by rw [hs]; rfl, ?_, by simp [hlen, ← h]⟩
        intro hmem
        rcases List.mem_cons.1 hmem with e | e
        · exact hx e.symm
        · exact hpre e

/-- The search `indexOf?` gives nothing exactly when the character does not occur. -/
theorem indexOf?_eq_none (s : Str) (c : Char) : s.indexOf? c = none ↔ c ∉ s := by
  rw [List.indexOf?_eq_none_iff]
  constructor
  · intro h hmem
    exact absurd (by simp) (h c hmem)
  · intro h x hx e
    have : x = c := by simpa using e
    exact h (this ▸ hx)

/-- Dropping a prefix and one more character. -/
theorem drop_length_succ (pre post : Str) (c : Char) :
    (pre ++ c :: post).drop (pre.length + 1) = post := by
  induction pre with
  | nil => rfl
  | cons x xs ih => simp

/-- Taking exactly a prefix. -/
theorem take_length_append (pre post : Str) : (pre ++ post).take pre.length = pre := by
  induction pre with
  | nil => simp
  | cons x xs ih => simp

/-! ## Class-identifier codec: `get_extension` -/

/-- Without any '+' the extension is empty. -/
theorem get_extension_of_not_mem (s : Str) (h : '+' ∉ s) : get_extension s = [] := by
  simp [get_extension, (find_last_of_eq_none s '+').2 h]

/-- The extension of a string split at its last '+' is what follows that '+'. -/
theorem get_extension_append (pre post : Str) (hpost : '+' ∉ post) :
    get_extension (pre ++ '+' :: post) = post := by
  unfold get_extension
  rw [find_last_of_append pre post '+' hpost]
  simp only [drop_length_succ, List.length_append, List.length_cons]
  cases post with
  | nil => simp
  | cons y ys => simp

/-- The extension never contains '+'. -/
theorem get_extension_not_mem (s : Str) : '+' ∉ get_extension s := by
  cases h : find_last_of s '+' with
  | none =>
    rw [get_extension_of_not_mem s ((find_last_of_eq_none s '+').1 h)]
    simp
  | some i =>
    obtain ⟨pre, post, hs, hpost, -⟩ := find_last_of_eq_some s '+' i h
    rw [hs, get_extension_append pre post hpost]
    exact hpost

/-! ## Class-identifier codec: `check_class_versions` -/

/-- On a string split at its last colon and at the first period that follows, the
compatibility check compares the text before the colon with the plugin name and the
text between colon and period with the major version. -/
theorem check_class_versions_parse (name major rest : Str) (hmajor : ':' ∉ major)
    (hrest : ':' ∉ rest) (hperiod : '.' ∉ major) :
    check_class_versions (some (name ++ ':' :: (major ++ '.' :: rest))) = true
      ↔ name = Auth_Plugin_Name ∧ major = Auth_Plugin_Major_Version := by
  have hlast : ':' ∉ major ++ '.' :: rest := by
    simp only [List.mem_append, List.mem_cons, not_or]
    exact ⟨hmajor, by decide, hrest⟩
  have hfirst : find_first_of (name ++ ':' :: (major ++ '.' :: rest)) '.' (name.length + 1)
      = some (name.length + 1 + major.length) := by
    simp [find_first_of, drop_length_succ, indexOf?_append major rest '.' hperiod]
  unfold check_class_versions
  simp only [find_last_of_append name _ ':' hlast, hfirst, substr, List.drop_zero,
    take_length_append, drop_length_succ, Nat.add_sub_cancel_left]
  by_cases hname : name = []
  · subst hname
    simp [Auth_Plugin_Name]
  · have hpos : name.length > 0 := List.length_pos.2 hname
    by_cases hmaj : major = []
    · subst hmaj
      simp [hpos, Auth_Plugin_Major_Version]
    · have hmpos : major.length > 0 := List.length_pos.2 hmaj
      have hlt : name.length + 1 + major.length > name.length + 1 := by omega
      simp only [hpos, hlt, if_true]
      constructor
      · intro h
        by_cases h1 : Auth_Plugin_Name = name
        · by_cases h2 : Auth_Plugin_Major_Version = major
          · exact ⟨h1.symm, h2.symm⟩
          · simp [h1, h2] at h
        · simp [h1] at h
      · rintro ⟨h1, h2⟩
        simp [h1, h2]

/-- A class identifier that passes the compatibility check is the plugin name, a colon
that is its last colon, the major version, a period, and some remaining text. -/
theorem check_class_versions_shape (s : Str) (h : check_class_versions (some s) = true) :
    ∃ rest, s = Auth_Plugin_Name ++ ':' :: (Auth_Plugin_Major_Version ++ '.' :: rest)
      ∧ ':' ∉ rest := by
  unfold check_class_versions at h
  cases hc : find_last_of s ':' with
  | none => simp [hc] at h
  | some i =>
    obtain ⟨name, tail, hs, htail, hlen⟩ := find_last_of_eq_some s ':' i hc
    cases hp : find_first_of s '.' (i + 1) with
    | none =>
      simp only [hc, hp] at h
      split at h
      · split at h <;> simp at h
      · simp at h
    | some p =>
      unfold find_first_of at hp
      have hdrop : s.drop (i + 1) = tail := by rw [hs, ← hlen, drop_length_succ]
      rw [hdrop] at hp
      cases hidx : tail.indexOf? '.' with
      | none => simp [hidx] at hp
      | some j =>
        obtain ⟨major, rest, ht, hmaj, hmlen⟩ := indexOf?_eq_some tail '.' j hidx
        have hcolon : ':' ∉ major ∧ ':' ∉ rest := by
          rw [ht] at htail
          simp only [List.mem_append, List.mem_cons, not_or] at htail
          exact ⟨htail.1, htail.2.2⟩
        have hs' : s = name ++ ':' :: (major ++ '.' :: rest) := by rw [hs, ht]
        have hchk : check_class_versions (some s) = true := by
          unfold check_class_versions
          exact h
        rw [hs'] at hchk
        obtain ⟨h1, h2⟩ :=
          (check_class_versions_parse name major rest hcolon.1 hcolon.2 hmaj).1 hchk
        exact ⟨rest, by rw [hs', h1, h2], hcolon.2⟩

/-- Claim C14: class-identifier compatibility is decided by plugin name and major version
only. `check_class_versions s` is true if and only if `s` is a non-empty text, a colon
that is the last colon of `s`, a non-empty text without period, a period, and a
remainder, where the text before the colon is "DDS:Auth:PKI-DH" and the text between
colon and period is "1". Hence two strings that differ only after that period get the
same result. The null pointer is rejected. -/
theorem check_class_versions_name_and_major (s : Str) :
    (check_class_versions (some s) = true
        ↔ ∃ name major rest, s = name ++ ':' :: (major ++ '.' :: rest)
            ∧ name ≠ [] ∧ ':' ∉ major ∧ ':' ∉ rest ∧ '.' ∉ major ∧ major ≠ []
            ∧ name = "DDS:Auth:PKI-DH".toList ∧ major = "1".toList)
      ∧ (∀ name major rest₁ rest₂, ':' ∉ major → '.' ∉ major → ':' ∉ rest₁ → ':' ∉ rest₂ →
          check_class_versions (some (name ++ ':' :: (major ++ '.' :: rest₁)))
            = check_class_versions (some (name ++ ':' :: (major ++ '.' :: rest₂))))
      ∧ check_class_versions none = false := by
  refine ⟨⟨fun h => ?_, ?_⟩, ?_, rfl⟩
  · obtain ⟨rest, hs, hrest⟩ := check_class_versions_shape s h
    exact ⟨Auth_Plugin_Name, Auth_Plugin_Major_Version, rest, hs, by decide, by decide, hrest,
      by decide, by decide, rfl, rfl⟩
  · rintro ⟨name, major, rest, hs, -, hmajor, hrest, hperiod, -, hname, hmaj⟩
    rw [hs]
    exact (check_class_versions_parse name major rest hmajor hrest hperiod).2 ⟨hname, hmaj⟩
  · intro name major rest₁ rest₂ hmajor hperiod h1 h2
    have e1 := check_class_versions_parse name major rest₁ hmajor h1 hperiod
    have e2 := check_class_versions_parse name major rest₂ hmajor h2 hperiod
    cases hc : check_class_versions (some (name ++ ':' :: (major ++ '.' :: rest₂))) with
    | true => exact e1.2 (e2.1 hc)
    | false =>
      cases hc1 : check_class_versions (some (name ++ ':' :: (major ++ '.' :: rest₁))) with
      | true => rw [e2.2 (e1.1 hc1)] at hc; cases hc
      | false => rfl

/-- Witness for C14: minor version 0 with phase "Req" against minor version 7 with
phase "Final". -/
theorem check_class_versions_name_and_major_witness :
    check_class_versions (some "DDS:Auth:PKI-DH:1.0+Req".toList)
      = check_class_versions (some "DDS:Auth:PKI-DH:1.7+Final".toList) :=
  (check_class_versions_name_and_major []).2.1 "DDS:Auth:PKI-DH".toList "1".toList
    "0+Req".toList "7+Final".toList (by decide) (by decide) (by decide) (by decide)

/-- Claim C15 as stated fails: the class identifier built for the phase "a:b" does not
pass the compatibility check, because its last colon lies in the phase. -/
theorem check_class_versions_build_class_id_colon :
    check_class_versions (some (build_class_id "a:b".toList)) ≠ true := by
  decide

/-- Claim C15, amended: the class identifier built for a phase passes the compatibility
check exactly when the phase contains no colon; in particular it does so for every
phase without colon. -/
theorem check_class_versions_build_class_id (p : Str) :
    check_class_versions (some (build_class_id p)) = true ↔ ':' ∉ p := by
  have hbuild : build_class_id p
      = Auth_Plugin_Name ++ ':' :: (Auth_Plugin_Major_Version ++ '.' :: ('0' :: '+' :: p)) := by
    simp [build_class_id, Auth_Plugin_Name, Auth_Plugin_Major_Version,
      Auth_Plugin_Minor_Version]
  constructor
  · intro h
    obtain ⟨rest, hs, hrest⟩ := check_class_versions_shape _ h
    rw [hbuild] at hs
    have hrest' : '0' :: '+' :: p = rest := by
      have h1 := List.append_cancel_left hs
      simp only [List.cons.injEq, true_and] at h1
      have h2 := List.append_cancel_left h1
      simpa using h2
    rw [← hrest'] at hrest
    intro hp
    exact hrest (by simp [hp])
  · intro hp
    rw [hbuild]
    refine (check_class_versions_parse _ _ _ (by decide) ?_ (by decide)).2 ⟨rfl, rfl⟩
    simp only [List.mem_cons, not_or]
    exact ⟨by decide, by decide, hp⟩

/-- Witness for C15 amended: the phase "Reply". -/
theorem check_class_versions_build_class_id_witness :
    check_class_versions (some (build_class_id "Reply".toList)) = true :=
  (check_class_versions_build_class_id "Reply".toList).2 (by decide)

/-- The text handed over as a C string holds no NUL. -/
theorem c_str_no_nul (s : Str) : Char.ofNat 0 ∉ c_str s := by
  intro hmem
  have h := List.mem_takeWhile_imp hmem
  simp at h

/-- A text without NUL is handed over whole. -/
theorem c_str_of_no_nul (s : Str) (h : Char.ofNat 0 ∉ s) : c_str s = s := by
  unfold c_str
  rw [List.takeWhile_eq_self_iff]
  intro c hc
  have hne : c ≠ Char.ofNat 0 := fun e => h (e ▸ hc)
  simpa using hne

/-- The C string of a text that begins with a NUL-free part is that part followed by
the C string of the rest. -/
theorem c_str_append (pre post : Str) (h : Char.ofNat 0 ∉ pre) :
    c_str (pre ++ post) = pre ++ c_str post := by
  unfold c_str
  rw [List.takeWhile_append_of_pos]
  intro c hc
  have hne : c ≠ Char.ofNat 0 := fun e => h (e ▸ hc)
  simpa using hne

/-- Every character of the extension is a character of the class identifier. -/
theorem get_extension_subset (s : Str) (c : Char) (hc : c ∈ get_extension s) : c ∈ s := by
  unfold get_extension at hc
  split at hc
  · simp only [] at hc
    split at hc
    · exact List.mem_of_mem_drop hc
    · simp at hc
  · simp at hc

/-- Claim C16 as stated fails: for the phase "a+b" the extension of the built class
identifier is "b"; and for the phase made of 'a', a NUL and 'b', which contains no
'+', the built class identifier reaches `get_extension` as the C string
"DDS:Auth:PKI-DH:1.0+a" and the extension is "a". -/
theorem get_extension_build_class_id_plus :
    get_extension (c_str (build_class_id "a+b".toList)) = "b".toList
      ∧ get_extension (c_str (build_class_id "a+b".toList)) ≠ "a+b".toList
      ∧ '+' ∉ ['a', Char.ofNat 0, 'b']
      ∧ c_str (build_class_id ['a', Char.ofNat 0, 'b']) = "DDS:Auth:PKI-DH:1.0+a".toList
      ∧ get_extension (c_str (build_class_id ['a', Char.ofNat 0, 'b'])) = "a".toList
      ∧ get_extension (c_str (build_class_id ['a', Char.ofNat 0, 'b']))
        ≠ ['a', Char.ofNat 0, 'b'] := by
  decide

/-- Claim C16, amended: `build_class_id p` is "DDS:Auth:PKI-DH:1.0+" followed by `p`; it
reaches `get_extension` as a C string, "DDS:Auth:PKI-DH:1.0+" followed by `p` up to
its first NUL; and the extension is `p` again exactly when `p` contains neither '+'
nor NUL. For a phase without '+' the extension is the phase up to its first NUL. -/
theorem get_extension_build_class_id (p : Str) :
    build_class_id p = "DDS:Auth:PKI-DH:1.0+".toList ++ p
      ∧ c_str (build_class_id p) = "DDS:Auth:PKI-DH:1.0+".toList ++ c_str p
      ∧ (get_extension (c_str (build_class_id p)) = p ↔ ('+' ∉ p ∧ Char.ofNat 0 ∉ p))
      ∧ ('+' ∉ p → get_extension (c_str (build_class_id p)) = c_str p) := by
  have hbuild : build_class_id p = "DDS:Auth:PKI-DH:1.0".toList ++ '+' :: p := by
    simp [build_class_id, Auth_Plugin_Name, Auth_Plugin_Major_Version,
      Auth_Plugin_Minor_Version]
  have hbuild' : build_class_id p = "DDS:Auth:PKI-DH:1.0+".toList ++ p := by
    rw [hbuild]
    simp
  have hc : c_str (build_class_id p) = "DDS:Auth:PKI-DH:1.0".toList ++ '+' :: c_str p := by
    rw [hbuild', c_str_append _ p (by decide)]
    simp
  have hcut : '+' ∉ p → get_extension (c_str (build_class_id p)) = c_str p := by
    intro hp
    rw [hc]
    refine get_extension_append _ (c_str p) (fun hmem => hp ?_)
    exact (List.takeWhile_prefix _).subset hmem
  refine ⟨hbuild', by rw [hc]; simp, ⟨fun h => ⟨?_, ?_⟩, fun hp => ?_⟩, hcut⟩
  · have hnot := get_extension_not_mem (c_str (build_class_id p))
    rw [h] at hnot
    exact hnot
  · intro hmem
    rw [← h] at hmem
    exact c_str_no_nul _ (get_extension_subset _ _ hmem)
  · rw [hcut hp.1, c_str_of_no_nul p hp.2]

/-- Witness for C16 amended: the four protocol phases. -/
theorem get_extension_build_class_id_witness :
    get_extension (c_str (build_class_id "AuthReq".toList)) = "AuthReq".toList
      ∧ get_extension (c_str (build_class_id "Req".toList)) = "Req".toList
      ∧ get_extension (c_str (build_class_id "Reply".toList)) = "Reply".toList
      ∧ get_extension (c_str (build_class_id "Final".toList)) = "Final".toList :=
  ⟨(get_extension_build_class_id "AuthReq".toList).2.2.1.2 ⟨by decide, by decide⟩,
    (get_extension_build_class_id "Req".toList).2.2.1.2 ⟨by decide, by decide⟩,
    (get_extension_build_class_id "Reply".toList).2.2.1.2 ⟨by decide, by decide⟩,
    (get_extension_build_class_id "Final".toList).2.2.1.2 ⟨by decide, by decide⟩⟩

/-- Claim C17: `get_extension s` is the text of `s` after its last '+' (empty when that
'+' is the final character), it is empty when `s` contains no '+', and it never
contains '+'. -/
theorem get_extension_after_last_plus (s : Str) :
    (∀ pre post, s = pre ++ '+' :: post → '+' ∉ post → get_extension s = post)
      ∧ ('+' ∉ s → get_extension s = [])
      ∧ '+' ∉ get_extension s := by
  refine ⟨?_, get_extension_of_not_mem s, get_extension_not_mem s⟩
  intro pre post hs hpost
  rw [hs]
  exact get_extension_append pre post hpost

/-- Witness for C17: a class identifier with two '+', and one that ends in '+'. -/
theorem get_extension_after_last_plus_witness :
    get_extension "a+b+Reply".toList = "Reply".toList
      ∧ get_extension "DDS:Auth:PKI-DH:1.0+".toList = [] :=
  ⟨(get_extension_after_last_plus "a+b+Reply".toList).1 "a+b".toList "Reply".toList
      (by decide) (by decide),
    (get_extension_after_last_plus "DDS:Auth:PKI-DH:1.0+".toList).1
      "DDS:Auth:PKI-DH:1.0".toList [] (by decide) (by decide)⟩

/-! ## Remote identity validation -/

/-- The auth-request step fails exactly when the incoming token is nil and nonce
generation fails. -/
theorem auth_request_step_failed_iff (n : Int × OctetSeq) (lt rt : Token) :
    (auth_request_step n lt rt).1 = VALIDATION_FAILED
      ↔ TokenReader.is_nil rt = true ∧ n.1 ≠ 0 := by
  unfold auth_request_step
  by_cases hnil : TokenReader.is_nil rt = true
  · by_cases hn : n.1 = 0
    · simp [hnil, hn]
    · simp [hnil, hn]
  · simp [hnil]

/-- A token writer declared with one binary property and set at index 0 leaves exactly
that property. -/
theorem seq_length_one_set (d x : BinaryProperty_t) (l : List BinaryProperty_t) :
    (seq_length d l 1).set 0 x = [x] := by
  cases l with
  | nil => rfl
  | cons y ys => simp [seq_length]

/-- A sequence given the length 0 is empty. -/
theorem seq_length_zero {α : Type} (d : α) (l : List α) : seq_length d l 0 = [] := by
  simp [seq_length]

/-- The outgoing auth-request token made by a successful auth-request step. -/
theorem auth_request_step_token (n : Int × OctetSeq) (lt rt : Token)
    (hok : (auth_request_step n lt rt).1 = VALIDATION_OK) :
    (TokenReader.is_nil rt = true →
        (auth_request_step n lt rt).2
          = ⟨build_class_id Auth_Request_Class_Ext, [],
              [⟨"future_challenge".toList, n.2, true⟩]⟩)
      ∧ (TokenReader.is_nil rt = false → (auth_request_step n lt rt).2 = TokenNIL) := by
  unfold auth_request_step at hok ⊢
  by_cases hnil : TokenReader.is_nil rt = true
  · by_cases hn : n.1 = 0
    · simp [hnil, hn, TokenWriter, TokenWriter.set_bin_property, seq_length_one_set,
        seq_length_zero]
    · simp [hnil, hn] at hok
  · simp [hnil]

/-- Remote validation when one of its three failure causes is present:
VALIDATION_FAILED, and the plugin state and the handle parameter stay as they were. -/
theorem validate_remote_identity_rejects (n : Int × OctetSeq)
    (s : AuthenticationBuiltInImpl) (rh : Handle) (lt rt : Token) (lh : Handle)
    (tok : Token) (g : GUID_t) (ex : SecurityException)
    (hfail : get_identity_data s lh = none
      ∨ check_class_versions (some tok.class_id) = false
      ∨ (TokenReader.is_nil rt = true ∧ n.1 ≠ 0)) :
    (validate_remote_identity n s rh lt rt lh tok g ex).result = VALIDATION_FAILED
      ∧ (validate_remote_identity n s rh lt rt lh tok g ex).state = s
      ∧ (validate_remote_identity n s rh lt rt lh tok g ex).remote_identity_handle = rh := by
  unfold validate_remote_identity
  cases hloc : get_identity_data s lh with
  | none => simp
  | some d =>
    by_cases hclass : check_class_versions (some tok.class_id) = true
    · rcases hfail with h | h | h
      · rw [hloc] at h
        cases h
      · rw [hclass] at h
        cases h
      · have hstep := (auth_request_step_failed_iff n lt rt).2 h
        simp [hclass, hstep]
    · simp [hclass]

/-- The three failure causes of remote validation are either all absent or one is
present. -/
theorem validate_remote_identity_cases (n : Int × OctetSeq) (s : AuthenticationBuiltInImpl)
    (lt rt : Token) (lh : Handle) (tok : Token) :
    ((∃ d, get_identity_data s lh = some d)
        ∧ check_class_versions (some tok.class_id) = true
        ∧ (auth_request_step n lt rt).1 = VALIDATION_OK)
      ∨ (get_identity_data s lh = none
        ∨ check_class_versions (some tok.class_id) = false
        ∨ (TokenReader.is_nil rt = true ∧ n.1 ≠ 0)) := by
  cases hloc : get_identity_data s lh with
  | none => exact Or.inr (Or.inl rfl)
  | some d =>
    cases hclass : check_class_versions (some tok.class_id) with
    | false => exact Or.inr (Or.inr (Or.inl rfl))
    | true =>
      rcases auth_request_step_result n lt rt with hs | hs
      · exact Or.inl ⟨⟨d, rfl⟩, rfl, hs⟩
      · exact Or.inr (Or.inr (Or.inr ((auth_request_step_failed_iff n lt rt).1 hs)))

/-- Claim C11: `validate_remote_identity` returns VALIDATION_FAILED if and only if the
local identity handle does not resolve, or the class identifier of the remote
identity token is not compatible, or the incoming auth-request token is nil and nonce
generation fails; then the plugin state is unchanged (no record, no handle allocated)
and the handle parameter is not written. In every other case the result is
VALIDATION_PENDING_HANDSHAKE_REQUEST or VALIDATION_PENDING_HANDSHAKE_MESSAGE. Class
identifiers with plugin name "DDS:Auth:Other" or major version "2" are not
compatible. -/
theorem validate_remote_identity_fails_iff (n : Int × OctetSeq)
    (s : AuthenticationBuiltInImpl) (rh : Handle) (lt rt : Token) (lh : Handle)
    (tok : Token) (g : GUID_t) (ex : SecurityException) :
    ((validate_remote_identity n s rh lt rt lh tok g ex).result = VALIDATION_FAILED
        ↔ (get_identity_data s lh = none
          ∨ check_class_versions (some tok.class_id) = false
          ∨ (TokenReader.is_nil rt = true ∧ n.1 ≠ 0)))
      ∧ ((validate_remote_identity n s rh lt rt lh tok g ex).result = VALIDATION_FAILED →
          (validate_remote_identity n s rh lt rt lh tok g ex).state = s
            ∧ (validate_remote_identity n s rh lt rt lh tok g ex).remote_identity_handle
              = rh)
      ∧ ((validate_remote_identity n s rh lt rt lh tok g ex).result ≠ VALIDATION_FAILED →
          (validate_remote_identity n s rh lt rt lh tok g ex).result
              = VALIDATION_PENDING_HANDSHAKE_REQUEST
            ∨ (validate_remote_identity n s rh lt rt lh tok g ex).result
              = VALIDATION_PENDING_HANDSHAKE_MESSAGE)
      ∧ check_class_versions (some "DDS:Auth:Other:1.0".toList) = false
      ∧ check_class_versions (some "DDS:Auth:PKI-DH:2.0".toList) = false := by
  have hiff : (validate_remote_identity n s rh lt rt lh tok g ex).result = VALIDATION_FAILED
      ↔ (get_identity_data s lh = none
        ∨ check_class_versions (some tok.class_id) = false
        ∨ (TokenReader.is_nil rt = true ∧ n.1 ≠ 0)) := by
    constructor
    · intro hres
      rcases validate_remote_identity_cases n s lt rt lh tok with ⟨⟨d, hd⟩, hc, hs⟩ | hfail
      · rw [validate_remote_identity_accepts n s rh lt rt lh tok g ex d hd hc hs] at hres
        simp only [] at hres
        split at hres <;> cases hres
      · exact hfail
    · exact fun hfail => (validate_remote_identity_rejects n s rh lt rt lh tok g ex hfail).1
  refine ⟨hiff, fun hres => ?_, fun hres => ?_, by decide, by decide⟩
  · exact (validate_remote_identity_rejects n s rh lt rt lh tok g ex (hiff.1 hres)).2
  · rcases validate_remote_identity_cases n s lt rt lh tok with ⟨⟨d, hd⟩, hc, hs⟩ | hfail
    · rw [validate_remote_identity_accepts n s rh lt rt lh tok g ex d hd hc hs]
      simp only []
      split
      · exact Or.inl rfl
      · exact Or.inr rfl
    · exact absurd (hiff.2 hfail) hres

/-- Witness for C11: a remote identity token of plugin "DDS:Auth:Other" is refused and
the plugin stays as it was. -/
theorem validate_remote_identity_fails_iff_witness :
    (validate_remote_identity (0, []) (plugin_with_local guid_01) 0 TokenNIL TokenNIL 1
        ⟨"DDS:Auth:Other:1.0".toList, [], []⟩ guid_02 ex_clear).result = VALIDATION_FAILED
      ∧ (validate_remote_identity (0, []) (plugin_with_local guid_01) 0 TokenNIL TokenNIL 1
          ⟨"DDS:Auth:Other:1.0".toList, [], []⟩ guid_02 ex_clear).state
        = plugin_with_local guid_01
      ∧ (validate_remote_identity (0, []) (plugin_with_local guid_01) 0 TokenNIL TokenNIL 1
          ⟨"DDS:Auth:Other:1.0".toList, [], []⟩ guid_02 ex_clear).remote_identity_handle
        = 0 :=
  ⟨by decide,
    (validate_remote_identity_fails_iff (0, []) (plugin_with_local guid_01) 0 TokenNIL
      TokenNIL 1 ⟨"DDS:Auth:Other:1.0".toList, [], []⟩ guid_02 ex_clear).2.1 (by decide)⟩

/-- Claim C12: in a plugin state whose registered identity handles all lie below the
handle counter (as they do in every state reached without counter wrap-around), a
`validate_remote_identity` call that does not fail registers one new identity record
under the handle it allocates, which was not registered before, and leaves the record
under every other handle and the handshake registry as they were. The new record
carries the remote identifier, the supplied local handle as back-reference, the
outgoing auth-request token returned by this call and the incoming auth-request token
as supplied. The result is VALIDATION_PENDING_HANDSHAKE_REQUEST when
`is_handshake_initiator` holds of the local record's identifier and the remote
identifier, and VALIDATION_PENDING_HANDSHAKE_MESSAGE otherwise. -/
theorem validate_remote_identity_registers_record (n : Int × OctetSeq)
    (s : AuthenticationBuiltInImpl) (rh : Handle) (lt rt : Token) (lh : Handle)
    (tok : Token) (g : GUID_t) (ex : SecurityException) (d : IdentityData)
    (hinv : ∀ k x, get_identity_data s k = some x → k < s.next_handle_)
    (hloc : get_identity_data s lh = some d)
    (hok : (validate_remote_identity n s rh lt rt lh tok g ex).result ≠ VALIDATION_FAILED) :
    (validate_remote_identity n s rh lt rt lh tok g ex).remote_identity_handle
        = (get_next_handle s).1
      ∧ get_identity_data s
          (validate_remote_identity n s rh lt rt lh tok g ex).remote_identity_handle = none
      ∧ get_identity_data (validate_remote_identity n s rh lt rt lh tok g ex).state
          (validate_remote_identity n s rh lt rt lh tok g ex).remote_identity_handle
        = some
          { participant_guid := g
            local_handle := lh
            local_auth_request :=
              (validate_remote_identity n s rh lt rt lh tok g ex).local_auth_request_token
            remote_auth_request := rt
            permissions_cred_token := TokenNIL
            permissions_token := TokenNIL }
      ∧ (∀ k, k ≠ (validate_remote_identity n s rh lt rt lh tok g ex).remote_identity_handle →
          get_identity_data (validate_remote_identity n s rh lt rt lh tok g ex).state k
            = get_identity_data s k)
      ∧ (∀ k, get_handshake_data (validate_remote_identity n s rh lt rt lh tok g ex).state k
            = get_handshake_data s k)
      ∧ (validate_remote_identity n s rh lt rt lh tok g ex).result
        = (if is_handshake_initiator d.participant_guid g
          then VALIDATION_PENDING_HANDSHAKE_REQUEST
          else VALIDATION_PENDING_HANDSHAKE_MESSAGE) := by
  have hfresh : get_identity_data s s.next_handle_ = none := by
    cases hk : get_identity_data s s.next_handle_ with
    | none => rfl
    | some x => exact absurd (hinv _ x hk) (lt_irrefl _)
  rcases validate_remote_identity_cases n s lt rt lh tok with ⟨⟨d', hd'⟩, hc, hs⟩ | hfail
  · rw [hloc] at hd'
    cases hd'
    rw [validate_remote_identity_accepts n s rh lt rt lh tok g ex d hloc hc hs]
    refine ⟨rfl, hfresh, ?_, ?_, fun k => rfl, rfl⟩
    · simp [get_identity_data, map_assign, IdentityData.make_rch]
    · intro k hk
      simp only [get_identity_data, map_assign] at hk ⊢
      simp [hk]
  · exact absurd (validate_remote_identity_rejects n s rh lt rt lh tok g ex hfail).1 hok

/-- Witness for C12: the plugin holding the local identifier 01 00 .. 00 under handle 1
validates the remote identifier 02 00 .. 00 and registers it under handle 2. -/
theorem validate_remote_identity_registers_record_witness :
    (validate_remote_identity (0, [7]) (plugin_with_local guid_01) 0 TokenNIL TokenNIL 1
        identity_token_pki guid_02 ex_clear).remote_identity_handle = 2
      ∧ (validate_remote_identity (0, [7]) (plugin_with_local guid_01) 0 TokenNIL TokenNIL 1
          identity_token_pki guid_02 ex_clear).result
        = VALIDATION_PENDING_HANDSHAKE_REQUEST :=
  have hinv : ∀ k x, get_identity_data (plugin_with_local guid_01) k = some x →
      k < (plugin_with_local guid_01).next_handle_ := by
    intro k x hk
    by_cases h1 : k = 1
    · subst h1
      decide
    · simp [get_identity_data, plugin_with_local, h1] at hk
  have hthm := validate_remote_identity_registers_record (0, [7]) (plugin_with_local guid_01)
    0 TokenNIL TokenNIL 1 identity_token_pki guid_02 ex_clear
    { IdentityData.make_rch with participant_guid := guid_01 } hinv (by decide) (by decide)
  ⟨hthm.1, hthm.2.2.2.2.2.trans (by decide)⟩

/-- Claim C13: in a `validate_remote_identity` call that does not fail, when the incoming
auth-request token is nil the outgoing auth-request token has the class identifier
"DDS:Auth:PKI-DH:1.0+AuthReq", no string property and exactly one binary property,
named "future_challenge", whose value is the nonce generated on this call; when the
incoming token is not nil the outgoing token is the nil token. -/
theorem validate_remote_identity_auth_request (n : Int × OctetSeq)
    (s : AuthenticationBuiltInImpl) (rh : Handle) (lt rt : Token) (lh : Handle)
    (tok : Token) (g : GUID_t) (ex : SecurityException)
    (hok : (validate_remote_identity n s rh lt rt lh tok g ex).result ≠ VALIDATION_FAILED) :
    (TokenReader.is_nil rt = true →
        (validate_remote_identity n s rh lt rt lh tok g ex).local_auth_request_token
          = ⟨"DDS:Auth:PKI-DH:1.0+AuthReq".toList, [],
              [⟨"future_challenge".toList, n.2, true⟩]⟩)
      ∧ (TokenReader.is_nil rt = false →
        (validate_remote_identity n s rh lt rt lh tok g ex).local_auth_request_token
          = TokenNIL) := by
  rcases validate_remote_identity_cases n s lt rt lh tok with ⟨⟨d, hd⟩, hc, hs⟩ | hfail
  · rw [validate_remote_identity_accepts n s rh lt rt lh tok g ex d hd hc hs]
    exact auth_request_step_token n lt rt hs
  · exact absurd (validate_remote_identity_rejects n s rh lt rt lh tok g ex hfail).1 hok

/-- Witness for C13: a nil incoming token with the generated nonce `[7]`, the outgoing
parameter holding an older token before the call. -/
theorem validate_remote_identity_auth_request_witness :
    (validate_remote_identity (0, [7]) (plugin_with_local guid_01) 0
        ⟨"old".toList, [⟨"p".toList, "v".toList, true⟩],
          [⟨"a".toList, [1], true⟩, ⟨"b".toList, [2], true⟩]⟩
        TokenNIL 1 identity_token_pki guid_02 ex_clear).local_auth_request_token
      = ⟨"DDS:Auth:PKI-DH:1.0+AuthReq".toList, [],
          [⟨"future_challenge".toList, [7], true⟩]⟩ :=
  (validate_remote_identity_auth_request (0, [7]) (plugin_with_local guid_01) 0
    ⟨"old".toList, [⟨"p".toList, "v".toList, true⟩],
      [⟨"a".toList, [1], true⟩, ⟨"b".toList, [2], true⟩]⟩
    TokenNIL 1 identity_token_pki guid_02 ex_clear (by decide)).1 (by decide)

/-! ## Handle allocator -/

/-- The counter after `k` calls of `get_next_handle` on a fresh plugin. -/
theorem get_next_handle_iterate (k : Nat) :
    (Nat.iterate (fun s => (get_next_handle s).2) k AuthenticationBuiltInImpl.new).next_handle_
      = (k + 1) % 2 ^ 64 := by
  induction k with
  | zero => rfl
  | succ k ih =>
    rw [Function.iterate_succ_apply']
    show ((Nat.iterate (fun s => (get_next_handle s).2) k
      AuthenticationBuiltInImpl.new).next_handle_ + 1) % 2 ^ 64 = (k + 1 + 1) % 2 ^ 64
    rw [ih]
    omega

/-- Claim C18: a fresh plugin has counter value 1; a `get_next_handle` call returns the
current counter value `c` and leaves the counter at `(c + 1) mod 2^64`; so the `k`-th
call on a fresh plugin, the one made after `k - 1` earlier calls, returns `k`, for
every `k` from 1 up to `2^64 - 1`. -/
theorem get_next_handle_counts :
    AuthenticationBuiltInImpl.new.next_handle_ = 1
      ∧ (∀ s : AuthenticationBuiltInImpl,
          (get_next_handle s).1 = s.next_handle_
            ∧ (get_next_handle s).2.next_handle_ = (s.next_handle_ + 1) % 2 ^ 64)
      ∧ ∀ k, 1 ≤ k → k < 2 ^ 64 →
          (get_next_handle
            (Nat.iterate (fun s => (get_next_handle s).2) (k - 1)
              AuthenticationBuiltInImpl.new)).1 = k := by
  refine ⟨rfl, fun s => ⟨rfl, rfl⟩, fun k h1 hk => ?_⟩
  show (Nat.iterate (fun s => (get_next_handle s).2) (k - 1)
    AuthenticationBuiltInImpl.new).next_handle_ = k
  rw [get_next_handle_iterate, Nat.sub_add_cancel h1]
  exact Nat.mod_eq_of_lt hk

/-- Witness for C18: the third call on a fresh plugin returns 3. -/
theorem get_next_handle_counts_witness :
    (get_next_handle
      (Nat.iterate (fun s => (get_next_handle s).2) (3 - 1)
        AuthenticationBuiltInImpl.new)).1 = 3 :=
  get_next_handle_counts.2.2 3 (by decide) (by norm_num)

/-! ## Handles returned by a sequence of calls -/

/-- A call either returns no handle and leaves the counter, or returns the counter value
and advances the counter. -/
theorem returned_handle_cases (ext : External) (s : AuthenticationBuiltInImpl)
    (ex : SecurityException) (c : Call) :
    (c.returned_handle ext s ex = none ∧ (c.run ext s ex).next_handle_ = s.next_handle_)
      ∨ (c.returned_handle ext s ex = some s.next_handle_
        ∧ (c.run ext s ex).next_handle_ = (s.next_handle_ + 1) % 2 ^ 64) := by
  cases c with
  | validate_local_identity lh adj dom qos cand =>
    simp only [Call.returned_handle, Call.run, validate_local_identity, get_next_handle]
    split
    · split
      · exact Or.inr ⟨by simp, rfl⟩
      · exact Or.inl ⟨by simp, rfl⟩
    · exact Or.inl ⟨by simp, rfl⟩
  | validate_remote_identity n rh lt rt lh tok g =>
    simp only [Call.returned_handle, Call.run]
    rcases validate_remote_identity_cases n s lt rt lh tok with ⟨⟨d, hd⟩, hc, hs⟩ | hfail
    · rw [validate_remote_identity_accepts n s rh lt rt lh tok g ex d hd hc hs]
      refine Or.inr ⟨?_, rfl⟩
      simp only []
      split <;> simp
    · obtain ⟨h1, h2, -⟩ := validate_remote_identity_rejects n s rh lt rt lh tok g ex hfail
      exact Or.inl ⟨by simp [h1], by rw [h2]⟩
  | begin_handshake_request hh msg ini rep data =>
    simp only [Call.returned_handle, Call.run]
    rcases begin_handshake_precondition_cases s rep ini data with ⟨hdata, d, hd, hp⟩ | hpre
    · rw [begin_handshake_request_accepts s hh msg ini rep data ex d hdata hd hp]
      exact Or.inr ⟨by simp, rfl⟩
    · obtain ⟨h1, h2, -⟩ := begin_handshake_request_rejects s hh msg ini rep data ex hpre
      exact Or.inl ⟨by simp [h1], by rw [h2]⟩
  | begin_handshake_reply hh msg ini rep data =>
    simp only [Call.returned_handle, Call.run]
    rcases begin_handshake_precondition_cases s ini rep data with ⟨hdata, d, hd, hp⟩ | hpre
    · rw [begin_handshake_reply_accepts s hh msg ini rep data ex d hdata hd hp]
      exact Or.inr ⟨by simp, rfl⟩
    · obtain ⟨h1, h2, -⟩ := begin_handshake_reply_rejects s hh msg ini rep data ex hpre
      exact Or.inl ⟨by simp [h1], by rw [h2]⟩
  | get_identity_token tok h =>
    refine Or.inl ⟨rfl, ?_⟩
    simp only [Call.run, get_identity_token]
    split <;> rfl
  | get_identity_status_token tok h =>
    refine Or.inl ⟨rfl, ?_⟩
    simp only [Call.run, get_identity_status_token]
    split <;> rfl
  | set_permissions_credential_and_token h cred perm =>
    refine Or.inl ⟨rfl, ?_⟩
    simp only [Call.run, set_permissions_credential_and_token]
    split <;> rfl
  | process_handshake out msg h =>
    refine Or.inl ⟨rfl, ?_⟩
    simp only [Call.run, process_handshake, process_handshake_reply, process_final_handshake]
    repeat' split
    all_goals rfl
  | get_shared_secret h =>
    refine Or.inl ⟨rfl, ?_⟩
    simp only [Call.run, get_shared_secret]
    split <;> rfl
  | get_authenticated_peer_credential_token tok h =>
    refine Or.inl ⟨rfl, ?_⟩
    simp only [Call.run, get_authenticated_peer_credential_token]
    split <;> rfl
  | set_listener listener =>
    refine Or.inl ⟨rfl, ?_⟩
    simp only [Call.run, set_listener]
    split <;> rfl
  | return_nothing => exact Or.inl ⟨rfl, rfl⟩
  | return_handshake_handle h =>
    refine Or.inl ⟨rfl, ?_⟩
    simp only [Call.run, return_handshake_handle]
    split <;> rfl
  | return_identity_handle h =>
    refine Or.inl ⟨rfl, ?_⟩
    simp only [Call.run, return_identity_handle]
    split <;> rfl

/-- As long as the counter does not pass `2^64`, the handles returned by a sequence of
calls are the consecutive numbers from the counter value on. -/
theorem run_handles_eq_range (ext : External) (calls : List (Call × SecurityException))
    (s : AuthenticationBuiltInImpl)
    (hfit : s.next_handle_ + (run_handles ext s calls).length ≤ 2 ^ 64) :
    run_handles ext s calls = List.range' s.next_handle_ (run_handles ext s calls).length := by
  induction calls generalizing s with
  | nil => rfl
  | cons ce rest ih =>
    obtain ⟨c, ex⟩ := ce
    rcases returned_handle_cases ext s ex c with ⟨hnone, hnext⟩ | ⟨hsome, hnext⟩
    · have hrun : run_handles ext s ((c, ex) :: rest)
          = run_handles ext (c.run ext s ex) rest := by
        simp only [run_handles, hnone]
      rw [hrun] at hfit ⊢
      rw [← hnext] at hfit ⊢
      exact ih _ hfit
    · have hrun : run_handles ext s ((c, ex) :: rest)
          = s.next_handle_ :: run_handles ext (c.run ext s ex) rest := by
        simp only [run_handles, hsome]
      rw [hrun] at hfit ⊢
      simp only [List.length_cons] at hfit ⊢
      rw [List.range'_succ]
      congr 1
      cases hlen : (run_handles ext (c.run ext s ex) rest).length with
      | zero => simpa using hlen
      | succ m =>
        rw [hlen] at hfit
        have hmod : (c.run ext s ex).next_handle_ = s.next_handle_ + 1 := by
          rw [hnext]
          exact Nat.mod_eq_of_lt (by omega)
        have h := ih (c.run ext s ex) (by rw [hmod, hlen]; omega)
        rw [hmod, hlen] at h
        exact h

/-- Claim C19: in a sequence of public operations made one after the other on a fresh
plugin, with fewer than 2^64 - 1 handles returned, the handles returned by the
`validate_local_identity`, `validate_remote_identity`, `begin_handshake_request` and
`begin_handshake_reply` calls that do not fail are strictly increasing in call order,
hence pairwise distinct, whatever the mix of identity and handshake handles: they are
the numbers 1, 2, 3, ... in call order. -/
theorem returned_handles_increasing (ext : External)
    (calls : List (Call × SecurityException))
    (hfew : (run_handles ext AuthenticationBuiltInImpl.new calls).length < 2 ^ 64 - 1) :
    List.Pairwise (fun a b => a < b) (run_handles ext AuthenticationBuiltInImpl.new calls)
      ∧ (run_handles ext AuthenticationBuiltInImpl.new calls).Nodup
      ∧ run_handles ext AuthenticationBuiltInImpl.new calls
        = List.range' 1 (run_handles ext AuthenticationBuiltInImpl.new calls).length := by
  have hrange := run_handles_eq_range ext calls AuthenticationBuiltInImpl.new
    (by
      show 1 + (run_handles ext AuthenticationBuiltInImpl.new calls).length ≤ 2 ^ 64
      omega)
  have hone : AuthenticationBuiltInImpl.new.next_handle_ = 1 := rfl
  rw [hone] at hrange
  refine ⟨?_, ?_, hrange⟩
  · rw [hrange]
    exact List.pairwise_lt_range' 1 _
  · rw [hrange]
    exact List.nodup_range' 1 _

/-- Witness for C19: identity and handshake handles mixed with calls that return no
handle; the four handles returned are 1, 2, 3, 4. -/
theorem returned_handles_increasing_witness :
    (run_handles (ext_ok guid_01) AuthenticationBuiltInImpl.new demo_calls).length
        < 2 ^ 64 - 1
      ∧ run_handles (ext_ok guid_01) AuthenticationBuiltInImpl.new demo_calls = [1, 2, 3, 4]
      ∧ List.Pairwise (fun a b => a < b)
          (run_handles (ext_ok guid_01) AuthenticationBuiltInImpl.new demo_calls) :=
  have hlen : (run_handles (ext_ok guid_01) AuthenticationBuiltInImpl.new demo_calls).length
      < 2 ^ 64 - 1 := by
    have h4 : (run_handles (ext_ok guid_01) AuthenticationBuiltInImpl.new demo_calls).length
        = 4 := by decide
    rw [h4]
    norm_num
  ⟨hlen, by decide,
    (returned_handles_increasing (ext_ok guid_01) demo_calls hlen).1⟩

/-! ## Shared secret retrieval -/

/-- The operation `get_shared_secret` on a registered handle gives whatever secret
handle the record holds and does not touch the error-detail record; on an unknown
handle it gives nil and sets the error. -/
theorem get_shared_secret_cases (s : AuthenticationBuiltInImpl) (h : Handle)
    (ex : SecurityException) :
    (∀ r, get_handshake_data s h = some r →
        (get_shared_secret s h ex).result = r.secret_handle
          ∧ (get_shared_secret s h ex).ex = ex)
      ∧ (get_handshake_data s h = none →
        (get_shared_secret s h ex).result = none
          ∧ (get_shared_secret s h ex).ex
            = ⟨-1, 0, "Unknown handshake handle".toList⟩) := by
  constructor
  · intro r hr
    simp [get_shared_secret, hr]
  · intro hr
    simp [get_shared_secret, hr, set_security_error]

/-- Claim C20: at the handshake request of the scenario (participant A, handshake
handle 3) the record is registered, so the handle is valid, in
VALIDATION_PENDING_HANDSHAKE_MESSAGE without secret. `get_shared_secret` on it returns
nil, and the error-detail record is left as the caller passed it: it does not hold
the "Unknown handshake handle" message, which the same call sets for the unknown
handle 77. -/
theorem get_shared_secret_pending_leaves_error :
    scenario_a3.handshake_handle = 3
      ∧ get_handshake_data scenario_a3.state 3
        = some ⟨1, 2, true, VALIDATION_PENDING_HANDSHAKE_MESSAGE, none⟩
      ∧ (get_shared_secret scenario_a3.state 3 ex_clear).result = none
      ∧ (get_shared_secret scenario_a3.state 3 ex_clear).ex = ex_clear
      ∧ (get_shared_secret scenario_a3.state 3 ex_clear).ex.message
        ≠ "Unknown handshake handle".toList
      ∧ get_handshake_data scenario_a3.state 77 = none
      ∧ (get_shared_secret scenario_a3.state 77 ex_clear).result = none
      ∧ (get_shared_secret scenario_a3.state 77 ex_clear).ex
        = ⟨-1, 0, "Unknown handshake handle".toList⟩ := by
  decide

/-! ## Releasing handles -/

/-- The operation `return_handshake_handle` on a registered handle. -/
theorem return_handshake_handle_accepts (s : AuthenticationBuiltInImpl) (h : Handle)
    (ex : SecurityException) (r : HandshakeData) (hreg : get_handshake_data s h = some r) :
    return_handshake_handle s h ex =
      { result := true
        state := { s with handshake_data_ := map_erase s.handshake_data_ h }
        ex := ex } := by
  have hreg' : s.handshake_data_ h = some r := hreg
  simp [return_handshake_handle, hreg']

/-- The operation `return_handshake_handle` on an unknown handle. -/
theorem return_handshake_handle_rejects (s : AuthenticationBuiltInImpl) (h : Handle)
    (ex : SecurityException) (hreg : get_handshake_data s h = none) :
    return_handshake_handle s h ex =
      { result := false, state := s
        ex := ⟨-1, 0, "Handshake handle not recognized".toList⟩ } := by
  have hreg' : s.handshake_data_ h = none := hreg
  simp [return_handshake_handle, hreg', set_security_error]

/-- The operation `return_identity_handle` on a registered handle. -/
theorem return_identity_handle_accepts (s : AuthenticationBuiltInImpl) (h : Handle)
    (ex : SecurityException) (d : IdentityData) (hreg : get_identity_data s h = some d) :
    return_identity_handle s h ex =
      { result := true
        state := { s with identity_data_ := map_erase s.identity_data_ h }
        ex := ex } := by
  have hreg' : s.identity_data_ h = some d := hreg
  simp [return_identity_handle, hreg']

/-- The operation `return_identity_handle` on an unknown handle. -/
theorem return_identity_handle_rejects (s : AuthenticationBuiltInImpl) (h : Handle)
    (ex : SecurityException) (hreg : get_identity_data s h = none) :
    return_identity_handle s h ex =
      { result := false, state := s
        ex := ⟨-1, 0, "Handshake handle not recognized".toList⟩ } := by
  have hreg' : s.identity_data_ h = none := hreg
  simp [return_identity_handle, hreg', set_security_error]

/-- Claim C21: `return_handshake_handle h` (resp. `return_identity_handle h`) returns true
exactly when `h` is registered in the handshake (resp. identity) registry. On success
the entry of `h` is gone from that registry, every other entry of it, the whole other
registry and the handle counter are unchanged; on failure the plugin state is
unchanged and the error-detail record is set (code -1, minor code 0, a non-empty
message). In particular `return_identity_handle` leaves every handshake record as it
is, also those that reference the released identity. -/
theorem return_handle_removes_entry (s : AuthenticationBuiltInImpl) (h : Handle)
    (ex : SecurityException) :
    ((return_handshake_handle s h ex).result = true ↔ ∃ r, get_handshake_data s h = some r)
      ∧ ((return_handshake_handle s h ex).result = true →
          get_handshake_data (return_handshake_handle s h ex).state h = none
            ∧ (∀ k, k ≠ h → get_handshake_data (return_handshake_handle s h ex).state k
                = get_handshake_data s k)
            ∧ (∀ k, get_identity_data (return_handshake_handle s h ex).state k
                = get_identity_data s k)
            ∧ (return_handshake_handle s h ex).state.next_handle_ = s.next_handle_)
      ∧ ((return_handshake_handle s h ex).result = false →
          (return_handshake_handle s h ex).state = s
            ∧ (return_handshake_handle s h ex).ex.populated)
      ∧ ((return_identity_handle s h ex).result = true ↔ ∃ d, get_identity_data s h = some d)
      ∧ ((return_identity_handle s h ex).result = true →
          get_identity_data (return_identity_handle s h ex).state h = none
            ∧ (∀ k, k ≠ h → get_identity_data (return_identity_handle s h ex).state k
                = get_identity_data s k)
            ∧ (∀ k, get_handshake_data (return_identity_handle s h ex).state k
                = get_handshake_data s k)
            ∧ (return_identity_handle s h ex).state.next_handle_ = s.next_handle_)
      ∧ ((return_identity_handle s h ex).result = false →
          (return_identity_handle s h ex).state = s
            ∧ (return_identity_handle s h ex).ex.populated) := by
  have hpop : SecurityException.populated ⟨-1, 0, "Handshake handle not recognized".toList⟩ :=
    ⟨rfl, rfl, by decide⟩
  refine ⟨?_, ?_, ?_, ?_, ?_, ?_⟩
  · cases hreg : get_handshake_data s h with
    | none => simp [return_handshake_handle_rejects s h ex hreg]
    | some r => simp [return_handshake_handle_accepts s h ex r hreg]
  · cases hreg : get_handshake_data s h with
    | none => simp [return_handshake_handle_rejects s h ex hreg]
    | some r =>
      rw [return_handshake_handle_accepts s h ex r hreg]
      intro _
      refine ⟨by simp [get_handshake_data, map_erase], fun k hk => ?_, fun k => rfl, rfl⟩
      simp [get_handshake_data, map_erase, hk]
  · cases hreg : get_handshake_data s h with
    | none =>
      rw [return_handshake_handle_rejects s h ex hreg]
      exact fun _ => ⟨rfl, hpop⟩
    | some r => simp [return_handshake_handle_accepts s h ex r hreg]
  · cases hreg : get_identity_data s h with
    | none => simp [return_identity_handle_rejects s h ex hreg]
    | some d => simp [return_identity_handle_accepts s h ex d hreg]
  · cases hreg : get_identity_data s h with
    | none => simp [return_identity_handle_rejects s h ex hreg]
    | some d =>
      rw [return_identity_handle_accepts s h ex d hreg]
      intro _
      refine ⟨by simp [get_identity_data, map_erase], fun k hk => ?_, fun k => rfl, rfl⟩
      simp [get_identity_data, map_erase, hk]
  · cases hreg : get_identity_data s h with
    | none =>
      rw [return_identity_handle_rejects s h ex hreg]
      exact fun _ => ⟨rfl, hpop⟩
    | some d => simp [return_identity_handle_accepts s h ex d hreg]

/-- Witness for C21: releasing the remote identity 2 while the handshake 3 references it
leaves the handshake record in place. -/
theorem return_handle_removes_entry_witness :
    (return_identity_handle (plugin_with_handshake VALIDATION_PENDING_HANDSHAKE_MESSAGE none)
        2 ex_clear).result = true
      ∧ get_identity_data
          (return_identity_handle
            (plugin_with_handshake VALIDATION_PENDING_HANDSHAKE_MESSAGE none) 2 ex_clear).state
          2 = none
      ∧ get_handshake_data
          (return_identity_handle
            (plugin_with_handshake VALIDATION_PENDING_HANDSHAKE_MESSAGE none) 2 ex_clear).state
          3 = some ⟨1, 2, true, VALIDATION_PENDING_HANDSHAKE_MESSAGE, none⟩ :=
  have hthm := (return_handle_removes_entry
    (plugin_with_handshake VALIDATION_PENDING_HANDSHAKE_MESSAGE none) 2 ex_clear).2.2.2.2.1
    (by decide)
  ⟨by decide, hthm.1, (hthm.2.2.1 3).trans (by decide)⟩

/-! ## Failure and the plugin state, success and the error-detail record -/

/-- Every error set in the plugin has code -1 and minor code 0, so it is populated as
soon as its message is not empty. -/
theorem set_security_error_populated (ex : SecurityException) (msg : Str) (hmsg : msg ≠ []) :
    (set_security_error ex (-1) 0 msg).populated :=
  ⟨rfl, rfl, hmsg⟩

/-- Local validation when the credential does not validate or the identifier adjustment
fails: VALIDATION_FAILED, and registries, counter, handle parameter and error-detail
record stay as they were. -/
theorem validate_local_identity_rejects (ext : External) (s : AuthenticationBuiltInImpl)
    (lh : Handle) (adj : GUID_t) (dom : Int) (qos : List Property_t) (cand : GUID_t)
    (ex : SecurityException)
    (hfail : ext.validate (ext.load s.local_credential_data_ qos) = false
      ∨ (ext.make_adjusted_guid cand adj
          (ext.load s.local_credential_data_ qos).participant_cert).1 ≠ 0) :
    (validate_local_identity ext s lh adj dom qos cand ex).result = VALIDATION_FAILED
      ∧ (validate_local_identity ext s lh adj dom qos cand ex).state
        = { s with local_credential_data_ := ext.load s.local_credential_data_ qos }
      ∧ (validate_local_identity ext s lh adj dom qos cand ex).local_identity_handle = lh := by
  unfold validate_local_identity
  by_cases hv : ext.validate (ext.load s.local_credential_data_ qos) = true
  · rcases hfail with h | h
    · rw [hv] at h
      cases h
    · simp [hv, h]
  · simp [hv]

/-- Local validation never writes the error-detail record. -/
theorem validate_local_identity_ex (ext : External) (s : AuthenticationBuiltInImpl)
    (lh : Handle) (adj : GUID_t) (dom : Int) (qos : List Property_t) (cand : GUID_t)
    (ex : SecurityException) :
    (validate_local_identity ext s lh adj dom qos cand ex).ex = ex := by
  unfold validate_local_identity
  by_cases hv : ext.validate (ext.load s.local_credential_data_ qos) = true
  · by_cases ha : (ext.make_adjusted_guid cand adj
        (ext.load s.local_credential_data_ qos).participant_cert).1 = 0
    · simp [hv, ha]
    · simp [hv, ha]
  · simp [hv]

/-- The result of local validation is VALIDATION_OK or VALIDATION_FAILED, the first
exactly when the credential validates and the identifier adjustment succeeds. -/
theorem validate_local_identity_result (ext : External) (s : AuthenticationBuiltInImpl)
    (lh : Handle) (adj : GUID_t) (dom : Int) (qos : List Property_t) (cand : GUID_t)
    (ex : SecurityException) :
    ((validate_local_identity ext s lh adj dom qos cand ex).result = VALIDATION_OK
        ↔ (ext.validate (ext.load s.local_credential_data_ qos) = true
          ∧ (ext.make_adjusted_guid cand adj
              (ext.load s.local_credential_data_ qos).participant_cert).1 = 0))
      ∧ ((validate_local_identity ext s lh adj dom qos cand ex).result ≠ VALIDATION_OK →
        (validate_local_identity ext s lh adj dom qos cand ex).result = VALIDATION_FAILED) := by
  unfold validate_local_identity
  by_cases hv : ext.validate (ext.load s.local_credential_data_ qos) = true
  · by_cases ha : (ext.make_adjusted_guid cand adj
        (ext.load s.local_credential_data_ qos).participant_cert).1 = 0
    · simp [hv, ha]
    · simp [hv, ha]
  · simp [hv]

/-- The three checks of a handshake transition either all pass or one fails. -/
theorem process_handshake_guard_cases (s : AuthenticationBuiltInImpl) (h : Handle) :
    (∃ r d, get_handshake_data s h = some r
        ∧ get_identity_data s r.remote_identity_handle = some d
        ∧ r.validation_state = VALIDATION_PENDING_HANDSHAKE_MESSAGE)
      ∨ ¬ ∃ r, get_handshake_data s h = some r
        ∧ (∃ d, get_identity_data s r.remote_identity_handle = some d)
        ∧ r.validation_state = VALIDATION_PENDING_HANDSHAKE_MESSAGE := by
  by_cases hg : ∃ r, get_handshake_data s h = some r
      ∧ (∃ d, get_identity_data s r.remote_identity_handle = some d)
      ∧ r.validation_state = VALIDATION_PENDING_HANDSHAKE_MESSAGE
  · obtain ⟨r, hr, ⟨d, hd⟩, hst⟩ := hg
    exact Or.inl ⟨r, d, hr, hd, hst⟩
  · exact Or.inr hg

/-- The reply transition sets the error-detail record when it fails and leaves it when
it succeeds. -/
theorem process_handshake_reply_ex (s : AuthenticationBuiltInImpl) (out msg : Token)
    (h : Handle) (ex : SecurityException) :
    ((process_handshake_reply s out msg h ex).result = VALIDATION_FAILED →
        (process_handshake_reply s out msg h ex).ex.populated)
      ∧ ((process_handshake_reply s out msg h ex).result ≠ VALIDATION_FAILED →
        (process_handshake_reply s out msg h ex).ex = ex) := by
  unfold process_handshake_reply
  split
  · exact ⟨fun _ => set_security_error_populated ex _ (by decide), fun hne => absurd rfl hne⟩
  · split
    · exact ⟨fun _ => set_security_error_populated ex _ (by decide), fun hne => absurd rfl hne⟩
    · split
      · exact ⟨fun _ => set_security_error_populated ex _ (by decide), fun hne => absurd rfl hne⟩
      · exact ⟨fun hres => (by cases hres), fun _ => rfl⟩

/-- The final transition sets the error-detail record when it fails and leaves it when
it succeeds. -/
theorem process_final_handshake_ex (s : AuthenticationBuiltInImpl) (msg : Token)
    (h : Handle) (ex : SecurityException) :
    ((process_final_handshake s msg h ex).result = VALIDATION_FAILED →
        (process_final_handshake s msg h ex).ex.populated)
      ∧ ((process_final_handshake s msg h ex).result ≠ VALIDATION_FAILED →
        (process_final_handshake s msg h ex).ex = ex) := by
  unfold process_final_handshake
  split
  · exact ⟨fun _ => set_security_error_populated ex _ (by decide), fun hne => absurd rfl hne⟩
  · split
    · exact ⟨fun _ => set_security_error_populated ex _ (by decide), fun hne => absurd rfl hne⟩
    · split
      · exact ⟨fun _ => set_security_error_populated ex _ (by decide), fun hne => absurd rfl hne⟩
      · exact ⟨fun hres => (by cases hres), fun _ => rfl⟩

/-- The operation `process_handshake` returning VALIDATION_FAILED leaves the plugin state
and sets the error-detail record; otherwise it leaves the error-detail record. -/
theorem process_handshake_failure (s : AuthenticationBuiltInImpl) (out msg : Token)
    (h : Handle) (ex : SecurityException) :
    ((process_handshake s out msg h ex).result = VALIDATION_FAILED →
        (process_handshake s out msg h ex).state = s
          ∧ (process_handshake s out msg h ex).ex.populated)
      ∧ ((process_handshake s out msg h ex).result ≠ VALIDATION_FAILED →
        (process_handshake s out msg h ex).ex = ex) := by
  by_cases hreply : get_extension msg.class_id = "Reply".toList
  · rw [process_handshake_of_reply s out msg h ex hreply]
    refine ⟨fun hres => ⟨?_, (process_handshake_reply_ex s out msg h ex).1 hres⟩,
      (process_handshake_reply_ex s out msg h ex).2⟩
    rcases process_handshake_guard_cases s h with ⟨r, d, hr, hd, hst⟩ | hg
    · rw [process_handshake_reply_accepts s out msg h ex r d hr hd hst] at hres
      cases hres
    · exact (process_handshake_reply_rejects s out msg h ex hg).2.1
  · by_cases hfinal : get_extension msg.class_id = "Final".toList
    · rw [process_handshake_of_final s out msg h ex hfinal]
      refine ⟨fun hres => ⟨?_, (process_final_handshake_ex s msg h ex).1 hres⟩,
        (process_final_handshake_ex s msg h ex).2⟩
      rcases process_handshake_guard_cases s h with ⟨r, d, hr, hd, hst⟩ | hg
      · simp only [process_final_handshake_accepts s msg h ex r d hr hd hst] at hres
        cases hres
      · exact (process_final_handshake_rejects s msg h ex hg).2
    · have h1 : ¬ Handshake_Reply_Class_Ext = get_extension msg.class_id :=
        fun e => hreply e.symm
      have h2 : ¬ Handshake_Final_Class_Ext = get_extension msg.class_id :=
        fun e => hfinal e.symm
      simp [process_handshake, h1, h2]

/-- Claim C23: atomicity of failure. For every public operation and every input on which
it reports failure (false, nil or VALIDATION_FAILED), the identity registry, the
handshake registry with the contents of every record, and the handle counter are the
same after the call as before. -/
theorem failure_leaves_registries (ext : External) (s : AuthenticationBuiltInImpl)
    (ex : SecurityException) (c : Call)
    (hfail : (c.outcome ext s ex).reports_failure = true) :
    (c.run ext s ex).identity_data_ = s.identity_data_
      ∧ (c.run ext s ex).handshake_data_ = s.handshake_data_
      ∧ (c.run ext s ex).next_handle_ = s.next_handle_ := by
  cases c with
  | validate_local_identity lh adj dom qos cand =>
    simp only [Call.outcome, Call.run, Outcome.reports_failure, decide_eq_true_eq] at hfail ⊢
    have hne : (validate_local_identity ext s lh adj dom qos cand ex).result
        ≠ VALIDATION_OK := by
      rw [hfail]
      decide
    have hcause := mt (validate_local_identity_result ext s lh adj dom qos cand ex).1.2 hne
    have hcases : ext.validate (ext.load s.local_credential_data_ qos) = false
        ∨ (ext.make_adjusted_guid cand adj
            (ext.load s.local_credential_data_ qos).participant_cert).1 ≠ 0 := by
      by_cases hv : ext.validate (ext.load s.local_credential_data_ qos) = true
      · exact Or.inr (fun ha => hcause ⟨hv, ha⟩)
      · exact Or.inl (by simpa using hv)
    rw [(validate_local_identity_rejects ext s lh adj dom qos cand ex hcases).2.1]
    exact ⟨rfl, rfl, rfl⟩
  | validate_remote_identity n rh lt rt lh tok g =>
    simp only [Call.outcome, Call.run, Outcome.reports_failure, decide_eq_true_eq] at hfail ⊢
    rcases validate_remote_identity_cases n s lt rt lh tok with ⟨⟨d, hd⟩, hc, hs⟩ | hcause
    · rw [validate_remote_identity_accepts n s rh lt rt lh tok g ex d hd hc hs] at hfail
      simp only [] at hfail
      split at hfail <;> cases hfail
    · rw [(validate_remote_identity_rejects n s rh lt rt lh tok g ex hcause).2.1]
      exact ⟨rfl, rfl, rfl⟩
  | begin_handshake_request hh msg ini rep data =>
    simp only [Call.outcome, Call.run, Outcome.reports_failure, decide_eq_true_eq] at hfail ⊢
    rcases begin_handshake_precondition_cases s rep ini data with ⟨hdata, d, hd, hp⟩ | hpre
    · rw [begin_handshake_request_accepts s hh msg ini rep data ex d hdata hd hp] at hfail
      cases hfail
    · rw [(begin_handshake_request_rejects s hh msg ini rep data ex hpre).2.1]
      exact ⟨rfl, rfl, rfl⟩
  | begin_handshake_reply hh msg ini rep data =>
    simp only [Call.outcome, Call.run, Outcome.reports_failure, decide_eq_true_eq] at hfail ⊢
    rcases begin_handshake_precondition_cases s ini rep data with ⟨hdata, d, hd, hp⟩ | hpre
    · rw [begin_handshake_reply_accepts s hh msg ini rep data ex d hdata hd hp] at hfail
      cases hfail
    · rw [(begin_handshake_reply_rejects s hh msg ini rep data ex hpre).2.1]
      exact ⟨rfl, rfl, rfl⟩
  | process_handshake out msg h =>
    simp only [Call.outcome, Call.run, Outcome.reports_failure, decide_eq_true_eq] at hfail ⊢
    rw [((process_handshake_failure s out msg h ex).1 hfail).1]
    exact ⟨rfl, rfl, rfl⟩
  | get_identity_token tok h =>
    simp only [Call.outcome, Call.run, Outcome.reports_failure, get_identity_token] at hfail ⊢
    split <;> simp
  | get_identity_status_token tok h =>
    simp only [Call.outcome, Call.run, Outcome.reports_failure,
      get_identity_status_token] at hfail ⊢
    split <;> simp
  | set_permissions_credential_and_token h cred perm =>
    simp only [Call.outcome, Call.run, Outcome.reports_failure,
      set_permissions_credential_and_token] at hfail ⊢
    split at hfail
    · simp at hfail
    · next hnone => simp [hnone]
  | get_shared_secret h =>
    simp only [Call.outcome, Call.run, Outcome.reports_failure, get_shared_secret] at hfail ⊢
    split <;> simp
  | get_authenticated_peer_credential_token tok h =>
    simp only [Call.outcome, Call.run, Outcome.reports_failure,
      get_authenticated_peer_credential_token] at hfail ⊢
    split <;> simp
  | set_listener listener =>
    simp only [Call.outcome, Call.run, Outcome.reports_failure, set_listener] at hfail ⊢
    split at hfail
    · simp
    · simp at hfail
  | return_nothing => exact ⟨rfl, rfl, rfl⟩
  | return_handshake_handle h =>
    simp only [Call.outcome, Call.run, Outcome.reports_failure,
      return_handshake_handle] at hfail ⊢
    split at hfail
    · simp at hfail
    · next hnone => simp [hnone]
  | return_identity_handle h =>
    simp only [Call.outcome, Call.run, Outcome.reports_failure,
      return_identity_handle] at hfail ⊢
    split at hfail
    · simp at hfail
    · next hnone => simp [hnone]

/-- Witness for C23: a "Reply" on a handshake that is already in
VALIDATION_OK_FINAL_MESSAGE fails and changes nothing. -/
theorem failure_leaves_registries_witness :
    ((Call.process_handshake TokenNIL (message_with_phase "Reply".toList) 3).outcome
        (ext_ok guid_01)
        (plugin_with_handshake VALIDATION_OK_FINAL_MESSAGE (some ⟨[], [], []⟩))
        ex_clear).reports_failure = true
      ∧ ((Call.process_handshake TokenNIL (message_with_phase "Reply".toList) 3).run
          (ext_ok guid_01)
          (plugin_with_handshake VALIDATION_OK_FINAL_MESSAGE (some ⟨[], [], []⟩))
          ex_clear).handshake_data_
        = (plugin_with_handshake VALIDATION_OK_FINAL_MESSAGE (some ⟨[], [], []⟩)).handshake_data_ :=
  ⟨by decide,
    (failure_leaves_registries (ext_ok guid_01)
      (plugin_with_handshake VALIDATION_OK_FINAL_MESSAGE (some ⟨[], [], []⟩)) ex_clear
      (Call.process_handshake TokenNIL (message_with_phase "Reply".toList) 3)
      (by decide)).2.1⟩

/-- Claim C25: success leaves the error-detail record untouched. For every public
operation and every input on which it does not report failure (it returns true, a
non-nil handle, or a validation result other than VALIDATION_FAILED), the
error-detail record after the call, with its code, minor code and message, is the
record before the call. -/
theorem success_leaves_error (ext : External) (s : AuthenticationBuiltInImpl)
    (ex : SecurityException) (c : Call)
    (hok : (c.outcome ext s ex).reports_failure = false) :
    c.ex_after ext s ex = ex := by
  cases c with
  | validate_local_identity lh adj dom qos cand =>
    exact validate_local_identity_ex ext s lh adj dom qos cand ex
  | validate_remote_identity n rh lt rt lh tok g =>
    simp only [Call.outcome, Call.ex_after, Outcome.reports_failure,
      decide_eq_false_iff_not] at hok ⊢
    rcases validate_remote_identity_cases n s lt rt lh tok with ⟨⟨d, hd⟩, hc, hs⟩ | hcause
    · rw [validate_remote_identity_accepts n s rh lt rt lh tok g ex d hd hc hs]
    · exact absurd (validate_remote_identity_rejects n s rh lt rt lh tok g ex hcause).1 hok
  | begin_handshake_request hh msg ini rep data =>
    simp only [Call.outcome, Call.ex_after, Outcome.reports_failure,
      decide_eq_false_iff_not] at hok ⊢
    rcases begin_handshake_precondition_cases s rep ini data with ⟨hdata, d, hd, hp⟩ | hpre
    · rw [begin_handshake_request_accepts s hh msg ini rep data ex d hdata hd hp]
    · exact absurd (begin_handshake_request_rejects s hh msg ini rep data ex hpre).1 hok
  | begin_handshake_reply hh msg ini rep data =>
    simp only [Call.outcome, Call.ex_after, Outcome.reports_failure,
      decide_eq_false_iff_not] at hok ⊢
    rcases begin_handshake_precondition_cases s ini rep data with ⟨hdata, d, hd, hp⟩ | hpre
    · rw [begin_handshake_reply_accepts s hh msg ini rep data ex d hdata hd hp]
    · exact absurd (begin_handshake_reply_rejects s hh msg ini rep data ex hpre).1 hok
  | process_handshake out msg h =>
    simp only [Call.outcome, Call.ex_after, Outcome.reports_failure,
      decide_eq_false_iff_not] at hok ⊢
    exact (process_handshake_failure s out msg h ex).2 hok
  | get_identity_token tok h =>
    simp only [Call.outcome, Call.ex_after, Outcome.reports_failure,
      get_identity_token] at hok ⊢
    split at hok
    · next hsome => simp [hsome]
    · simp at hok
  | get_identity_status_token tok h =>
    simp only [Call.outcome, Call.ex_after, Outcome.reports_failure,
      get_identity_status_token] at hok ⊢
    split at hok
    · next hsome => simp [hsome]
    · simp at hok
  | set_permissions_credential_and_token h cred perm =>
    simp only [Call.outcome, Call.ex_after, Outcome.reports_failure,
      set_permissions_credential_and_token] at hok ⊢
    split at hok
    · next hsome => simp [hsome]
    · simp at hok
  | get_shared_secret h =>
    simp only [Call.outcome, Call.ex_after, Outcome.reports_failure,
      get_shared_secret] at hok ⊢
    split at hok
    · next hsome => simp [hsome]
    · simp at hok
  | get_authenticated_peer_credential_token tok h =>
    simp only [Call.outcome, Call.ex_after, Outcome.reports_failure,
      get_authenticated_peer_credential_token] at hok ⊢
    split at hok
    · next hsome => simp [hsome]
    · simp at hok
  | set_listener listener =>
    simp only [Call.outcome, Call.ex_after, Outcome.reports_failure, set_listener] at hok ⊢
    split at hok
    · simp at hok
    · simp
  | return_nothing => rfl
  | return_handshake_handle h =>
    simp only [Call.outcome, Call.ex_after, Outcome.reports_failure,
      return_handshake_handle] at hok ⊢
    split at hok
    · next hsome => simp [hsome]
    · simp at hok
  | return_identity_handle h =>
    simp only [Call.outcome, Call.ex_after, Outcome.reports_failure,
      return_identity_handle] at hok ⊢
    split at hok
    · next hsome => simp [hsome]
    · simp at hok

/-- Witness for C25: a handshake request that succeeds while the caller's error-detail
record still holds an earlier error. -/
theorem success_leaves_error_witness :
    ((Call.begin_handshake_request 0 TokenNIL 1 2 [1]).outcome (ext_ok guid_01)
        plugin_with_pair ex_old).reports_failure = false
      ∧ (Call.begin_handshake_request 0 TokenNIL 1 2 [1]).ex_after (ext_ok guid_01)
          plugin_with_pair ex_old = ex_old :=
  ⟨by decide,
    success_leaves_error (ext_ok guid_01) plugin_with_pair ex_old
      (Call.begin_handshake_request 0 TokenNIL 1 2 [1]) (by decide)⟩

/-! ## Failure and the error-detail record -/

/-- Claim C24 as stated fails: when credential validation fails, `validate_local_identity`
returns VALIDATION_FAILED and leaves the error-detail record as the caller passed it,
here with code 0 and an empty message. -/
theorem validate_local_identity_failure_without_error :
    (validate_local_identity ext_invalid AuthenticationBuiltInImpl.new 0 GUID_UNKNOWN 0 []
        guid_01 ex_clear).result = VALIDATION_FAILED
      ∧ (validate_local_identity ext_invalid AuthenticationBuiltInImpl.new 0 GUID_UNKNOWN 0 []
          guid_01 ex_clear).ex = ex_clear
      ∧ ¬ (validate_local_identity ext_invalid AuthenticationBuiltInImpl.new 0 GUID_UNKNOWN 0
          [] guid_01 ex_clear).ex.populated := by
  refine ⟨by decide, by decide, ?_⟩
  intro h
  exact absurd h.1 (by decide)

/-- The nonce failure of `validate_remote_identity`, evaluated: with a resolvable local
handle, a compatible identity token, a nil incoming auth-request token and nonce
generation giving the error code 1, the result is VALIDATION_FAILED and the
error-detail record is left as the caller passed it. -/
theorem validate_remote_identity_nonce_failure_without_error :
    (validate_remote_identity (1, []) (plugin_with_local guid_01) 0 TokenNIL TokenNIL 1
        identity_token_pki guid_02 ex_clear).result = VALIDATION_FAILED
      ∧ (validate_remote_identity (1, []) (plugin_with_local guid_01) 0 TokenNIL TokenNIL 1
          identity_token_pki guid_02 ex_clear).ex = ex_clear := by
  decide

/-- Claim C24, amended: a call that reports failure (VALIDATION_FAILED, false or nil)
and is neither a `validate_local_identity` call, nor a `validate_remote_identity` call
whose local handle resolves and whose class identifier is compatible (so that the
failure is the nonce failure), nor a `get_shared_secret` call on a registered handle,
has set the error-detail record: code -1, minor code 0 and a non-empty message.
`validate_local_identity` never writes the error-detail record. -/
theorem failure_sets_error_elsewhere (ext : External) (s : AuthenticationBuiltInImpl)
    (ex : SecurityException) (c : Call)
    (hfail : (c.outcome ext s ex).reports_failure = true)
    (hlocal : ∀ lh adj dom qos cand, c ≠ .validate_local_identity lh adj dom qos cand)
    (hremote : ∀ n rh lt rt lh tok g, c = .validate_remote_identity n rh lt rt lh tok g →
      get_identity_data s lh = none ∨ check_class_versions (some tok.class_id) = false)
    (hsecret : ∀ h, c = .get_shared_secret h → get_handshake_data s h = none) :
    (c.ex_after ext s ex).populated
      ∧ ∀ lh adj dom qos cand,
          (validate_local_identity ext s lh adj dom qos cand ex).ex = ex := by
  refine ⟨?_, fun lh adj dom qos cand => validate_local_identity_ex ext s lh adj dom qos cand ex⟩
  cases c with
  | validate_local_identity lh adj dom qos cand =>
    exact absurd rfl (hlocal lh adj dom qos cand)
  | validate_remote_identity n rh lt rt lh tok g =>
    simp only [Call.ex_after]
    unfold validate_remote_identity
    rcases hremote n rh lt rt lh tok g rfl with h | h
    · rw [h]
      exact set_security_error_populated ex _ (by decide)
    · cases hloc : get_identity_data s lh with
      | none => exact set_security_error_populated ex _ (by decide)
      | some d =>
        simp only [h, Bool.false_eq_true, if_false]
        exact set_security_error_populated ex _ (by decide)
  | begin_handshake_request hh msg ini rep data =>
    simp only [Call.outcome, Call.ex_after, Outcome.reports_failure,
      decide_eq_true_eq] at hfail ⊢
    unfold begin_handshake_request at hfail ⊢
    split
    · exact set_security_error_populated ex _ (by decide)
    · next hlen =>
      simp only [hlen, if_false] at hfail
      split
      · exact set_security_error_populated ex _ (by decide)
      · next d hd =>
        simp only [hd] at hfail
        split
        · exact set_security_error_populated ex _ (by decide)
        · next hp =>
          simp only [hp, if_false] at hfail
          cases hfail
  | begin_handshake_reply hh msg ini rep data =>
    simp only [Call.outcome, Call.ex_after, Outcome.reports_failure,
      decide_eq_true_eq] at hfail ⊢
    unfold begin_handshake_reply at hfail ⊢
    split
    · exact set_security_error_populated ex _ (by decide)
    · next hlen =>
      simp only [hlen, if_false] at hfail
      split
      · exact set_security_error_populated ex _ (by decide)
      · next d hd =>
        simp only [hd] at hfail
        split
        · exact set_security_error_populated ex _ (by decide)
        · next hp =>
          simp only [hp, if_false] at hfail
          cases hfail
  | process_handshake out msg h =>
    simp only [Call.outcome, Call.ex_after, Outcome.reports_failure,
      decide_eq_true_eq] at hfail ⊢
    exact ((process_handshake_failure s out msg h ex).1 hfail).2
  | get_identity_token tok h =>
    simp only [Call.outcome, Call.ex_after, Outcome.reports_failure,
      get_identity_token] at hfail ⊢
    split at hfail
    · simp at hfail
    · next hnone =>
      simp only [hnone]
      exact set_security_error_populated ex _ (by decide)
  | get_identity_status_token tok h =>
    simp only [Call.outcome, Call.ex_after, Outcome.reports_failure,
      get_identity_status_token] at hfail ⊢
    split at hfail
    · simp at hfail
    · next hnone =>
      simp only [hnone]
      exact set_security_error_populated ex _ (by decide)
  | set_permissions_credential_and_token h cred perm =>
    simp only [Call.outcome, Call.ex_after, Outcome.reports_failure,
      set_permissions_credential_and_token] at hfail ⊢
    split at hfail
    · simp at hfail
    · next hnone =>
      simp only [hnone]
      exact set_security_error_populated ex _ (by decide)
  | get_shared_secret h =>
    simp only [Call.ex_after]
    rw [((get_shared_secret_cases s h ex).2 (hsecret h rfl)).2]
    exact ⟨rfl, rfl, by decide⟩
  | get_authenticated_peer_credential_token tok h =>
    simp only [Call.outcome, Call.ex_after, Outcome.reports_failure,
      get_authenticated_peer_credential_token] at hfail ⊢
    split at hfail
    · simp at hfail
    · next hnone =>
      simp only [hnone]
      exact set_security_error_populated ex _ (by decide)
  | set_listener listener =>
    simp only [Call.outcome, Call.ex_after, Outcome.reports_failure, set_listener] at hfail ⊢
    split at hfail
    · exact set_security_error_populated ex _ (by decide)
    · simp at hfail
  | return_nothing =>
    simp [Call.outcome, Outcome.reports_failure, return_nothing] at hfail
  | return_handshake_handle h =>
    simp only [Call.outcome, Call.ex_after, Outcome.reports_failure,
      return_handshake_handle] at hfail ⊢
    split at hfail
    · simp at hfail
    · next hnone =>
      simp only [hnone]
      exact set_security_error_populated ex _ (by decide)
  | return_identity_handle h =>
    simp only [Call.outcome, Call.ex_after, Outcome.reports_failure,
      return_identity_handle] at hfail ⊢
    split at hfail
    · simp at hfail
    · next hnone =>
      simp only [hnone]
      exact set_security_error_populated ex _ (by decide)

/-- Witness for C24 amended: `get_identity_token` on the unknown handle 9. -/
theorem failure_sets_error_elsewhere_witness :
    ((Call.get_identity_token TokenNIL 9).outcome (ext_ok guid_01) plugin_with_pair
        ex_clear).reports_failure = true
      ∧ ((Call.get_identity_token TokenNIL 9).ex_after (ext_ok guid_01) plugin_with_pair
          ex_clear).populated :=
  ⟨by decide,
    (failure_sets_error_elsewhere (ext_ok guid_01) plugin_with_pair ex_clear
      (Call.get_identity_token TokenNIL 9) (by decide)
      (fun _ _ _ _ _ h => Call.noConfusion h)
      (fun _ _ _ _ _ _ _ h => Call.noConfusion h)
      (fun _ h => Call.noConfusion h)).1⟩

/-! ## Local identity validation -/

/-- Claim C26: `validate_local_identity`, with credential loading, credential validation
and identifier adjustment as external functions, returns VALIDATION_OK if and only if
the loaded credential validates and the identifier adjustment gives the error code 0.
Then it returns the counter value as handle, advances the counter once, registers
under that handle a record whose participant identifier is the adjusted identifier it
returns (nothing else set in the record), and leaves every other identity record and
every handshake record unchanged; the handle was not registered before whenever the
registered identity handles lie below the counter. Otherwise it returns
VALIDATION_FAILED, both registries and the counter are unchanged and the handle
parameter is not written. -/
theorem validate_local_identity_registers_record (ext : External)
    (s : AuthenticationBuiltInImpl) (lh : Handle) (adj : GUID_t) (dom : Int)
    (qos : List Property_t) (cand : GUID_t) (ex : SecurityException) :
    ((validate_local_identity ext s lh adj dom qos cand ex).result = VALIDATION_OK
        ↔ (ext.validate (ext.load s.local_credential_data_ qos) = true
          ∧ (ext.make_adjusted_guid cand adj
              (ext.load s.local_credential_data_ qos).participant_cert).1 = 0))
      ∧ ((validate_local_identity ext s lh adj dom qos cand ex).result = VALIDATION_OK →
          (validate_local_identity ext s lh adj dom qos cand ex).local_identity_handle
              = s.next_handle_
            ∧ (validate_local_identity ext s lh adj dom qos cand ex).state.next_handle_
              = (s.next_handle_ + 1) % 2 ^ 64
            ∧ (validate_local_identity ext s lh adj dom qos cand ex).adjusted_participant_guid
              = (ext.make_adjusted_guid cand adj
                  (ext.load s.local_credential_data_ qos).participant_cert).2
            ∧ get_identity_data (validate_local_identity ext s lh adj dom qos cand ex).state
                (validate_local_identity ext s lh adj dom qos cand ex).local_identity_handle
              = some
                { participant_guid :=
                    (validate_local_identity ext s lh adj dom qos cand
                      ex).adjusted_participant_guid
                  local_handle := 0
                  local_auth_request := TokenNIL
                  remote_auth_request := TokenNIL
                  permissions_cred_token := TokenNIL
                  permissions_token := TokenNIL }
            ∧ (∀ k, k ≠ (validate_local_identity ext s lh adj dom qos cand
                  ex).local_identity_handle →
                get_identity_data (validate_local_identity ext s lh adj dom qos cand ex).state k
                  = get_identity_data s k)
            ∧ (∀ k, get_handshake_data (validate_local_identity ext s lh adj dom qos cand
                  ex).state k = get_handshake_data s k)
            ∧ ((∀ k d, get_identity_data s k = some d → k < s.next_handle_) →
                get_identity_data s
                  (validate_local_identity ext s lh adj dom qos cand ex).local_identity_handle
                  = none))
      ∧ ((validate_local_identity ext s lh adj dom qos cand ex).result ≠ VALIDATION_OK →
          (validate_local_identity ext s lh adj dom qos cand ex).result = VALIDATION_FAILED
            ∧ (validate_local_identity ext s lh adj dom qos cand ex).state.identity_data_
              = s.identity_data_
            ∧ (validate_local_identity ext s lh adj dom qos cand ex).state.handshake_data_
              = s.handshake_data_
            ∧ (validate_local_identity ext s lh adj dom qos cand ex).state.next_handle_
              = s.next_handle_
            ∧ (validate_local_identity ext s lh adj dom qos cand ex).local_identity_handle
              = lh) := by
  obtain ⟨hiff, hfailed⟩ := validate_local_identity_result ext s lh adj dom qos cand ex
  refine ⟨hiff, fun hok => ?_, fun hne => ?_⟩
  · obtain ⟨hv, ha⟩ := hiff.1 hok
    have hadj : ext.make_adjusted_guid cand adj
        (ext.load s.local_credential_data_ qos).participant_cert
        = (0, (ext.make_adjusted_guid cand adj
            (ext.load s.local_credential_data_ qos).participant_cert).2) :=
      Prod.ext ha rfl
    rw [validate_local_identity_accepts ext s lh adj dom qos cand ex _ hv hadj]
    refine ⟨rfl, rfl, rfl, by simp [get_identity_data, map_assign, IdentityData.make_rch],
      fun k hk => ?_, fun k => rfl, fun hinv => ?_⟩
    · simp only [get_identity_data, map_assign] at hk ⊢
      simp [hk]
    · cases hk : get_identity_data s s.next_handle_ with
      | none => rfl
      | some d => exact absurd (hinv _ d hk) (lt_irrefl _)
  · have hcause := mt hiff.2 hne
    have hcases : ext.validate (ext.load s.local_credential_data_ qos) = false
        ∨ (ext.make_adjusted_guid cand adj
            (ext.load s.local_credential_data_ qos).participant_cert).1 ≠ 0 := by
      by_cases hv : ext.validate (ext.load s.local_credential_data_ qos) = true
      · exact Or.inr (fun ha => hcause ⟨hv, ha⟩)
      · exact Or.inl (by simpa using hv)
    obtain ⟨-, h2, h3⟩ := validate_local_identity_rejects ext s lh adj dom qos cand ex hcases
    refine ⟨hfailed hne, ?_, ?_, ?_, h3⟩ <;> rw [h2]

/-- Witness for C26: on a fresh plugin with succeeding collaborators the handle is 1 and
the record under it holds the adjusted identifier. -/
theorem validate_local_identity_registers_record_witness :
    scenario_a1.result = VALIDATION_OK
      ∧ scenario_a1.local_identity_handle = 1
      ∧ get_identity_data scenario_a1.state 1
        = some { IdentityData.make_rch with participant_guid := guid_01 } :=
  have hok : scenario_a1.result = VALIDATION_OK := by decide
  have hthm := (validate_local_identity_registers_record (ext_ok guid_01)
    AuthenticationBuiltInImpl.new 0 GUID_UNKNOWN 0 [] guid_01 ex_clear).2.1 hok
  ⟨hok, hthm.1, hthm.2.2.2.1⟩

/-! ## Dispatch of `process_handshake` -/

/-- Claim C27: `process_handshake` dispatches on the phase suffix alone. When the
extension of the incoming class identifier is "Reply", its result, state, outgoing
message and error-detail record are those of `process_handshake_reply`; when it is
"Final", its result, state and error-detail record are those of
`process_final_handshake` and the outgoing message is left; and any two incoming
messages with the same extension, whatever their plugin name, version and properties,
give the same outcome. -/
theorem process_handshake_dispatch (s : AuthenticationBuiltInImpl) (out msg : Token)
    (h : Handle) (ex : SecurityException) :
    (get_extension msg.class_id = "Reply".toList →
        process_handshake s out msg h ex = process_handshake_reply s out msg h ex)
      ∧ (get_extension msg.class_id = "Final".toList →
        (process_handshake s out msg h ex).result = (process_final_handshake s msg h ex).result
          ∧ (process_handshake s out msg h ex).state = (process_final_handshake s msg h ex).state
          ∧ (process_handshake s out msg h ex).ex = (process_final_handshake s msg h ex).ex
          ∧ (process_handshake s out msg h ex).handshake_message_out = out)
      ∧ (∀ msg' : Token, get_extension msg'.class_id = get_extension msg.class_id →
        process_handshake s out msg' h ex = process_handshake s out msg h ex) := by
  refine ⟨process_handshake_of_reply s out msg h ex, fun hfinal => ?_, fun msg' hext => ?_⟩
  · rw [process_handshake_of_final s out msg h ex hfinal]
    exact ⟨rfl, rfl, rfl, rfl⟩
  · unfold process_handshake
    simp only [hext]
    rfl

/-- Witness for C27: a "Reply" message of a foreign plugin and version, carrying a
property, is processed as the plugin's own empty "Reply" message is. -/
theorem process_handshake_dispatch_witness :
    process_handshake (plugin_with_handshake VALIDATION_PENDING_HANDSHAKE_MESSAGE none)
        TokenNIL ⟨"Other:9.9+Reply".toList, [⟨"p".toList, "v".toList, true⟩], []⟩ 3 ex_clear
      = process_handshake (plugin_with_handshake VALIDATION_PENDING_HANDSHAKE_MESSAGE none)
          TokenNIL (message_with_phase "Reply".toList) 3 ex_clear :=
  (process_handshake_dispatch (plugin_with_handshake VALIDATION_PENDING_HANDSHAKE_MESSAGE none)
    TokenNIL (message_with_phase "Reply".toList) 3 ex_clear).2.2
    ⟨"Other:9.9+Reply".toList, [⟨"p".toList, "v".toList, true⟩], []⟩ (by decide)

/-! ## The request message -/

/-- A CORBA sequence given the length `n` has `n` elements. -/
theorem seq_length_length {α : Type} (d : α) (l : List α) (n : Nat) :
    (seq_length d l n).length = n := by
  simp only [seq_length, List.length_append, List.length_take, List.length_replicate]
  omega

/-- Setting all eight positions of a sequence of eight elements leaves exactly the eight
values set, in index order. -/
theorem set_eight {α : Type} (l : List α) (hl : l.length = 8) (a0 a1 a2 a3 a4 a5 a6 a7 : α) :
    (((((((l.set 0 a0).set 1 a1).set 2 a2).set 3 a3).set 4 a4).set 5 a5).set 6 a6).set 7 a7
      = [a0, a1, a2, a3, a4, a5, a6, a7] := by
  rcases l with _ | ⟨x0, _ | ⟨x1, _ | ⟨x2, _ | ⟨x3, _ | ⟨x4, _ | ⟨x5, _ | ⟨x6, _ | ⟨x7, l⟩⟩⟩⟩⟩⟩⟩⟩
  all_goals simp at hl
  subst hl
  rfl

/-- The request message written by `begin_handshake_request`, as a whole. -/
theorem handshake_request_message_eq (msg : Token) (data : OctetSeq) (d : IdentityData) :
    handshake_request_message msg data d =
      ⟨build_class_id Handshake_Request_Class_Ext, [],
        [⟨"c.id".toList, [], true⟩, ⟨"c.perm".toList, [], true⟩,
          ⟨"c.pdata".toList, data, true⟩,
          ⟨"c.dsign_algo".toList, string_octets AlgoName, true⟩,
          ⟨"c.kagree_algo".toList, string_octets AgreementAlgo, true⟩,
          ⟨"c.hash_c1".toList, [], true⟩, ⟨"c.ocsp_status".toList, [], true⟩,
          ⟨"c.challenge1".toList,
            if TokenReader.is_nil d.local_auth_request then []
            else TokenReader.get_bin_property_value d.local_auth_request
              "future_challenge".toList,
            true⟩]⟩ := by
  unfold handshake_request_message
  by_cases hnil : TokenReader.is_nil d.local_auth_request = true
  · simp only [hnil, Bool.not_true, Bool.false_eq_true, if_false, if_true, TokenWriter,
      TokenWriter.set_bin_property, seq_length_zero, Empty_Seq]
    rw [set_eight _ (seq_length_length _ _ 8)]
  · simp only [hnil, Bool.not_eq_true] at hnil ⊢
    simp only [hnil, Bool.not_false, if_true, Bool.false_eq_true, if_false, TokenWriter,
      TokenWriter.set_bin_property, seq_length_zero, Empty_Seq]
    rw [set_eight _ (seq_length_length _ _ 8)]

/-- The octets of a string are as many as its characters, and the octet at each
position is the code of the character there (reduced modulo 256). -/
theorem string_octets_spec (s : Str) :
    (string_octets s).length = s.length
      ∧ ∀ i (h : i < s.length), (string_octets s)[i]? = some (Fin.ofNat (s.get ⟨i, h⟩).toNat) := by
  refine ⟨by simp [string_octets], fun i h => ?_⟩
  simp [string_octets, List.getElem?_map, List.getElem?_eq_getElem h]

/-- Claim C29: on every successful `begin_handshake_request` the outgoing message has the
class identifier "DDS:Auth:PKI-DH:1.0+Req", no string property and exactly eight
binary properties, at the indices 0 to 7 in this order: c.id, c.perm, c.pdata,
c.dsign_algo, c.kagree_algo, c.hash_c1, c.ocsp_status, c.challenge1. The value of
c.pdata is the supplied participant data, c.dsign_algo holds the 17 octets of
"RSASSA-PSS-SHA256" (0x52 0x53 0x41 ..), c.kagree_algo the 16 octets of
"DH+MODP-2048-256" (0x44 0x48 0x2B ..), and c.id, c.perm, c.hash_c1 and c.ocsp_status
are empty. -/
theorem begin_handshake_request_message (s : AuthenticationBuiltInImpl) (hh : Handle)
    (msg : Token) (ini rep : Handle) (data : OctetSeq) (ex : SecurityException)
    (hok : (begin_handshake_request s hh msg ini rep data ex).result ≠ VALIDATION_FAILED) :
    ∃ challenge1 : OctetSeq,
      (begin_handshake_request s hh msg ini rep data ex).handshake_message =
        ⟨"DDS:Auth:PKI-DH:1.0+Req".toList, [],
          [⟨"c.id".toList, [], true⟩, ⟨"c.perm".toList, [], true⟩,
            ⟨"c.pdata".toList, data, true⟩,
            ⟨"c.dsign_algo".toList,
              [82, 83, 65, 83, 83, 65, 45, 80, 83, 83, 45, 83, 72, 65, 50, 53, 54], true⟩,
            ⟨"c.kagree_algo".toList,
              [68, 72, 43, 77, 79, 68, 80, 45, 50, 48, 52, 56, 45, 50, 53, 54], true⟩,
            ⟨"c.hash_c1".toList, [], true⟩, ⟨"c.ocsp_status".toList, [], true⟩,
            ⟨"c.challenge1".toList, challenge1, true⟩]⟩ := by
  rcases begin_handshake_precondition_cases s rep ini data with ⟨hdata, d, hd, hp⟩ | hpre
  · rw [begin_handshake_request_accepts s hh msg ini rep data ex d hdata hd hp]
    refine ⟨if TokenReader.is_nil d.local_auth_request then []
      else TokenReader.get_bin_property_value d.local_auth_request "future_challenge".toList,
      (handshake_request_message_eq msg data d).trans ?_⟩
    have hdsign : string_octets AlgoName
        = [82, 83, 65, 83, 83, 65, 45, 80, 83, 83, 45, 83, 72, 65, 50, 53, 54] := by decide
    have hkagree : string_octets AgreementAlgo
        = [68, 72, 43, 77, 79, 68, 80, 45, 50, 48, 52, 56, 45, 50, 53, 54] := by decide
    rw [hdsign, hkagree]
    rfl
  · exact absurd (begin_handshake_request_rejects s hh msg ini rep data ex hpre).1 hok

/-- Witness for C29: the request of the scenario, the output parameter holding an older
message before the call. -/
theorem begin_handshake_request_message_witness :
    ∃ challenge1 : OctetSeq,
      (begin_handshake_request plugin_with_pair 0 auth_request_9 1 2 [1, 2, 3]
          ex_clear).handshake_message =
        ⟨"DDS:Auth:PKI-DH:1.0+Req".toList, [],
          [⟨"c.id".toList, [], true⟩, ⟨"c.perm".toList, [], true⟩,
            ⟨"c.pdata".toList, [1, 2, 3], true⟩,
            ⟨"c.dsign_algo".toList,
              [82, 83, 65, 83, 83, 65, 45, 80, 83, 83, 45, 83, 72, 65, 50, 53, 54], true⟩,
            ⟨"c.kagree_algo".toList,
              [68, 72, 43, 77, 79, 68, 80, 45, 50, 48, 52, 56, 45, 50, 53, 54], true⟩,
            ⟨"c.hash_c1".toList, [], true⟩, ⟨"c.ocsp_status".toList, [], true⟩,
            ⟨"c.challenge1".toList, challenge1, true⟩]⟩ :=
  begin_handshake_request_message plugin_with_pair 0 auth_request_9 1 2 [1, 2, 3] ex_clear
    (by decide)

/-- Claim C30, the code at two failing inputs. First, the replier record stores a remote
auth-request token that is not nil and carries the challenge `[9]` (and a nil local
one): the successful `begin_handshake_request` writes an empty c.challenge1. Second,
in the scenario the replier record stores a nil remote auth-request token (and a
local one carrying the nonce `[7]`): the successful `begin_handshake_request` writes
c.challenge1 = `[7]`, the nonce of the local token. -/
theorem begin_handshake_request_challenge_source :
    ((get_identity_data plugin_after_remote_challenge 2).map IdentityData.remote_auth_request
          = some auth_request_9
        ∧ TokenReader.is_nil auth_request_9 = false
        ∧ TokenReader.get_bin_property_value auth_request_9 "future_challenge".toList = [9]
        ∧ (begin_handshake_request plugin_after_remote_challenge 0 TokenNIL 1 2 [1]
            ex_clear).result = VALIDATION_PENDING_HANDSHAKE_MESSAGE
        ∧ TokenReader.get_bin_property_value
            (begin_handshake_request plugin_after_remote_challenge 0 TokenNIL 1 2 [1]
              ex_clear).handshake_message "c.challenge1".toList = [])
      ∧ ((get_identity_data scenario_a2.state 2).map IdentityData.remote_auth_request
          = some TokenNIL
        ∧ (get_identity_data scenario_a2.state 2).map IdentityData.local_auth_request
          = some ⟨"DDS:Auth:PKI-DH:1.0+AuthReq".toList, [],
              [⟨"future_challenge".toList, [7], true⟩]⟩
        ∧ scenario_a3.result = VALIDATION_PENDING_HANDSHAKE_MESSAGE
        ∧ TokenReader.get_bin_property_value scenario_a3.handshake_message
            "c.challenge1".toList = [7]) := by
  decide

/-! ## Released handles -/

/-- An assignment under another key leaves an unregistered key unregistered. -/
theorem map_assign_none {α : Type} (m : Handle → Option α) (x k : Handle) (v : α)
    (hne : k ≠ x) (hk : m k = none) : map_assign m x v k = none := by
  simp [map_assign, hne, hk]

/-- A removal leaves an unregistered key unregistered. -/
theorem map_erase_none {α : Type} (m : Handle → Option α) (x k : Handle)
    (hk : m k = none) : map_erase m x k = none := by
  simp only [map_erase]
  split
  · rfl
  · exact hk

/-- One call, started with a counter that does not wrap, keeps a handle below the counter
below the counter, and keeps it unregistered in each registry where it is
unregistered. -/
theorem run_keeps_unregistered (ext : External) (s : AuthenticationBuiltInImpl)
    (ex : SecurityException) (c : Call) (hwrap : s.next_handle_ + 1 < 2 ^ 64) (k : Handle)
    (hk : k < s.next_handle_) :
    k < (c.run ext s ex).next_handle_
      ∧ (get_identity_data s k = none → get_identity_data (c.run ext s ex) k = none)
      ∧ (get_handshake_data s k = none → get_handshake_data (c.run ext s ex) k = none) := by
  have hmod : (s.next_handle_ + 1) % 2 ^ 64 = s.next_handle_ + 1 := Nat.mod_eq_of_lt hwrap
  have hne : k ≠ s.next_handle_ := Nat.ne_of_lt hk
  refine ⟨?_, ?_⟩
  · rcases returned_handle_cases ext s ex c with ⟨-, hnext⟩ | ⟨-, hnext⟩
    · rw [hnext]
      exact hk
    · rw [hnext, hmod]
      exact Nat.lt_succ_of_lt hk
  · cases c with
    | validate_local_identity lh adj dom qos cand =>
      simp only [Call.run, validate_local_identity, get_next_handle]
      split
      · split
        · exact ⟨fun hi => map_assign_none _ _ _ _ hne hi, fun hh => hh⟩
        · exact ⟨fun hi => hi, fun hh => hh⟩
      · exact ⟨fun hi => hi, fun hh => hh⟩
    | validate_remote_identity n rh lt rt lh tok g =>
      simp only [Call.run]
      rcases validate_remote_identity_cases n s lt rt lh tok with ⟨⟨d, hd⟩, hc, hs⟩ | hfail
      · rw [validate_remote_identity_accepts n s rh lt rt lh tok g ex d hd hc hs]
        exact ⟨fun hi => map_assign_none _ _ _ _ hne hi, fun hh => hh⟩
      · rw [(validate_remote_identity_rejects n s rh lt rt lh tok g ex hfail).2.1]
        exact ⟨fun hi => hi, fun hh => hh⟩
    | begin_handshake_request hh msg ini rep data =>
      simp only [Call.run]
      rcases begin_handshake_precondition_cases s rep ini data with ⟨hdata, d, hd, hp⟩ | hpre
      · rw [begin_handshake_request_accepts s hh msg ini rep data ex d hdata hd hp]
        exact ⟨fun hi => hi, fun hh => map_assign_none _ _ _ _ hne hh⟩
      · rw [(begin_handshake_request_rejects s hh msg ini rep data ex hpre).2.1]
        exact ⟨fun hi => hi, fun hh => hh⟩
    | begin_handshake_reply hh msg ini rep data =>
      simp only [Call.run]
      rcases begin_handshake_precondition_cases s ini rep data with ⟨hdata, d, hd, hp⟩ | hpre
      · rw [begin_handshake_reply_accepts s hh msg ini rep data ex d hdata hd hp]
        exact ⟨fun hi => hi, fun hh => map_assign_none _ _ _ _ hne hh⟩
      · rw [(begin_handshake_reply_rejects s hh msg ini rep data ex hpre).2.1]
        exact ⟨fun hi => hi, fun hh => hh⟩
    | process_handshake out msg h =>
      simp only [Call.run]
      refine ⟨fun hi => ?_, fun hh => ?_⟩
      · have hid : (process_handshake s out msg h ex).state.identity_data_ = s.identity_data_ := by
          simp only [process_handshake, process_handshake_reply, process_final_handshake]
          repeat' split
          all_goals rfl
        simp only [get_identity_data, hid]
        exact hi
      · by_cases hkh : k = h
        · subst hkh
          have hguard : ¬ ∃ r, get_handshake_data s k = some r
              ∧ (∃ d, get_identity_data s r.remote_identity_handle = some d)
              ∧ r.validation_state = VALIDATION_PENDING_HANDSHAKE_MESSAGE := by
            rintro ⟨r, hr, -⟩
            rw [hh] at hr
            cases hr
          have hst : (process_handshake s out msg k ex).state = s := by
            by_cases hreply : get_extension msg.class_id = "Reply".toList
            · rw [process_handshake_of_reply s out msg k ex hreply]
              exact (process_handshake_reply_rejects s out msg k ex hguard).2.1
            · by_cases hfinal : get_extension msg.class_id = "Final".toList
              · rw [process_handshake_of_final s out msg k ex hfinal]
                exact (process_final_handshake_rejects s msg k ex hguard).2
              · have h1 : ¬ Handshake_Reply_Class_Ext = get_extension msg.class_id :=
                  fun e => hreply e.symm
                have h2 : ¬ Handshake_Final_Class_Ext = get_extension msg.class_id :=
                  fun e => hfinal e.symm
                simp [process_handshake, h1, h2]
          rw [hst]
          exact hh
        · simp only [process_handshake, process_handshake_reply, process_final_handshake]
          repeat' split
          all_goals first
            | exact hh
            | exact map_assign_none _ _ _ _ hkh hh
    | get_identity_token tok h =>
      simp only [Call.run, get_identity_token]
      split <;> exact ⟨fun hi => hi, fun hh => hh⟩
    | get_identity_status_token tok h =>
      simp only [Call.run, get_identity_status_token]
      split <;> exact ⟨fun hi => hi, fun hh => hh⟩
    | set_permissions_credential_and_token h cred perm =>
      simp only [Call.run, set_permissions_credential_and_token]
      split
      · next d hd =>
        refine ⟨fun hi => ?_, fun hh => hh⟩
        have hkh : k ≠ h := by
          intro e
          subst e
          rw [hi] at hd
          cases hd
        exact map_assign_none _ _ _ _ hkh hi
      · exact ⟨fun hi => hi, fun hh => hh⟩
    | get_shared_secret h =>
      simp only [Call.run, get_shared_secret]
      split <;> exact ⟨fun hi => hi, fun hh => hh⟩
    | get_authenticated_peer_credential_token tok h =>
      simp only [Call.run, get_authenticated_peer_credential_token]
      split <;> exact ⟨fun hi => hi, fun hh => hh⟩
    | set_listener listener =>
      simp only [Call.run, set_listener]
      split <;> exact ⟨fun hi => hi, fun hh => hh⟩
    | return_nothing => exact ⟨fun hi => hi, fun hh => hh⟩
    | return_handshake_handle h =>
      simp only [Call.run, return_handshake_handle]
      split
      · exact ⟨fun hi => hi, fun hh => map_erase_none _ _ _ hh⟩
      · exact ⟨fun hi => hi, fun hh => hh⟩
    | return_identity_handle h =>
      simp only [Call.run, return_identity_handle]
      split
      · exact ⟨fun hi => map_erase_none _ _ _ hi, fun hh => hh⟩
      · exact ⟨fun hi => hi, fun hh => hh⟩

/-- A handle below the counter that is unregistered in a registry stays so in every
state reached afterwards without counter wrap-around. -/
theorem reachable_from_keeps_unregistered (ext : External) (s0 s : AuthenticationBuiltInImpl)
    (k : Handle) (hk : k < s0.next_handle_) (hs : ReachableFrom ext s0 s) :
    k < s.next_handle_
      ∧ (get_identity_data s0 k = none → get_identity_data s k = none)
      ∧ (get_handshake_data s0 k = none → get_handshake_data s k = none) := by
  induction hs with
  | start => exact ⟨hk, fun h => h, fun h => h⟩
  | call s c ex _ hwrap ih =>
    obtain ⟨h1, h2, h3⟩ := ih
    obtain ⟨g1, g2, g3⟩ := run_keeps_unregistered ext s ex c hwrap k h1
    exact ⟨g1, fun h => g2 (h2 h), fun h => g3 (h3 h)⟩

/-- Claim C22: idempotence of failure. Let the plugin be in a state reached from a fresh
plugin without counter wrap-around, and let `return_identity_handle h` (resp.
`return_handshake_handle h`) succeed. Then in every state reached afterwards by public
operations without counter wrap-around, `h` does not resolve in the identity (resp.
handshake) registry, and `get_identity_token`, `get_identity_status_token`,
`set_permissions_credential_and_token` and `return_identity_handle` (resp.
`get_shared_secret`, `get_authenticated_peer_credential_token` and
`return_handshake_handle`) on `h` fail and set the error-detail record (code -1, minor
code 0, a non-empty message). -/
theorem released_handle_stays_released (ext : External) (s : AuthenticationBuiltInImpl)
    (h : Handle) (ex0 : SecurityException) (hs : Reachable ext s) :
    ((return_identity_handle s h ex0).result = true →
        ∀ s', ReachableFrom ext (return_identity_handle s h ex0).state s' →
        ∀ (tok cred perm : Token) (ex : SecurityException),
          get_identity_data s' h = none
            ∧ (get_identity_token s' tok h ex).result = false
            ∧ (get_identity_token s' tok h ex).ex.populated
            ∧ (get_identity_status_token s' tok h ex).result = false
            ∧ (get_identity_status_token s' tok h ex).ex.populated
            ∧ (set_permissions_credential_and_token s' h cred perm ex).result = false
            ∧ (set_permissions_credential_and_token s' h cred perm ex).ex.populated
            ∧ (return_identity_handle s' h ex).result = false
            ∧ (return_identity_handle s' h ex).ex.populated)
      ∧ ((return_handshake_handle s h ex0).result = true →
        ∀ s', ReachableFrom ext (return_handshake_handle s h ex0).state s' →
        ∀ (tok : Token) (ex : SecurityException),
          get_handshake_data s' h = none
            ∧ (get_shared_secret s' h ex).result = none
            ∧ (get_shared_secret s' h ex).ex.populated
            ∧ (get_authenticated_peer_credential_token s' tok h ex).result = false
            ∧ (get_authenticated_peer_credential_token s' tok h ex).ex.populated
            ∧ (return_handshake_handle s' h ex).result = false
            ∧ (return_handshake_handle s' h ex).ex.populated) := by
  obtain ⟨hbelowH, hbelowI⟩ := reachable_handles_below_counter ext s hs
  constructor
  · intro hres s' hreach tok cred perm ex
    cases hreg : get_identity_data s h with
    | none =>
      rw [return_identity_handle_rejects s h ex0 hreg] at hres
      cases hres
    | some d =>
      rw [return_identity_handle_accepts s h ex0 d hreg] at hreach
      have hk : h < s.next_handle_ := hbelowI h d hreg
      have hnone : get_identity_data s' h = none :=
        (reachable_from_keeps_unregistered ext
          { s with identity_data_ := map_erase s.identity_data_ h } s' h hk hreach).2.1
          (by simp [get_identity_data, map_erase])
      have hnone' : s'.identity_data_ h = none := hnone
      refine ⟨hnone, ?_, ?_, ?_, ?_, ?_, ?_, ?_, ?_⟩
      · simp [get_identity_token, hnone]
      · simp only [get_identity_token, hnone]
        exact set_security_error_populated ex _ (by decide)
      · simp [get_identity_status_token, hnone]
      · simp only [get_identity_status_token, hnone]
        exact set_security_error_populated ex _ (by decide)
      · simp [set_permissions_credential_and_token, hnone]
      · simp only [set_permissions_credential_and_token, hnone]
        exact set_security_error_populated ex _ (by decide)
      · simp [return_identity_handle, hnone']
      · simp only [return_identity_handle, hnone']
        exact set_security_error_populated ex _ (by decide)
  · intro hres s' hreach tok ex
    cases hreg : get_handshake_data s h with
    | none =>
      rw [return_handshake_handle_rejects s h ex0 hreg] at hres
      cases hres
    | some r =>
      rw [return_handshake_handle_accepts s h ex0 r hreg] at hreach
      have hk : h < s.next_handle_ := hbelowH h r hreg
      have hnone : get_handshake_data s' h = none :=
        (reachable_from_keeps_unregistered ext
          { s with handshake_data_ := map_erase s.handshake_data_ h } s' h hk hreach).2.2
          (by simp [get_handshake_data, map_erase])
      have hnone' : s'.handshake_data_ h = none := hnone
      refine ⟨hnone, ?_, ?_, ?_, ?_, ?_, ?_⟩
      · simp [get_shared_secret, hnone]
      · simp only [get_shared_secret, hnone]
        exact set_security_error_populated ex _ (by decide)
      · simp [get_authenticated_peer_credential_token, hnone]
      · simp only [get_authenticated_peer_credential_token, hnone]
        exact set_security_error_populated ex _ (by decide)
      · simp [return_handshake_handle, hnone']
      · simp only [return_handshake_handle, hnone']
        exact set_security_error_populated ex _ (by decide)

/-- Witness for C22: after the local and the remote validation identity 2 is released;
the remote participant is then validated again (it gets handle 3), and
`get_identity_token` on handle 2 still fails. -/
theorem released_handle_stays_released_witness :
    (return_identity_handle plugin_after_two_calls 2 ex_clear).result = true
      ∧ get_identity_data plugin_after_release_and_more 2 = none
      ∧ (get_identity_token plugin_after_release_and_more TokenNIL 2 ex_clear).result = false
      ∧ (get_identity_token plugin_after_release_and_more TokenNIL 2 ex_clear).ex.populated :=
  have hreach : Reachable (ext_ok guid_01) plugin_after_two_calls :=
    Reachable.call _ call_remote ex_clear
      (Reachable.call _ call_local ex_clear Reachable.fresh (by decide)) (by decide)
  have hres : (return_identity_handle plugin_after_two_calls 2 ex_clear).result = true := by
    decide
  have hthm := (released_handle_stays_released (ext_ok guid_01) plugin_after_two_calls 2
    ex_clear hreach).1 hres plugin_after_release_and_more
    (ReachableFrom.call _ call_remote ex_clear ReachableFrom.start (by decide))
    TokenNIL TokenNIL TokenNIL ex_clear
  ⟨hres, hthm.1, hthm.2.1, hthm.2.2.1⟩

/-! ## Token builders and the codec contract -/

/-- The request message is what the request builder writes. -/
theorem handshake_request_message_eq_write (msg : Token) (data : OctetSeq) (d : IdentityData) :
    handshake_request_message msg data d = (handshake_request_builder data d).write msg := by
  unfold handshake_request_message handshake_request_builder TokenBuilder.write
  cases h : TokenReader.is_nil d.local_auth_request <;> simp [WriterCall.apply]

/-- The reply message is what the reply builder writes. -/
theorem handshake_reply_message_eq_write (msg : Token) (data : OctetSeq) (d : IdentityData) :
    handshake_reply_message msg data d = (handshake_reply_builder data d).write msg := by
  unfold handshake_reply_message handshake_reply_builder TokenBuilder.write
  cases h : TokenReader.is_nil d.local_auth_request <;> simp [WriterCall.apply]

/-- The final message is what the final builder writes. -/
theorem handshake_final_message_eq_write (msg : Token) :
    handshake_final_message msg = handshake_final_builder.write msg := rfl

/-- The outgoing auth-request token, when the incoming one is nil and nonce generation
succeeds, is what the auth-request builder writes. -/
theorem auth_request_step_eq_write (n : Int × OctetSeq) (lt rt : Token)
    (hnil : TokenReader.is_nil rt = true) (hn : n.1 = 0) :
    (auth_request_step n lt rt).2 = (auth_request_builder n.2).write lt := by
  simp [auth_request_step, hnil, hn, auth_request_builder, TokenBuilder.write,
    WriterCall.apply]

/-- The identity token of a registered handle is what the identity-token builder
writes. -/
theorem get_identity_token_eq_write (s : AuthenticationBuiltInImpl) (tok : Token)
    (h : Handle) (ex : SecurityException) (d : IdentityData)
    (hd : get_identity_data s h = some d) :
    (get_identity_token s tok h ex).token
      = (identity_token_builder s.local_credential_data_).write tok := by
  simp [get_identity_token, hd, identity_token_builder, TokenBuilder.write, WriterCall.apply]

/-- The identity status token of a registered handle is what its builder writes. -/
theorem get_identity_status_token_eq_write (s : AuthenticationBuiltInImpl) (tok : Token)
    (h : Handle) (ex : SecurityException) (d : IdentityData)
    (hd : get_identity_data s h = some d) :
    (get_identity_status_token s tok h ex).token = identity_status_token_builder.write tok := by
  simp [get_identity_status_token, hd, identity_status_token_builder, TokenBuilder.write,
    WriterCall.apply]

/-- The peer credential token of a registered handshake is what its builder writes. -/
theorem get_authenticated_peer_credential_token_eq_write (s : AuthenticationBuiltInImpl)
    (tok : Token) (h : Handle) (ex : SecurityException) (r : HandshakeData)
    (hr : get_handshake_data s h = some r) :
    (get_authenticated_peer_credential_token s tok h ex).token
      = peer_credential_token_builder.write tok := by
  simp [get_authenticated_peer_credential_token, hr, peer_credential_token_builder,
    TokenBuilder.write, WriterCall.apply]

/-- The builders of the auth-request token, the request message, the final message,
the identity token, the identity status token and the peer credential token honour the
codec contract. -/
theorem other_builders_honour_contract (nonce data : OctetSeq) (d : IdentityData)
    (cred : LocalAuthCredentialData) :
    (auth_request_builder nonce).honours_contract
      ∧ (handshake_request_builder data d).honours_contract
      ∧ handshake_final_builder.honours_contract
      ∧ (identity_token_builder cred).honours_contract
      ∧ identity_status_token_builder.honours_contract
      ∧ peer_credential_token_builder.honours_contract := by
  refine ⟨?_, ?_, by decide, ?_, by decide, by decide⟩
  · refine ⟨rfl, rfl, ?_⟩
    simp [TokenBuilder.names, auth_request_builder]
  · unfold TokenBuilder.honours_contract TokenBuilder.string_indices TokenBuilder.bin_indices
      TokenBuilder.names handshake_request_builder
    cases h : TokenReader.is_nil d.local_auth_request
    · refine ⟨rfl, rfl, ?_⟩
      simp only [Bool.not_false, if_true, List.map_append, List.map_cons, List.map_nil,
        WriterCall.name]
      decide
    · refine ⟨rfl, rfl, ?_⟩
      simp only [Bool.not_true, Bool.false_eq_true, if_false, List.map_append, List.map_cons,
        List.map_nil, WriterCall.name]
      decide
  · refine ⟨rfl, rfl, ?_⟩
    simp only [TokenBuilder.names, identity_token_builder, List.map_cons, List.map_nil,
      WriterCall.name]
    decide

/-- Claim C31: the writer of `begin_handshake_reply` does not keep to the codec
contract. It is declared with 13 binary properties, and for every participant data
and remote record the fourteen `set_bin_property` calls run over the indices 0 to 13,
the last one at the declared count, and the name "challenge1" is written twice (at
the indices 9 and 13). In the scenario, where the remote record holds the challenge
`[9]`, the reply message has 13 binary properties and the one read back under
"challenge1" is empty. The six other token builders honour the contract. -/
theorem begin_handshake_reply_breaks_codec_contract (msg : Token) (data nonce : OctetSeq)
    (d : IdentityData) (cred : LocalAuthCredentialData) :
    handshake_reply_message msg data d = (handshake_reply_builder data d).write msg
      ∧ (handshake_reply_builder data d).num_bin_properties = 13
      ∧ (handshake_reply_builder data d).bin_indices = List.range 14
      ∧ (∃ c ∈ (handshake_reply_builder data d).calls,
          c.bin_index = some (handshake_reply_builder data d).num_bin_properties)
      ∧ (handshake_reply_builder data d).names.count "challenge1".toList = 2
      ∧ ¬ (handshake_reply_builder data d).honours_contract
      ∧ (scenario_b3.result = VALIDATION_PENDING_HANDSHAKE_MESSAGE
        ∧ (∃ r, get_identity_data scenario_b2.state scenario_b2.remote_identity_handle = some r
          ∧ TokenReader.get_bin_property_value r.local_auth_request "future_challenge".toList
            = [9])
        ∧ scenario_b3.handshake_message.binary_properties.length = 13
        ∧ TokenReader.get_bin_property_value scenario_b3.handshake_message
            "challenge1".toList = [])
      ∧ ((auth_request_builder nonce).honours_contract
        ∧ (handshake_request_builder data d).honours_contract
        ∧ handshake_final_builder.honours_contract
        ∧ (identity_token_builder cred).honours_contract
        ∧ identity_status_token_builder.honours_contract
        ∧ peer_credential_token_builder.honours_contract) := by
  have hidx : (handshake_reply_builder data d).bin_indices = List.range 14 := by
    unfold TokenBuilder.bin_indices handshake_reply_builder
    cases h : TokenReader.is_nil d.local_auth_request <;> rfl
  refine ⟨handshake_reply_message_eq_write msg data d, rfl, hidx, ?_, ?_, ?_, ?_,
    other_builders_honour_contract nonce data d cred⟩
  · unfold handshake_reply_builder
    cases h : TokenReader.is_nil d.local_auth_request
    · exact ⟨.set_bin_property 13 "challenge1".toList
        (TokenReader.get_bin_property_value d.local_auth_request "future_challenge".toList)
        true, List.mem_append_right _ (by simp), rfl⟩
    · exact ⟨.set_bin_property 13 "challenge1".toList Empty_Seq true,
        List.mem_append_right _ (by simp), rfl⟩
  · unfold TokenBuilder.names handshake_reply_builder
    cases h : TokenReader.is_nil d.local_auth_request
    · simp only [Bool.not_false, if_true, List.map_append, List.map_cons, List.map_nil,
        WriterCall.name]
      decide
    · simp only [Bool.not_true, Bool.false_eq_true, if_false, List.map_append, List.map_cons,
        List.map_nil, WriterCall.name]
      decide
  · intro hc
    have h13 := hc.2.1
    rw [hidx] at h13
    have hlen := congrArg List.length h13
    simp [handshake_reply_builder] at hlen
  · refine ⟨by decide, ⟨_, rfl, by decide⟩, by decide, by decide⟩

/-! ## Shared secret -/

/-- Claim C32: of the three accessors of `SharedSecret(c1, c2, s)`, `challenge1` gives
`c1` and `sharedSecret` gives `s`, but `challenge2` gives `c1` as well, not `c2`: on
`SharedSecret([1], [2], [3])` it returns `[1]`. -/
theorem shared_secret_challenge2_reads_challenge1 :
    (∀ c1 c2 s : OctetSeq, (SharedSecret.mk c1 c2 s).challenge1 = c1
        ∧ (SharedSecret.mk c1 c2 s).sharedSecret = s
        ∧ (SharedSecret.mk c1 c2 s).challenge2 = c1)
      ∧ (SharedSecret.mk [1] [2] [3]).challenge2 = [1]
      ∧ (SharedSecret.mk [1] [2] [3]).challenge2 ≠ [2] :=
  ⟨fun _ _ _ => ⟨rfl, rfl, rfl⟩, rfl, by decide⟩

/-! ## What one call does to the registries -/

/-- The state after `process_handshake`: the state before, or the state before with the
record of the handle, which was pending, moved to VALIDATION_OK_FINAL_MESSAGE or to
VALIDATION_OK and given a shared secret. -/
theorem process_handshake_state_cases (s : AuthenticationBuiltInImpl) (out msg : Token)
    (h : Handle) (ex : SecurityException) :
    (process_handshake s out msg h ex).state = s
      ∨ ∃ r st, get_handshake_data s h = some r
        ∧ r.validation_state = VALIDATION_PENDING_HANDSHAKE_MESSAGE
        ∧ (st = VALIDATION_OK_FINAL_MESSAGE ∨ st = VALIDATION_OK)
        ∧ (process_handshake s out msg h ex).state =
          { s with
            handshake_data_ := map_assign s.handshake_data_ h
              { r with
                validation_state := st
                secret_handle := some (SharedSecret.mk Empty_Seq Empty_Seq Empty_Seq) } } := by
  by_cases hreply : get_extension msg.class_id = "Reply".toList
  · rw [process_handshake_of_reply s out msg h ex hreply]
    rcases process_handshake_guard_cases s h with ⟨r, d, hr, hd, hst⟩ | hguard
    · rw [process_handshake_reply_accepts s out msg h ex r d hr hd hst]
      exact Or.inr ⟨r, VALIDATION_OK_FINAL_MESSAGE, hr, hst, Or.inl rfl, rfl⟩
    · exact Or.inl (process_handshake_reply_rejects s out msg h ex hguard).2.1
  · by_cases hfinal : get_extension msg.class_id = "Final".toList
    · rw [process_handshake_of_final s out msg h ex hfinal]
      rcases process_handshake_guard_cases s h with ⟨r, d, hr, hd, hst⟩ | hguard
      · rw [process_final_handshake_accepts s msg h ex r d hr hd hst]
        exact Or.inr ⟨r, VALIDATION_OK, hr, hst, Or.inr rfl, rfl⟩
      · exact Or.inl (process_final_handshake_rejects s msg h ex hguard).2
    · have h1 : ¬ Handshake_Reply_Class_Ext = get_extension msg.class_id :=
        fun e => hreply e.symm
      have h2 : ¬ Handshake_Final_Class_Ext = get_extension msg.class_id :=
        fun e => hfinal e.symm
      exact Or.inl (by simp [process_handshake, h1, h2])

/-- Unchanged registries hold the identity records they held. -/
theorem identity_records_from_self (s : AuthenticationBuiltInImpl) :
    identity_records_from s s :=
  fun _ d' hd' => ⟨d', hd', rfl, rfl⟩

/-- Unchanged registries hold the handshake records they held. -/
theorem handshake_records_from_self (s : AuthenticationBuiltInImpl) :
    handshake_records_from s s :=
  fun _ _ hr' => Or.inl hr'

/-- What one call does to the counter and the two registries. It returns no handle,
leaves the counter, registers no new key, keeps identifier and pairing of every
identity record and changes a handshake record only by completing it; or it returns
the counter value, advances the counter and assigns under that value one identity
record; or it does so with one pending handshake record without secret, whose remote
handle resolves to a record paired with its local handle. -/
theorem run_allocation_cases (ext : External) (s : AuthenticationBuiltInImpl)
    (ex : SecurityException) (c : Call) :
    (c.returned_handle ext s ex = none
        ∧ (c.run ext s ex).next_handle_ = s.next_handle_
        ∧ identity_records_from s (c.run ext s ex)
        ∧ handshake_records_from s (c.run ext s ex))
      ∨ (c.returned_handle ext s ex = some s.next_handle_
        ∧ (c.run ext s ex).next_handle_ = (s.next_handle_ + 1) % 2 ^ 64
        ∧ (∃ d, (c.run ext s ex).identity_data_ = map_assign s.identity_data_ s.next_handle_ d)
        ∧ (c.run ext s ex).handshake_data_ = s.handshake_data_)
      ∨ (c.returned_handle ext s ex = some s.next_handle_
        ∧ (c.run ext s ex).next_handle_ = (s.next_handle_ + 1) % 2 ^ 64
        ∧ (c.run ext s ex).identity_data_ = s.identity_data_
        ∧ ∃ l r i d, (c.run ext s ex).handshake_data_
            = map_assign s.handshake_data_ s.next_handle_
              ⟨l, r, i, VALIDATION_PENDING_HANDSHAKE_MESSAGE, none⟩
          ∧ get_identity_data s r = some d ∧ d.local_handle = l) := by
  have keep : identity_records_from s s ∧ handshake_records_from s s :=
    ⟨identity_records_from_self s, handshake_records_from_self s⟩
  cases c with
  | validate_local_identity lh adj dom qos cand =>
    simp only [Call.returned_handle, Call.run, validate_local_identity, get_next_handle]
    split
    · split
      · exact Or.inr (Or.inl ⟨by simp, rfl, ⟨_, rfl⟩, rfl⟩)
      · exact Or.inl ⟨by simp, rfl, keep⟩
    · exact Or.inl ⟨by simp, rfl, keep⟩
  | validate_remote_identity n rh lt rt lh tok g =>
    simp only [Call.returned_handle, Call.run]
    rcases validate_remote_identity_cases n s lt rt lh tok with ⟨⟨d, hd⟩, hc, hs⟩ | hfail
    · rw [validate_remote_identity_accepts n s rh lt rt lh tok g ex d hd hc hs]
      refine Or.inr (Or.inl ⟨?_, rfl, ⟨_, rfl⟩, rfl⟩)
      simp only []
      split <;> simp
    · obtain ⟨h1, h2, -⟩ := validate_remote_identity_rejects n s rh lt rt lh tok g ex hfail
      rw [h2]
      exact Or.inl ⟨by simp [h1], rfl, keep⟩
  | begin_handshake_request hh msg ini rep data =>
    simp only [Call.returned_handle, Call.run]
    rcases begin_handshake_precondition_cases s rep ini data with ⟨hdata, d, hd, hp⟩ | hpre
    · rw [begin_handshake_request_accepts s hh msg ini rep data ex d hdata hd hp]
      exact Or.inr (Or.inr ⟨by simp, rfl, rfl, ⟨ini, rep, true, d, rfl, hd, hp⟩⟩)
    · obtain ⟨h1, h2, -⟩ := begin_handshake_request_rejects s hh msg ini rep data ex hpre
      rw [h2]
      exact Or.inl ⟨by simp [h1], rfl, keep⟩
  | begin_handshake_reply hh msg ini rep data =>
    simp only [Call.returned_handle, Call.run]
    rcases begin_handshake_precondition_cases s ini rep data with ⟨hdata, d, hd, hp⟩ | hpre
    · rw [begin_handshake_reply_accepts s hh msg ini rep data ex d hdata hd hp]
      exact Or.inr (Or.inr ⟨by simp, rfl, rfl, ⟨rep, ini, false, d, rfl, hd, hp⟩⟩)
    · obtain ⟨h1, h2, -⟩ := begin_handshake_reply_rejects s hh msg ini rep data ex hpre
      rw [h2]
      exact Or.inl ⟨by simp [h1], rfl, keep⟩
  | get_identity_token tok h =>
    refine Or.inl ⟨rfl, ?_⟩
    simp only [Call.run, get_identity_token]
    split <;> exact ⟨rfl, keep⟩
  | get_identity_status_token tok h =>
    refine Or.inl ⟨rfl, ?_⟩
    simp only [Call.run, get_identity_status_token]
    split <;> exact ⟨rfl, keep⟩
  | set_permissions_credential_and_token h cred perm =>
    refine Or.inl ⟨rfl, ?_⟩
    simp only [Call.run, set_permissions_credential_and_token]
    split
    · next d hd =>
      refine ⟨rfl, fun k d' hk => ?_, keep.2⟩
      by_cases hkh : k = h
      · subst hkh
        simp only [get_identity_data, map_assign, if_true, Option.some.injEq] at hk
        subst hk
        exact ⟨d, hd, rfl, rfl⟩
      · simp only [get_identity_data, map_assign, hkh, if_false] at hk
        exact ⟨d', hk, rfl, rfl⟩
    · exact ⟨rfl, keep⟩
  | process_handshake out msg h =>
    refine Or.inl ⟨rfl, ?_⟩
    simp only [Call.run]
    rcases process_handshake_state_cases s out msg h ex with hst | ⟨r, st, hr, hp, hto, hst⟩
    · rw [hst]
      exact ⟨rfl, keep⟩
    · rw [hst]
      refine ⟨rfl, keep.1, fun k r' hk => ?_⟩
      by_cases hkh : k = h
      · subst hkh
        simp only [get_handshake_data, map_assign, if_true, Option.some.injEq] at hk
        subst hk
        exact Or.inr ⟨r, hr, hp, hto, by simp, rfl, rfl⟩
      · simp only [get_handshake_data, map_assign, hkh, if_false] at hk
        exact Or.inl hk
  | get_shared_secret h =>
    refine Or.inl ⟨rfl, ?_⟩
    simp only [Call.run, get_shared_secret]
    split <;> exact ⟨rfl, keep⟩
  | get_authenticated_peer_credential_token tok h =>
    refine Or.inl ⟨rfl, ?_⟩
    simp only [Call.run, get_authenticated_peer_credential_token]
    split <;> exact ⟨rfl, keep⟩
  | set_listener listener =>
    refine Or.inl ⟨rfl, ?_⟩
    simp only [Call.run, set_listener]
    split <;> exact ⟨rfl, keep⟩
  | return_nothing => exact Or.inl ⟨rfl, rfl, keep⟩
  | return_handshake_handle h =>
    refine Or.inl ⟨rfl, ?_⟩
    simp only [Call.run, return_handshake_handle]
    split
    · refine ⟨rfl, keep.1, fun k r' hk => ?_⟩
      by_cases hkh : k = h
      · simp [get_handshake_data, map_erase, hkh] at hk
      · simp only [get_handshake_data, map_erase, hkh, if_false] at hk
        exact Or.inl hk
    · exact ⟨rfl, keep⟩
  | return_identity_handle h =>
    refine Or.inl ⟨rfl, ?_⟩
    simp only [Call.run, return_identity_handle]
    split
    · refine ⟨rfl, fun k d' hk => ?_, keep.2⟩
      by_cases hkh : k = h
      · simp [get_identity_data, map_erase, hkh] at hk
      · simp only [get_identity_data, map_erase, hkh, if_false] at hk
        exact ⟨d', hk, rfl, rfl⟩
    · exact ⟨rfl, keep⟩

/-! ## Invariants of the reachable states -/

/-- A state reached without counter wrap-around is a state reached. -/
theorem reachable_any_of_reachable (ext : External) (s : AuthenticationBuiltInImpl)
    (hs : Reachable ext s) : ReachableAny ext s := by
  induction hs with
  | fresh => exact ReachableAny.fresh
  | call s c ex _ _ ih => exact ReachableAny.call s c ex ih

/-- In every state reached from a fresh plugin, a registered handshake record is pending
without a secret, or is in VALIDATION_OK_FINAL_MESSAGE or VALIDATION_OK with a
secret. -/
theorem reachable_any_handshake_shape (ext : External) (s : AuthenticationBuiltInImpl)
    (hs : ReachableAny ext s) :
    ∀ h r, get_handshake_data s h = some r →
      (r.validation_state = VALIDATION_PENDING_HANDSHAKE_MESSAGE ∧ r.secret_handle = none)
        ∨ ((r.validation_state = VALIDATION_OK_FINAL_MESSAGE
            ∨ r.validation_state = VALIDATION_OK) ∧ r.secret_handle ≠ none) := by
  induction hs with
  | fresh =>
    intro h r hr
    simp [get_handshake_data, AuthenticationBuiltInImpl.new] at hr
  | call s c ex _ ih =>
    intro h r hr
    rcases run_allocation_cases ext s ex c with ⟨-, -, -, hH⟩ | ⟨-, -, -, hH⟩
      | ⟨-, -, -, l, r0, i, d, hH, -, -⟩
    · rcases hH h r hr with hsame | ⟨r1, -, -, hto, hsec, -, -⟩
      · exact ih h r hsame
      · exact Or.inr ⟨hto, hsec⟩
    · simp only [get_handshake_data, hH] at hr
      exact ih h r hr
    · simp only [get_handshake_data, hH] at hr
      by_cases hk : h = s.next_handle_
      · simp only [map_assign, hk, if_true, Option.some.injEq] at hr
        subst hr
        exact Or.inl ⟨rfl, rfl⟩
      · simp only [map_assign, hk, if_false] at hr
        exact ih h r hr

/-- In every state reached from a fresh plugin without counter wrap-around, the counter
is at least 1, every key of either registry is at least 1 and below the counter, and
no key of the identity registry is a key of the handshake registry. -/
theorem reachable_registry_invariant (ext : External) (s : AuthenticationBuiltInImpl)
    (hs : Reachable ext s) :
    1 ≤ s.next_handle_
      ∧ (∀ h, get_identity_data s h ≠ none → 1 ≤ h ∧ h < s.next_handle_)
      ∧ (∀ h, get_handshake_data s h ≠ none → 1 ≤ h ∧ h < s.next_handle_)
      ∧ (∀ h, get_identity_data s h ≠ none → get_handshake_data s h = none) := by
  induction hs with
  | fresh =>
    refine ⟨Nat.le_refl 1, ?_, ?_, ?_⟩ <;> intro h hh <;>
      simp [get_identity_data, get_handshake_data, AuthenticationBuiltInImpl.new] at hh ⊢
  | call s c ex _ hwrap ih =>
    obtain ⟨hone, hI, hH, hdis⟩ := ih
    have hmod : (s.next_handle_ + 1) % 2 ^ 64 = s.next_handle_ + 1 := Nat.mod_eq_of_lt hwrap
    rcases run_allocation_cases ext s ex c with ⟨-, hn, hfI, hfH⟩ | ⟨-, hn, ⟨d, hmI⟩, hmH⟩
      | ⟨-, hn, hmI, l, r0, i, d, hmH, -, -⟩
    · have hkI : ∀ h, get_identity_data (c.run ext s ex) h ≠ none →
          get_identity_data s h ≠ none := by
        intro h hh
        obtain ⟨d', hd'⟩ := Option.ne_none_iff_exists'.mp hh
        obtain ⟨d, hd, -, -⟩ := hfI h d' hd'
        rw [hd]
        exact Option.some_ne_none d
      have hkH : ∀ h, get_handshake_data (c.run ext s ex) h ≠ none →
          get_handshake_data s h ≠ none := by
        intro h hh
        obtain ⟨r', hr'⟩ := Option.ne_none_iff_exists'.mp hh
        rcases hfH h r' hr' with hsame | ⟨r, hr, -⟩
        · rw [hsame]
          exact Option.some_ne_none r'
        · rw [hr]
          exact Option.some_ne_none r
      rw [hn]
      refine ⟨hone, fun h hh => hI h (hkI h hh), fun h hh => hH h (hkH h hh), fun h hh => ?_⟩
      by_contra hne
      exact hkH h hne (hdis h (hkI h hh))
    · rw [hn, hmod]
      simp only [get_identity_data, get_handshake_data, hmI, hmH] at hI hH hdis ⊢
      refine ⟨Nat.le_succ_of_le hone, fun h hh => ?_, fun h hh => ?_, fun h hh => ?_⟩
      · by_cases hk : h = s.next_handle_
        · rw [hk]
          exact ⟨hone, Nat.lt_succ_self _⟩
        · simp only [map_assign, hk, if_false] at hh
          exact ⟨(hI h hh).1, Nat.lt_succ_of_lt (hI h hh).2⟩
      · exact ⟨(hH h hh).1, Nat.lt_succ_of_lt (hH h hh).2⟩
      · by_cases hk : h = s.next_handle_
        · by_contra hne
          have hlt := (hH h hne).2
          rw [hk] at hlt
          exact Nat.lt_irrefl _ hlt
        · simp only [map_assign, hk, if_false] at hh
          exact hdis h hh
    · rw [hn, hmod]
      simp only [get_identity_data, get_handshake_data, hmI, hmH] at hI hH hdis ⊢
      refine ⟨Nat.le_succ_of_le hone, fun h hh => ?_, fun h hh => ?_, fun h hh => ?_⟩
      · exact ⟨(hI h hh).1, Nat.lt_succ_of_lt (hI h hh).2⟩
      · by_cases hk : h = s.next_handle_
        · rw [hk]
          exact ⟨hone, Nat.lt_succ_self _⟩
        · simp only [map_assign, hk, if_false] at hh
          exact ⟨(hH h hh).1, Nat.lt_succ_of_lt (hH h hh).2⟩
      · have hk : h ≠ s.next_handle_ := Nat.ne_of_lt (hI h hh).2
        simp only [map_assign, hk, if_false]
        exact hdis h hh

/-- One call and a handshake key below the counter: a record found under the key after
the call stands for a record that was under the key before the call, in the same
validation state or completed from pending. -/
theorem run_handshake_state_step (ext : External) (s : AuthenticationBuiltInImpl)
    (ex : SecurityException) (c : Call) (h : Handle) (r' : HandshakeData)
    (hlt : h < s.next_handle_) (hr' : get_handshake_data (c.run ext s ex) h = some r') :
    ∃ r, get_handshake_data s h = some r
      ∧ (r'.validation_state = r.validation_state
        ∨ (r.validation_state = VALIDATION_PENDING_HANDSHAKE_MESSAGE
          ∧ (r'.validation_state = VALIDATION_OK_FINAL_MESSAGE
            ∨ r'.validation_state = VALIDATION_OK))) := by
  rcases run_allocation_cases ext s ex c with ⟨-, -, -, hH⟩ | ⟨-, -, -, hH⟩
    | ⟨-, -, -, l, r0, i, d, hH, -, -⟩
  · rcases hH h r' hr' with hsame | ⟨r1, hr1, hp, hto, -, -, -⟩
    · exact ⟨r', hsame, Or.inl rfl⟩
    · exact ⟨r1, hr1, Or.inr ⟨hp, hto⟩⟩
  · simp only [get_handshake_data, hH] at hr'
    exact ⟨r', hr', Or.inl rfl⟩
  · have hk : h ≠ s.next_handle_ := Nat.ne_of_lt hlt
    simp only [get_handshake_data, hH, map_assign, hk, if_false] at hr'
    exact ⟨r', hr', Or.inl rfl⟩

/-- A handshake record registered under a key below the counter, followed through every
state reached afterwards without counter wrap-around: a record found under the key
is in the validation state of the first one, or the first one was pending and this
one is in VALIDATION_OK_FINAL_MESSAGE or VALIDATION_OK and stays in the state it has
taken. -/
theorem reachable_from_handshake_state (ext : External) (s0 s : AuthenticationBuiltInImpl)
    (h : Handle) (r0 : HandshakeData) (hlt : h < s0.next_handle_)
    (hr0 : get_handshake_data s0 h = some r0) (hs : ReachableFrom ext s0 s) :
    h < s.next_handle_
      ∧ ∀ r, get_handshake_data s h = some r →
        (r.validation_state = r0.validation_state
          ∨ (r0.validation_state = VALIDATION_PENDING_HANDSHAKE_MESSAGE
            ∧ (r.validation_state = VALIDATION_OK_FINAL_MESSAGE
              ∨ r.validation_state = VALIDATION_OK))) := by
  induction hs with
  | start =>
    refine ⟨hlt, fun r hr => Or.inl ?_⟩
    rw [hr0] at hr
    cases hr
    rfl
  | call s c ex _ hwrap ih =>
    obtain ⟨hbelow, hrel⟩ := ih
    refine ⟨(run_keeps_unregistered ext s ex c hwrap h hbelow).1, fun r hr => ?_⟩
    obtain ⟨r1, hr1, hstep⟩ := run_handshake_state_step ext s ex c h r hbelow hr
    rcases hstep with hsame | ⟨hp, hto⟩
    · rw [hsame]
      exact hrel r1 hr1
    · rcases hrel r1 hr1 with h1 | ⟨h0, -⟩
      · exact Or.inr ⟨h1 ▸ hp, hto⟩
      · exact Or.inr ⟨h0, hto⟩

/-! ## Handshake state over time -/

/-- Claim C33: handshake state advances monotonically. Let a handshake record be
registered under `h` in a state reached from a fresh plugin without counter
wrap-around. It is in VALIDATION_PENDING_HANDSHAKE_MESSAGE, VALIDATION_OK_FINAL_MESSAGE
or VALIDATION_OK, never in VALIDATION_FAILED or VALIDATION_PENDING_HANDSHAKE_REQUEST.
If a record is registered under `h` after one public operation, or in any state reached
afterwards without counter wrap-around, that record has the same validation state, or
the first was in VALIDATION_PENDING_HANDSHAKE_MESSAGE and this one is in
VALIDATION_OK_FINAL_MESSAGE or VALIDATION_OK; so a record in VALIDATION_OK_FINAL_MESSAGE
or VALIDATION_OK keeps its state for good. -/
theorem handshake_state_monotonic (ext : External) (s : AuthenticationBuiltInImpl)
    (hs : Reachable ext s) (h : Handle) (r : HandshakeData)
    (hr : get_handshake_data s h = some r) :
    (r.validation_state ≠ VALIDATION_FAILED
        ∧ r.validation_state ≠ VALIDATION_PENDING_HANDSHAKE_REQUEST
        ∧ (r.validation_state = VALIDATION_PENDING_HANDSHAKE_MESSAGE
          ∨ r.validation_state = VALIDATION_OK_FINAL_MESSAGE
          ∨ r.validation_state = VALIDATION_OK))
      ∧ (∀ (c : Call) (ex : SecurityException) (r' : HandshakeData),
        get_handshake_data (c.run ext s ex) h = some r' →
          (r'.validation_state = r.validation_state
            ∨ (r.validation_state = VALIDATION_PENDING_HANDSHAKE_MESSAGE
              ∧ (r'.validation_state = VALIDATION_OK_FINAL_MESSAGE
                ∨ r'.validation_state = VALIDATION_OK)))
          ∧ (r.validation_state = VALIDATION_OK_FINAL_MESSAGE
              ∨ r.validation_state = VALIDATION_OK →
            r'.validation_state = r.validation_state))
      ∧ (∀ (s' : AuthenticationBuiltInImpl) (r' : HandshakeData), ReachableFrom ext s s' →
        get_handshake_data s' h = some r' →
          (r'.validation_state = r.validation_state
            ∨ (r.validation_state = VALIDATION_PENDING_HANDSHAKE_MESSAGE
              ∧ (r'.validation_state = VALIDATION_OK_FINAL_MESSAGE
                ∨ r'.validation_state = VALIDATION_OK)))
          ∧ (r.validation_state = VALIDATION_OK_FINAL_MESSAGE
              ∨ r.validation_state = VALIDATION_OK →
            r'.validation_state = r.validation_state)) := by
  have hany : ReachableAny ext s := reachable_any_of_reachable ext s hs
  have hlt : h < s.next_handle_ := (reachable_handles_below_counter ext s hs).1 h r hr
  have hdone : ∀ r' : HandshakeData,
      (r'.validation_state = r.validation_state
        ∨ (r.validation_state = VALIDATION_PENDING_HANDSHAKE_MESSAGE
          ∧ (r'.validation_state = VALIDATION_OK_FINAL_MESSAGE
            ∨ r'.validation_state = VALIDATION_OK))) →
      (r.validation_state = VALIDATION_OK_FINAL_MESSAGE
          ∨ r.validation_state = VALIDATION_OK) →
      r'.validation_state = r.validation_state := by
    intro r' hmove hd
    rcases hmove with hsame | ⟨hp, -⟩
    · exact hsame
    · rcases hd with hf | ho
      · rw [hp] at hf
        cases hf
      · rw [hp] at ho
        cases ho
  refine ⟨?_, ?_, ?_⟩
  · rcases reachable_any_handshake_shape ext s hany h r hr with ⟨hp, -⟩ | ⟨hf | ho, -⟩
    · exact ⟨by simp [hp], by simp [hp], Or.inl hp⟩
    · exact ⟨by simp [hf], by simp [hf], Or.inr (Or.inl hf)⟩
    · exact ⟨by simp [ho], by simp [ho], Or.inr (Or.inr ho)⟩
  · intro c ex r' hr'
    obtain ⟨r1, hr1, hstep⟩ := run_handshake_state_step ext s ex c h r' hlt hr'
    rw [hr] at hr1
    cases hr1
    exact ⟨hstep, hdone r' hstep⟩
  · intro s' r' hreach hr'
    have hmove := (reachable_from_handshake_state ext s s' h r hlt hr hreach).2 r' hr'
    exact ⟨hmove, hdone r' hmove⟩

/-- Witness for C33: on the pending handshake 3 of the scenario a "Reply" message moves
the record from VALIDATION_PENDING_HANDSHAKE_MESSAGE to VALIDATION_OK_FINAL_MESSAGE. -/
theorem handshake_state_monotonic_witness :
    get_handshake_data plugin_after_request 3
        = some ⟨1, 2, true, VALIDATION_PENDING_HANDSHAKE_MESSAGE, none⟩
      ∧ get_handshake_data plugin_after_reply 3
        = some ⟨1, 2, true, VALIDATION_OK_FINAL_MESSAGE, some ⟨[], [], []⟩⟩
      ∧ (VALIDATION_OK_FINAL_MESSAGE = VALIDATION_PENDING_HANDSHAKE_MESSAGE
        ∨ (VALIDATION_PENDING_HANDSHAKE_MESSAGE = VALIDATION_PENDING_HANDSHAKE_MESSAGE
          ∧ (VALIDATION_OK_FINAL_MESSAGE = VALIDATION_OK_FINAL_MESSAGE
            ∨ VALIDATION_OK_FINAL_MESSAGE = VALIDATION_OK))) :=
  have hreach : Reachable (ext_ok guid_01) plugin_after_request :=
    Reachable.call _ call_request ex_clear
      (Reachable.call _ call_remote ex_clear
        (Reachable.call _ call_local ex_clear Reachable.fresh (by decide)) (by decide))
      (by decide)
  have h0 : get_handshake_data plugin_after_request 3
      = some ⟨1, 2, true, VALIDATION_PENDING_HANDSHAKE_MESSAGE, none⟩ := by decide
  have h1 : get_handshake_data plugin_after_reply 3
      = some ⟨1, 2, true, VALIDATION_OK_FINAL_MESSAGE, some ⟨[], [], []⟩⟩ := by decide
  ⟨h0, h1, ((handshake_state_monotonic (ext_ok guid_01) plugin_after_request hreach 3 _
    h0).2.1 call_process_reply ex_clear _ h1).1⟩

/-- Claim C35: in every plugin state reached from a fresh plugin by public operations, a
registered handshake record holds a non-nil shared secret if and only if its
validation state is VALIDATION_OK_FINAL_MESSAGE or VALIDATION_OK; a record in
VALIDATION_PENDING_HANDSHAKE_MESSAGE has no secret and `get_shared_secret` on it
returns nil, and a record without secret is in VALIDATION_PENDING_HANDSHAKE_MESSAGE. -/
theorem secret_iff_handshake_complete (ext : External) (s : AuthenticationBuiltInImpl)
    (hs : ReachableAny ext s) (h : Handle) (r : HandshakeData)
    (hr : get_handshake_data s h = some r) :
    (r.secret_handle ≠ none ↔
        (r.validation_state = VALIDATION_OK_FINAL_MESSAGE
          ∨ r.validation_state = VALIDATION_OK))
      ∧ (r.validation_state = VALIDATION_PENDING_HANDSHAKE_MESSAGE →
        r.secret_handle = none ∧ ∀ ex, (get_shared_secret s h ex).result = none)
      ∧ (r.secret_handle = none →
        r.validation_state = VALIDATION_PENDING_HANDSHAKE_MESSAGE) := by
  have hget : ∀ ex, (get_shared_secret s h ex).result = r.secret_handle := by
    intro ex
    simp [get_shared_secret, hr]
  rcases reachable_any_handshake_shape ext s hs h r hr with ⟨hp, hnone⟩ | ⟨hdone, hsome⟩
  · refine ⟨⟨fun hne => absurd hnone hne, fun hd => ?_⟩, fun _ => ⟨hnone, fun ex => ?_⟩,
      fun _ => hp⟩
    · rcases hd with hf | ho
      · rw [hp] at hf
        cases hf
      · rw [hp] at ho
        cases ho
    · rw [hget ex]
      exact hnone
  · refine ⟨⟨fun _ => hdone, fun _ => hsome⟩, fun hp => ?_, fun hnone => absurd hnone hsome⟩
    rcases hdone with hf | ho
    · rw [hp] at hf
      cases hf
    · rw [hp] at ho
      cases ho

/-- Witness for C35: the pending handshake 3 of the scenario has no secret and
`get_shared_secret` returns nil on it. -/
theorem secret_iff_handshake_complete_witness :
    get_handshake_data plugin_after_request 3
        = some ⟨1, 2, true, VALIDATION_PENDING_HANDSHAKE_MESSAGE, none⟩
      ∧ (get_shared_secret plugin_after_request 3 ex_clear).result = none :=
  have hreach : ReachableAny (ext_ok guid_01) plugin_after_request :=
    ReachableAny.call _ call_request ex_clear
      (ReachableAny.call _ call_remote ex_clear
        (ReachableAny.call _ call_local ex_clear ReachableAny.fresh))
  have h0 : get_handshake_data plugin_after_request 3
      = some ⟨1, 2, true, VALIDATION_PENDING_HANDSHAKE_MESSAGE, none⟩ := by decide
  ⟨h0, ((secret_iff_handshake_complete (ext_ok guid_01) plugin_after_request hreach 3 _
    h0).2.1 rfl).2 ex_clear⟩

/-! ## Registry keys and the counter -/

/-- Claim C36: in every plugin state reached from a fresh plugin by public operations
without counter wrap-around, every key of the identity registry and of the handshake
registry is at least 1 and below the handle counter, and no handle is a key of both
registries. Hence a call that returns a handle registers a record under a key that
was in neither registry before, and every record registered before the call is
registered unchanged after it. -/
theorem registry_keys_below_counter (ext : External) (s : AuthenticationBuiltInImpl)
    (hs : Reachable ext s) :
    (∀ h, get_identity_data s h ≠ none → 1 ≤ h ∧ h < s.next_handle_)
      ∧ (∀ h, get_handshake_data s h ≠ none → 1 ≤ h ∧ h < s.next_handle_)
      ∧ (∀ h, ¬ (get_identity_data s h ≠ none ∧ get_handshake_data s h ≠ none))
      ∧ (∀ (c : Call) (ex : SecurityException) (k : Handle),
        c.returned_handle ext s ex = some k →
          get_identity_data s k = none ∧ get_handshake_data s k = none
            ∧ (get_identity_data (c.run ext s ex) k ≠ none
              ∨ get_handshake_data (c.run ext s ex) k ≠ none)
            ∧ (∀ h d, get_identity_data s h = some d →
              get_identity_data (c.run ext s ex) h = some d)
            ∧ (∀ h r, get_handshake_data s h = some r →
              get_handshake_data (c.run ext s ex) h = some r)) := by
  obtain ⟨-, hI, hH, hdis⟩ := reachable_registry_invariant ext s hs
  refine ⟨hI, hH, fun h hboth => hboth.2 (hdis h hboth.1), ?_⟩
  intro c ex k hk
  have hnoI : get_identity_data s s.next_handle_ = none := by
    by_contra hne
    exact Nat.lt_irrefl _ (hI _ hne).2
  have hnoH : get_handshake_data s s.next_handle_ = none := by
    by_contra hne
    exact Nat.lt_irrefl _ (hH _ hne).2
  have hstayI : ∀ (v : IdentityData) h d, get_identity_data s h = some d →
      map_assign s.identity_data_ s.next_handle_ v h = some d := by
    intro v h d hd
    have hne : h ≠ s.next_handle_ := by
      intro e
      rw [e, hnoI] at hd
      cases hd
    simp only [map_assign, hne, if_false]
    exact hd
  have hstayH : ∀ (v : HandshakeData) h r, get_handshake_data s h = some r →
      map_assign s.handshake_data_ s.next_handle_ v h = some r := by
    intro v h r hr
    have hne : h ≠ s.next_handle_ := by
      intro e
      rw [e, hnoH] at hr
      cases hr
    simp only [map_assign, hne, if_false]
    exact hr
  rcases run_allocation_cases ext s ex c with ⟨hret, -⟩ | ⟨hret, -, ⟨d, hmI⟩, hmH⟩
    | ⟨hret, -, hmI, l, r0, i, d, hmH, -, -⟩
  · rw [hret] at hk
    cases hk
  · rw [hret] at hk
    cases hk
    refine ⟨hnoI, hnoH, Or.inl ?_, fun h d' hd' => ?_, fun h r hr => ?_⟩
    · simp [get_identity_data, hmI, map_assign]
    · simp only [get_identity_data, hmI]
      exact hstayI d h d' hd'
    · simp only [get_handshake_data, hmH]
      exact hr
  · rw [hret] at hk
    cases hk
    refine ⟨hnoI, hnoH, Or.inr ?_, fun h d' hd' => ?_, fun h r hr => ?_⟩
    · simp [get_handshake_data, hmH, map_assign]
    · simp only [get_identity_data, hmI]
      exact hd'
    · simp only [get_handshake_data, hmH]
      exact hstayH _ h r hr

/-- Witness for C36: after the local and the remote validation of the scenario the
identity keys are 1 and 2 below the counter 3, and the handshake request returns
handle 3, which was in neither registry. -/
theorem registry_keys_below_counter_witness :
    plugin_after_two_calls.next_handle_ = 3
      ∧ (1 ≤ 2 ∧ 2 < plugin_after_two_calls.next_handle_)
      ∧ call_request.returned_handle (ext_ok guid_01) plugin_after_two_calls ex_clear = some 3
      ∧ get_identity_data plugin_after_two_calls 3 = none
      ∧ get_handshake_data plugin_after_two_calls 3 = none :=
  have hreach : Reachable (ext_ok guid_01) plugin_after_two_calls :=
    Reachable.call _ call_remote ex_clear
      (Reachable.call _ call_local ex_clear Reachable.fresh (by decide)) (by decide)
  have hthm := registry_keys_below_counter (ext_ok guid_01) plugin_after_two_calls hreach
  have hret : call_request.returned_handle (ext_ok guid_01) plugin_after_two_calls ex_clear
      = some 3 := by decide
  have hnew := hthm.2.2.2 call_request ex_clear 3 hret
  ⟨by decide, hthm.1 2 (by decide), hret, hnew.1, hnew.2.1⟩

/-! ## The identity handles of a new handshake record -/

/-- Claim C37: the tie-break is irreflexive, `is_handshake_initiator g g = false` for
every identifier. So when the local identifier `a` and the remote identifier `b` are
byte-for-byte equal, a `validate_remote_identity` that does not fail returns
VALIDATION_PENDING_HANDSHAKE_MESSAGE on the side whose local identifier is `a` and on
the side whose local identifier is `b`: neither side is told to initiate. -/
theorem tie_break_irreflexive (a b : GUID_t) (heq : a.bytes = b.bytes)
    (nA nB : Int × OctetSeq) (sA sB : AuthenticationBuiltInImpl) (rhA rhB : Handle)
    (ltA rtA ltB rtB : Token) (lhA lhB : Handle) (tokA tokB : Token)
    (exA exB : SecurityException) (dA dB : IdentityData)
    (hA : get_identity_data sA lhA = some dA) (hgA : dA.participant_guid = a)
    (hB : get_identity_data sB lhB = some dB) (hgB : dB.participant_guid = b)
    (hokA : (validate_remote_identity nA sA rhA ltA rtA lhA tokA b exA).result
      ≠ VALIDATION_FAILED)
    (hokB : (validate_remote_identity nB sB rhB ltB rtB lhB tokB a exB).result
      ≠ VALIDATION_FAILED) :
    (∀ g : GUID_t, is_handshake_initiator g g = false)
      ∧ is_handshake_initiator a b = false ∧ is_handshake_initiator b a = false
      ∧ (validate_remote_identity nA sA rhA ltA rtA lhA tokA b exA).result
        = VALIDATION_PENDING_HANDSHAKE_MESSAGE
      ∧ (validate_remote_identity nB sB rhB ltB rtB lhB tokB a exB).result
        = VALIDATION_PENDING_HANDSHAKE_MESSAGE := by
  have hirr : ∀ g : GUID_t, is_handshake_initiator g g = false :=
    fun g => lexicographical_compare_self g.bytes
  have hab : a = b := GUID_t.eq_of_bytes a b heq
  subst hab
  subst hgA
  refine ⟨hirr, hirr _, hirr _, ?_, ?_⟩
  · rw [validate_remote_identity_result nA sA rhA ltA rtA lhA tokA _ exA dA hA hokA, hirr]
    rfl
  · rw [validate_remote_identity_result nB sB rhB ltB rtB lhB tokB _ exB dB hB hokB, hgB, hirr]
    rfl

/-- Witness for C37: a plugin whose local identifier is 01 00 .. 00 validates a remote
participant with the same identifier and is told to wait for the handshake message. -/
theorem tie_break_irreflexive_witness :
    (validate_remote_identity (0, [7]) (plugin_with_local guid_01) 0 TokenNIL TokenNIL 1
        identity_token_pki guid_01 ex_clear).result ≠ VALIDATION_FAILED
      ∧ (validate_remote_identity (0, [7]) (plugin_with_local guid_01) 0 TokenNIL TokenNIL 1
        identity_token_pki guid_01 ex_clear).result = VALIDATION_PENDING_HANDSHAKE_MESSAGE :=
  have hok : (validate_remote_identity (0, [7]) (plugin_with_local guid_01) 0 TokenNIL
      TokenNIL 1 identity_token_pki guid_01 ex_clear).result ≠ VALIDATION_FAILED := by decide
  ⟨hok, (tie_break_irreflexive guid_01 guid_01 rfl (0, [7]) (0, [7]) (plugin_with_local guid_01)
    (plugin_with_local guid_01) 0 0 TokenNIL TokenNIL TokenNIL TokenNIL 1 1 identity_token_pki
    identity_token_pki ex_clear ex_clear
    { IdentityData.make_rch with participant_guid := guid_01 }
    { IdentityData.make_rch with participant_guid := guid_01 }
    rfl rfl rfl rfl hok hok).2.2.2.1⟩

/-! ## The identity token -/

/-- Setting all four positions of a sequence of four elements leaves exactly the four
values set, in index order. -/
theorem set_four {α : Type} (l : List α) (hl : l.length = 4) (a0 a1 a2 a3 : α) :
    (((l.set 0 a0).set 1 a1).set 2 a2).set 3 a3 = [a0, a1, a2, a3] := by
  rcases l with _ | ⟨x0, _ | ⟨x1, _ | ⟨x2, _ | ⟨x3, l⟩⟩⟩⟩
  all_goals simp at hl
  subst hl
  rfl

/-- The identity token written for a registered handle, as a whole. -/
theorem get_identity_token_accepts (s : AuthenticationBuiltInImpl) (tok : Token) (h : Handle)
    (ex : SecurityException) (hreg : get_identity_data s h ≠ none) :
    get_identity_token s tok h ex =
      { result := true, state := s
        token := ⟨"DDS:Auth:PKI-DH:1.0".toList,
          [⟨"dds.cert.sn".toList, s.local_credential_data_.participant_cert.subject_name, true⟩,
            ⟨"dds.cert.algo".toList, s.local_credential_data_.participant_cert.algorithm, true⟩,
            ⟨"dds.ca.sn".toList, s.local_credential_data_.ca_cert.subject_name, true⟩,
            ⟨"dds.ca.algo".toList, s.local_credential_data_.ca_cert.algorithm, true⟩], []⟩
        ex := ex } := by
  obtain ⟨d, hd⟩ := Option.ne_none_iff_exists'.mp hreg
  simp only [get_identity_token, hd, TokenWriter, TokenWriter.set_property, seq_length_zero]
  rw [set_four _ (seq_length_length _ _ 4)]

/-- Claim C38: `get_identity_token` does not depend on which identity is asked for. In
any plugin state and for any two registered identity handles, whatever the output
parameters hold before the calls, both calls succeed and write the same token: class
identifier "DDS:Auth:PKI-DH:1.0" and the four string properties dds.cert.sn,
dds.cert.algo, dds.ca.sn and dds.ca.algo taken from the plugin-wide credential data.
That data is what the loading step of `validate_local_identity` made of it, whether
that call fails or not, and no other operation changes it. -/
theorem get_identity_token_same_for_all_handles (s : AuthenticationBuiltInImpl)
    (tok1 tok2 : Token) (h1 h2 : Handle) (ex1 ex2 : SecurityException)
    (hreg1 : get_identity_data s h1 ≠ none) (hreg2 : get_identity_data s h2 ≠ none) :
    (get_identity_token s tok1 h1 ex1).result = true
      ∧ (get_identity_token s tok2 h2 ex2).result = true
      ∧ (get_identity_token s tok1 h1 ex1).token = (get_identity_token s tok2 h2 ex2).token
      ∧ (get_identity_token s tok1 h1 ex1).token =
        ⟨"DDS:Auth:PKI-DH:1.0".toList,
          [⟨"dds.cert.sn".toList, s.local_credential_data_.participant_cert.subject_name, true⟩,
            ⟨"dds.cert.algo".toList, s.local_credential_data_.participant_cert.algorithm, true⟩,
            ⟨"dds.ca.sn".toList, s.local_credential_data_.ca_cert.subject_name, true⟩,
            ⟨"dds.ca.algo".toList, s.local_credential_data_.ca_cert.algorithm, true⟩], []⟩
      ∧ (∀ (ext : External) (lh : Handle) (adj : GUID_t) (dom : Int) (qos : List Property_t)
          (cand : GUID_t) (ex : SecurityException),
          (validate_local_identity ext s lh adj dom qos cand ex).state.local_credential_data_
            = ext.load s.local_credential_data_ qos)
      ∧ (∀ (ext : External) (c : Call) (ex : SecurityException),
          (∀ lh adj dom qos cand, c ≠ Call.validate_local_identity lh adj dom qos cand) →
          (c.run ext s ex).local_credential_data_ = s.local_credential_data_) := by
  refine ⟨?_, ?_, ?_, ?_, ?_, ?_⟩
  · rw [get_identity_token_accepts s tok1 h1 ex1 hreg1]
  · rw [get_identity_token_accepts s tok2 h2 ex2 hreg2]
  · rw [get_identity_token_accepts s tok1 h1 ex1 hreg1,
      get_identity_token_accepts s tok2 h2 ex2 hreg2]
  · rw [get_identity_token_accepts s tok1 h1 ex1 hreg1]
  · intro ext lh adj dom qos cand ex
    unfold validate_local_identity
    by_cases hv : ext.validate (ext.load s.local_credential_data_ qos) = true
    · by_cases ha : (ext.make_adjusted_guid cand adj
          (ext.load s.local_credential_data_ qos).participant_cert).1 = 0
      · simp [hv, ha, get_next_handle]
      · simp [hv, ha]
    · simp [hv]
  · intro ext c ex hc
    cases c with
    | validate_local_identity lh adj dom qos cand => exact absurd rfl (hc lh adj dom qos cand)
    | validate_remote_identity n rh lt rt lh tok g =>
      simp only [Call.run]
      rcases validate_remote_identity_cases n s lt rt lh tok with ⟨⟨d, hd⟩, hcl, hst⟩ | hfail
      · rw [validate_remote_identity_accepts n s rh lt rt lh tok g ex d hd hcl hst]
      · rw [(validate_remote_identity_rejects n s rh lt rt lh tok g ex hfail).2.1]
    | begin_handshake_request hh msg ini rep data =>
      simp only [Call.run]
      rcases begin_handshake_precondition_cases s rep ini data with ⟨hdata, d, hd, hp⟩ | hpre
      · rw [begin_handshake_request_accepts s hh msg ini rep data ex d hdata hd hp]
      · rw [(begin_handshake_request_rejects s hh msg ini rep data ex hpre).2.1]
    | begin_handshake_reply hh msg ini rep data =>
      simp only [Call.run]
      rcases begin_handshake_precondition_cases s ini rep data with ⟨hdata, d, hd, hp⟩ | hpre
      · rw [begin_handshake_reply_accepts s hh msg ini rep data ex d hdata hd hp]
      · rw [(begin_handshake_reply_rejects s hh msg ini rep data ex hpre).2.1]
    | process_handshake out msg h =>
      simp only [Call.run]
      rcases process_handshake_state_cases s out msg h ex with hst | ⟨r, st, -, -, -, hst⟩
      · rw [hst]
      · rw [hst]
    | get_identity_token tok h =>
      simp only [Call.run, get_identity_token]
      split <;> rfl
    | get_identity_status_token tok h =>
      simp only [Call.run, get_identity_status_token]
      split <;> rfl
    | set_permissions_credential_and_token h cred perm =>
      simp only [Call.run, set_permissions_credential_and_token]
      split <;> rfl
    | get_shared_secret h =>
      simp only [Call.run, get_shared_secret]
      split <;> rfl
    | get_authenticated_peer_credential_token tok h =>
      simp only [Call.run, get_authenticated_peer_credential_token]
      split <;> rfl
    | set_listener listener =>
      simp only [Call.run, set_listener]
      split <;> rfl
    | return_nothing => rfl
    | return_handshake_handle h =>
      simp only [Call.run, return_handshake_handle]
      split <;> rfl
    | return_identity_handle h =>
      simp only [Call.run, return_identity_handle]
      split <;> rfl

/-- Witness for C38: in the plugin with the local identity 1 and the remote identity 2,
after a local validation that loaded the credential "CN=B" and failed, the tokens
written for handle 1 and for handle 2, into output parameters of different content,
are the same, and both show the subject "CN=B". -/
theorem get_identity_token_same_for_all_handles_witness :
    (validate_local_identity ext_load_invalid plugin_with_pair 0 GUID_UNKNOWN 0 [] guid_01
        ex_clear).result = VALIDATION_FAILED
      ∧ get_identity_data plugin_after_failed_local 1 ≠ none
      ∧ get_identity_data plugin_after_failed_local 2 ≠ none
      ∧ (get_identity_token plugin_after_failed_local TokenNIL 1 ex_clear).token
        = (get_identity_token plugin_after_failed_local auth_request_9 2 ex_old).token
      ∧ (get_identity_token plugin_after_failed_local auth_request_9 2 ex_old).token.properties.head?
        = some ⟨"dds.cert.sn".toList, "CN=B".toList, true⟩ :=
  have h1 : get_identity_data plugin_after_failed_local 1 ≠ none := by decide
  have h2 : get_identity_data plugin_after_failed_local 2 ≠ none := by decide
  ⟨by decide, h1, h2, (get_identity_token_same_for_all_handles plugin_after_failed_local
    TokenNIL auth_request_9 1 2 ex_clear ex_old h1 h2).2.2.1, by decide⟩

/-! ## `DataLinkSet::remove_links` -/

/-- The map left by `unbind`: the entries under other keys, whether the key was bound
or not. -/
theorem unbind_snd (c : MapType) (k : DataLinkIdType) :
    (unbind c k).2 = c.filter (fun e => e.1 != k) := by
  unfold unbind
  split
  · rfl
  · next hnone =>
    simp only [Bool.not_eq_true, List.any_eq_false] at hnone
    symm
    rw [List.filter_eq_self]
    intro e he
    have := hnone e he
    simpa using this

/-- The result code of `unbind` is 0 exactly when the key was bound. -/
theorem unbind_fst (c : MapType) (k : DataLinkIdType) :
    (unbind c k).1 = 0 ↔ k ∈ c.map Prod.fst := by
  unfold unbind
  split
  · next hany =>
    simp only [List.any_eq_true, beq_iff_eq] at hany
    obtain ⟨e, he, hek⟩ := hany
    simp only [true_iff]
    exact List.mem_map.mpr ⟨e, he, hek⟩
  · next hnone =>
    simp only [Bool.not_eq_true, List.any_eq_false, beq_iff_eq] at hnone
    constructor
    · intro h
      simp at h
    · intro h
      obtain ⟨e, he, hek⟩ := List.mem_map.mp h
      exact absurd hek (hnone e he)

/-- The loop of `remove_links` leaves the entries whose id is not bound in the released
map, in their order. -/
theorem unbind_loop (released m : MapType) :
    released.foldl (fun m itr => (unbind m itr.1).2) m
      = m.filter (fun e => decide (e.1 ∉ released.map Prod.fst)) := by
  induction released generalizing m with
  | nil => simp
  | cons itr rest ih =>
    rw [List.foldl_cons, ih, unbind_snd, List.filter_filter]
    congr 1
    funext e
    by_cases hk : e.1 = itr.1
    · simp [hk]
    · by_cases hr : e.1 ∈ rest.map Prod.fst
      · simp only [hr, not_true_eq_false, decide_False, Bool.false_and, List.map_cons,
          List.mem_cons, or_true]
      · simp only [hr, not_false_eq_true, decide_True, Bool.true_and, List.map_cons,
          List.mem_cons, hk, or_self, bne_iff_ne, ne_eq]

/-- A lookup in a filtered map, under a key whose entries pass the filter, is the
lookup in the map. -/
theorem find_filter (m : MapType) (p : DataLinkIdType → Bool) (id : DataLinkIdType)
    (hp : p id = true) :
    (m.filter (fun e => p e.1)).find? (fun e => e.1 == id) = m.find? (fun e => e.1 == id) := by
  induction m with
  | nil => rfl
  | cons e rest ih =>
    by_cases he : e.1 = id
    · have hpe : p e.1 = true := by rw [he]; exact hp
      rw [List.filter_cons, if_pos hpe, List.find?_cons, List.find?_cons]
      simp [he]
    · by_cases hpe : p e.1 = true
      · simp [List.filter_cons, hpe, List.find?_cons, he, ih]
      · simp [List.filter_cons, hpe, List.find?_cons, he, ih]

/-- Claim C39: `remove_links` performs set subtraction. After `M.remove_links(R)` the
entries of M are the former entries of M whose id is not in R, in their order: an id
is in M exactly when it was in M and is not in R, each retained id maps to the link it
mapped to, the ids stay pairwise different when they were, and the value returned is
the number of entries left in M. -/
theorem remove_links_set_subtraction (M R : DataLinkSet) :
    (M.remove_links R).2.map_ = M.map_.filter (fun e => decide (e.1 ∉ R.ids))
      ∧ (∀ id, id ∈ (M.remove_links R).2.ids ↔ (id ∈ M.ids ∧ id ∉ R.ids))
      ∧ (∀ id, id ∈ (M.remove_links R).2.ids → (M.remove_links R).2.find id = M.find id)
      ∧ (M.ids.Nodup → (M.remove_links R).2.ids.Nodup)
      ∧ (M.remove_links R).1 = ((M.remove_links R).2.map_.length : Int)
      ∧ (M.remove_links R).1 = (((M.ids.filter (fun id => decide (id ∉ R.ids))).length : Nat) : Int)
      := by
  have hmap : (M.remove_links R).2.map_ = M.map_.filter (fun e => decide (e.1 ∉ R.ids)) :=
    unbind_loop R.map_ M.map_
  have hids : (M.remove_links R).2.ids = M.ids.filter (fun id => decide (id ∉ R.ids)) := by
    simp only [DataLinkSet.ids, hmap, List.filter_map]
    rfl
  have hmem : ∀ id, id ∈ (M.remove_links R).2.ids ↔ (id ∈ M.ids ∧ id ∉ R.ids) := by
    intro id
    rw [hids, List.mem_filter]
    simp
  refine ⟨hmap, hmem, ?_, ?_, rfl, ?_⟩
  · intro id hid
    have hnot : id ∉ R.ids := ((hmem id).mp hid).2
    simp only [DataLinkSet.find, hmap]
    rw [find_filter M.map_ (fun k => decide (k ∉ R.ids)) id (by simpa using hnot)]
  · intro hnodup
    rw [hids]
    exact hnodup.filter _
  · show ((M.remove_links R).2.map_.length : Int) = _
    have hlen : (M.remove_links R).2.map_.length = (M.remove_links R).2.ids.length := by
      simp [DataLinkSet.ids]
    rw [hlen, hids]

/-- Witness for C39: the ids 2, 4 and 7 removed from the links 1, 2, 3 and 4 leave the
links 1 and 3, and 2 is returned. -/
theorem remove_links_set_subtraction_witness :
    links_1234.ids.Nodup
      ∧ (links_1234.remove_links links_247).2.ids.Nodup
      ∧ (links_1234.remove_links links_247).2 = ⟨[(1, 100), (3, 300)]⟩
      ∧ (links_1234.remove_links links_247).1 = 2 :=
  have hnodup : links_1234.ids.Nodup := by decide
  ⟨hnodup, (remove_links_set_subtraction links_1234 links_247).2.2.2.1 hnodup, by decide,
    by decide⟩

/-! ## Subscript and sum of the sequence iterator -/

/-- Claim C40: the subscript `it[n]` reads the sequence at the index `n`, whatever the
position of the iterator, while `*(it + n)` reads it at `current_ + n`. On the sequence
10, 20, 30 with the iterator at index 1 and `n = 1` (so that `0 ≤ 1 + 1 < 3`),
`it[1]` is 20, the element at index 1, and `*(it + 1)` is 30, the element at index 2. -/
theorem subscript_ignores_position :
    (∀ (α : Type) (it : SequenceIteratorBase α) (n : Int),
        it.subscript n = sequence_at it.seq_ n)
      ∧ (∀ (α : Type) (it : SequenceIteratorBase α) (n : Int),
        (it.plus n).deref = sequence_at it.seq_ (it.current_ + n))
      ∧ ((SequenceIteratorBase.begin sequence_10_20_30).plus 1).current_ = 1
      ∧ (0 ≤ (1 : Int) + 1 ∧ (1 : Int) + 1 < sequence_10_20_30.length)
      ∧ ((SequenceIteratorBase.begin sequence_10_20_30).plus 1).subscript 1 = some 20
      ∧ (((SequenceIteratorBase.begin sequence_10_20_30).plus 1).plus 1).deref = some 30
      ∧ ((SequenceIteratorBase.begin sequence_10_20_30).plus 1).subscript 1
        ≠ (((SequenceIteratorBase.begin sequence_10_20_30).plus 1).plus 1).deref :=
  ⟨fun _ _ _ => rfl, fun _ _ _ => rfl, by decide, by decide, by decide, by decide, by decide⟩

end OpenDDS.Security
